import Mathlib

/-!
# BunnyMark: spawn state machine, sprite physics and frame loop of the raw-API renderer

A shallow embedding of `VulkanBunnyMark/bunnymark/bunnymark.cpp`, of the frame loop of
`base/VulkanFramework.cpp`, of the selections made by `base/VulkanSwapChain.hpp`, of the
buffer wrapper of `base/VulkanBuffer.hpp` and of the update of the scene-graph variant
`CocosBunnyMark/Classes/HelloWorldScene.cpp`, and theorems about them.

Conventions of the embedding:

* `float` values are exact rationals (`ℚ`): rounding, infinities and NaN are not modelled.
  The literals `0.5f`, `-0.85f`, `60.f` are the rationals `1/2`, `-17/20`, `60`; the literal
  `0.1f`, which the hold timer is compared with, is the value of type `float` nearest to
  `0.1`, the rational `13421773 / 2 ^ 27`.
* `uint32_t` members are naturals, reduced modulo `2 ^ 32` where the program increments them.
* the C library generator behind `rand()` is the sequence of values it returns, with a
  position.
* a `SpriteData*` held by a sprite is the index of the record in the owning batch's
  `spriteDatas` (a batch is moved, not copied, when `spriteBatches` grows, so the records
  stay where the pointers point).
* Vulkan calls (buffer creation, mapping) succeed unless their result is an input; an
  exception thrown by the C++ library, a fatal exit and undefined behaviour are the result
  `none`.
* what the device and the window system answer in a frame is an input of that frame, and what
  the program does towards them is a list of events.
-/

namespace BunnyMark

/-! ## Platform and random numbers -/

/-- What the program takes from its platform: the constant `RAND_MAX`, the functions `sinf`
and `cosf` of the C library, and which branch of `isClickDown` is compiled. -/
structure Platform where
  RAND_MAX : Nat
  sinf : ℚ → ℚ
  cosf : ℚ → ℚ
  win32 : Bool

/-- State of the C library generator: the sequence of values `rand()` returns in the run,
and how many of them have been drawn. -/
structure RandStream where
  draws : Nat → Nat
  pos : Nat

/-- The value the `k`-th next call of `rand()` returns (`k = 0` for the next call). -/
def RandStream.peek (g : RandStream) (k : Nat) : Nat := g.draws (g.pos + k)

/-- One call of `rand()`: the value returned and the generator afterwards. -/
def rand (g : RandStream) : Nat × RandStream := (g.draws g.pos, { g with pos := g.pos + 1 })

/-- The constant `bunniesAddingThreshold = 0.1f`, in seconds: the value of type `float`
nearest to `0.1`, which is `13421773 / 2 ^ 27`, a little more than `1/10`. -/
def bunniesAddingThreshold : ℚ := 13421773 / 134217728

/-- The finite values of the type `float` (IEEE 754 binary32): `m * 2 ^ e` with
`|m| < 2 ^ 24` and `-149 ≤ e ≤ 104`. A sum or a difference of two values of type `float`
whose exact result is such a value is computed without rounding. -/
def IsFloat (q : ℚ) : Prop :=
  ∃ m e : Int, |m| < 2 ^ 24 ∧ -149 ≤ e ∧ e ≤ 104 ∧ q = (m : ℚ) * (2 : ℚ) ^ e

/-- The constant `gravity = 0.5f`. -/
def gravity : ℚ := 1 / 2

/-- The constant `bunniesEachTime = 5000`. -/
def bunniesEachTime : Nat := 5000

/-- The function `rrand()`: `(float)rand() / (float)RAND_MAX`. -/
def rrand (P : Platform) (g : RandStream) : ℚ × RandStream :=
  (((rand g).1 : ℚ) / (P.RAND_MAX : ℚ), (rand g).2)

/-- The overload `rrand(a, b)`: `a + r * (b - a)` with `r = (float)rand() / (float)RAND_MAX`. -/
def rrand2 (P : Platform) (a b : ℚ) (g : RandStream) : ℚ × RandStream :=
  (a + (((rand g).1 : ℚ) / (P.RAND_MAX : ℚ)) * (b - a), (rand g).2)

/-! ## Sprites and batches -/

/-- A `glm::mat2`, column by column. -/
structure Mat2 where
  c0x : ℚ
  c0y : ℚ
  c1x : ℚ
  c1y : ℚ
deriving DecidableEq, Repr

/-- Product of two `glm::mat2`. -/
def Mat2.mul (a b : Mat2) : Mat2 :=
  { c0x := a.c0x * b.c0x + a.c1x * b.c0y
    c0y := a.c0y * b.c0x + a.c1y * b.c0y
    c1x := a.c0x * b.c1x + a.c1x * b.c1y
    c1y := a.c0y * b.c1x + a.c1y * b.c1y }

/-- The per-instance record `SpriteData`. -/
structure SpriteData where
  inSpriteScaleRotation : Mat2
  inSpritePosition : ℚ × ℚ
deriving DecidableEq, Repr

/-- A value-initialised `SpriteData`. -/
def SpriteData.zero : SpriteData :=
  { inSpriteScaleRotation := ⟨0, 0, 0, 0⟩, inSpritePosition := (0, 0) }

/-- The size `sizeof(SpriteData)`: a 2x2 and a 2-component vector of 4-byte floats. -/
def sizeofSpriteData : Nat := 24

/-- The size `sizeof(VertexData)`: one 4-component vector of 4-byte floats. -/
def sizeofVertexData : Nat := 16

/-- The struct `Sprite`. -/
structure Sprite where
  x : ℚ
  y : ℚ
  scale : ℚ
  rotation : ℚ
  renderData : Option Nat
  speedX : ℚ
  speedY : ℚ
deriving DecidableEq, Repr

/-- The method `Sprite::updatePosition`: writes `(x, y)` into the record pointed to. -/
def Sprite.updatePosition (s : Sprite) (datas : List SpriteData) : List SpriteData :=
  match s.renderData with
  | none => datas
  | some i =>
    match datas[i]? with
    | none => datas
    | some r => datas.set i { r with inSpritePosition := (s.x, s.y) }

/-- The method `Sprite::updateScaleRotation`: writes `scalemat * rotmat` into the record. -/
def Sprite.updateScaleRotation (P : Platform) (s : Sprite) (datas : List SpriteData) :
    List SpriteData :=
  match s.renderData with
  | none => datas
  | some i =>
    match datas[i]? with
    | none => datas
    | some r =>
      let scalemat : Mat2 := ⟨s.scale, 0, 0, s.scale⟩
      let sinr := P.sinf s.rotation
      let cosr := P.cosf s.rotation
      let rotmat : Mat2 := ⟨cosr, -sinr, sinr, cosr⟩
      datas.set i { r with inSpriteScaleRotation := scalemat.mul rotmat }

/-- The method `Sprite::setRenderData`. -/
def Sprite.setRenderData (P : Platform) (s : Sprite) (data : Option Nat)
    (datas : List SpriteData) : Sprite × List SpriteData :=
  match data with
  | none => (s, datas)
  | some i =>
    let s1 := { s with renderData := some i }
    let datas1 :=
      match datas[i]? with
      | none => datas
      | some r => datas.set i { r with inSpritePosition := (s1.x, s1.y) }
    (s1, s1.updateScaleRotation P datas1)

/-- The part of the batch's `vks::Buffer instanceBuffer` the program uses: its size in bytes
and the records held by its mapped memory. -/
structure InstanceBuffer where
  size : Nat
  mappedData : List SpriteData
deriving DecidableEq, Repr

/-- The struct `SpriteBatch`. -/
structure SpriteBatch where
  texId : Nat
  spriteDatas : List SpriteData
  sprites : List Sprite
  instanceBuffer : InstanceBuffer
deriving DecidableEq, Repr

/-- The constructor `SpriteBatch(type)`. -/
def SpriteBatch.new (type : Nat) : SpriteBatch :=
  { texId := type, spriteDatas := [], sprites := [], instanceBuffer := ⟨0, []⟩ }

/-- The loop of `initSprites`: `sprites[i].setRenderData(&spriteDatas[i])` from index `i` on. -/
def initSpritesLoop (P : Platform) : Nat → List Sprite → List SpriteData →
    List Sprite × List SpriteData
  | _, [], datas => ([], datas)
  | i, s :: rest, datas =>
    ((s.setRenderData P (some i) datas).1 ::
        (initSpritesLoop P (i + 1) rest (s.setRenderData P (some i) datas).2).1,
      (initSpritesLoop P (i + 1) rest (s.setRenderData P (some i) datas).2).2)

/-- The call `spriteDatas.resize(n)`: the first `n` records, then value-initialised ones. -/
def resizeSpriteDatas (datas : List SpriteData) (n : Nat) : List SpriteData :=
  datas.take n ++ List.replicate (n - datas.length) SpriteData.zero

/-- The method `SpriteBatch::initSprites`. The mapped memory of the new buffer is
indeterminate until the first flush; it is shown as zero records. -/
def SpriteBatch.initSprites (P : Platform) (b : SpriteBatch) (sprs : List Sprite) :
    SpriteBatch :=
  let datas := resizeSpriteDatas b.spriteDatas sprs.length
  let r := initSpritesLoop P 0 (b.sprites ++ sprs) datas
  { b with
    spriteDatas := r.2
    sprites := r.1
    instanceBuffer :=
      ⟨r.2.length * sizeofSpriteData, List.replicate r.2.length SpriteData.zero⟩ }

/-- The method `SpriteBatch::flush`: `memcpy` of all records into the mapped memory. -/
def SpriteBatch.flush (b : SpriteBatch) : SpriteBatch :=
  { b with
    instanceBuffer :=
      { b.instanceBuffer with
        mappedData := b.spriteDatas ++ b.instanceBuffer.mappedData.drop b.spriteDatas.length } }

/-! ## The application state -/

/-- The members of `VulkanDemo` (and of its base `VulkanFramework`) that `addBunnies` and
`update` read or write, with the state of the C library generator. -/
structure VulkanDemo where
  width : Nat
  height : Nat
  mouseButtonsLeft : Bool
  touchDown : Bool
  drawCmdBuffersValid : List Bool
  bunnyCount : Nat
  spriteBatches : List SpriteBatch
  currentTexId : Nat
  clickDownTime : ℚ
  randState : RandStream

/-- The members as initialised by the class: `bunnyCount = 0`, no batch, `currentTexId = 0`,
`clickDownTime = -1.f`. -/
def VulkanDemo.Initial (s : VulkanDemo) : Prop :=
  s.bunnyCount = 0 ∧ s.spriteBatches = [] ∧ s.currentTexId = 0 ∧ s.clickDownTime = -1

/-- The method `VulkanFramework::invalidateCommandBuffers`: `std::fill` with `false`. -/
def invalidateCommandBuffers (s : VulkanDemo) : VulkanDemo :=
  { s with drawCmdBuffersValid := s.drawCmdBuffersValid.map fun _ => false }

/-- The body of the loop of `addBunnies` for one sprite, after `sprs.resize`. -/
def newBunny (P : Platform) (g : RandStream) : Sprite × RandStream :=
  let speedX := rrand P g
  let speedY := rrand P speedX.2
  let scale := rrand2 P (1 / 2) 1 speedY.2
  let rotation := rrand P scale.2
  ({ x := 0, y := 0, scale := scale.1, rotation := rotation.1 - 1 / 2, renderData := none,
     speedX := speedX.1 * 10, speedY := speedY.1 * 10 - 5 }, rotation.2)

/-- The loop of `addBunnies`: `amount` sprites, drawn in order from the generator. -/
def makeBunnies (P : Platform) : Nat → RandStream → List Sprite × RandStream
  | 0, g => ([], g)
  | n + 1, g =>
    ((newBunny P g).1 :: (makeBunnies P n (newBunny P g).2).1,
      (makeBunnies P n (newBunny P g).2).2)

/-- The method `VulkanDemo::addBunnies` for an amount that is not negative. -/
def addBunniesCore (P : Platform) (s : VulkanDemo) (amount : Nat) : VulkanDemo :=
  let made := makeBunnies P amount s.randState
  let batch := (SpriteBatch.new s.currentTexId).initSprites P made.1
  invalidateCommandBuffers
    { s with
      spriteBatches := s.spriteBatches ++ [batch]
      bunnyCount := (s.bunnyCount + amount) % 2 ^ 32
      randState := made.2 }

/-- The method `VulkanDemo::addBunnies(int32_t amount)`. With a negative amount
`sprs.resize(amount)` is asked for more than `max_size()` elements and throws. -/
def addBunnies (P : Platform) (s : VulkanDemo) (amount : Int) : Option VulkanDemo :=
  if amount < 0 then none else some (addBunniesCore P s amount.toNat)

/-- The method `VulkanDemo::isClickDown`. -/
def isClickDown (P : Platform) (s : VulkanDemo) : Bool :=
  if P.win32 then s.mouseButtonsLeft else s.touchDown

/-! ## The physics step -/

/-- The body of the inner loop of `update` for one sprite, before `updatePosition`. -/
def updateBunny (P : Platform) (d gravityd maxX maxY : ℚ) (bunny : Sprite) (g : RandStream) :
    Sprite × RandStream :=
  let b1 := { bunny with x := bunny.x + bunny.speedX * d }
  let b2 := { b1 with y := b1.y + b1.speedY * d }
  let b3 := { b2 with speedY := b2.speedY + gravityd }
  let b4 :=
    if b3.x > maxX then { b3 with speedX := b3.speedX * -1, x := maxX }
    else if b3.x < 0 then { b3 with speedX := b3.speedX * -1, x := 0 }
    else b3
  if b4.y > maxY then
    let b5 := { b4 with speedY := b4.speedY * (-17 / 20), y := maxY }
    if (rand g).1 &&& 1 ≠ 0 then
      ({ b5 with speedY := b5.speedY - (rrand P (rand g).2).1 * 6 }, (rrand P (rand g).2).2)
    else (b5, (rand g).2)
  else if b4.y < 0 then ({ b4 with speedY := 0, y := 0 }, g)
  else (b4, g)

/-- The inner loop of `update` over the sprites of one batch. -/
def updateSprites (P : Platform) (d gravityd maxX maxY : ℚ) :
    List Sprite → List SpriteData → RandStream → List Sprite × List SpriteData × RandStream
  | [], datas, g => ([], datas, g)
  | bunny :: rest, datas, g =>
    let r := updateBunny P d gravityd maxX maxY bunny g
    let t := updateSprites P d gravityd maxX maxY rest (r.1.updatePosition datas) r.2
    (r.1 :: t.1, t.2.1, t.2.2)

/-- One iteration of the outer loop of `update`: all sprites of the batch, then `flush`. -/
def updateBatch (P : Platform) (d gravityd maxX maxY : ℚ) (batch : SpriteBatch)
    (g : RandStream) : SpriteBatch × RandStream :=
  let r := updateSprites P d gravityd maxX maxY batch.sprites batch.spriteDatas g
  (SpriteBatch.flush { batch with sprites := r.1, spriteDatas := r.2.1 }, r.2.2)

/-- The outer loop of `update` over the batches, in creation order. -/
def updateBatches (P : Platform) (d gravityd maxX maxY : ℚ) :
    List SpriteBatch → RandStream → List SpriteBatch × RandStream
  | [], g => ([], g)
  | batch :: rest, g =>
    let r := updateBatch P d gravityd maxX maxY batch g
    let t := updateBatches P d gravityd maxX maxY rest r.2
    (r.1 :: t.1, t.2)

/-- The second half of `update` (under `// update bunnies!`). -/
def updateBunnies (P : Platform) (s : VulkanDemo) (deltaTime : ℚ) : VulkanDemo :=
  let maxX : ℚ := s.width
  let maxY : ℚ := s.height
  let d := 60 * deltaTime
  let gravityd := gravity * d
  let r := updateBatches P d gravityd maxX maxY s.spriteBatches s.randState
  { s with spriteBatches := r.1, randState := r.2 }

/-- The first half of `update`: the press, hold and release handling. -/
def updateClick (P : Platform) (s : VulkanDemo) (deltaTime : ℚ) : Option VulkanDemo :=
  if isClickDown P s then
    if s.clickDownTime < 0 then
      addBunnies P { s with clickDownTime := deltaTime } bunniesEachTime
    else
      let s1 := { s with clickDownTime := s.clickDownTime + deltaTime }
      if s1.clickDownTime > bunniesAddingThreshold then
        (addBunnies P s1 bunniesEachTime).map fun s2 =>
          { s2 with clickDownTime := s2.clickDownTime - bunniesAddingThreshold }
      else some s1
  else if s.clickDownTime > 0 then
    some { s with clickDownTime := -1, currentTexId := (s.currentTexId + 1) % 2 ^ 32 % 5 }
  else some s

/-- The method `VulkanDemo::update(float deltaTime)`. -/
def update (P : Platform) (s : VulkanDemo) (deltaTime : ℚ) : Option VulkanDemo :=
  (updateClick P s deltaTime).map fun s1 => updateBunnies P s1 deltaTime

/-- The method `SpriteBatch::size`. -/
def SpriteBatch.size (b : SpriteBatch) : Nat := b.sprites.length

/-- The texture-region id and the number of sprites of a batch. -/
def SpriteBatch.shape (b : SpriteBatch) : Nat × Nat := (b.texId, b.size)

/-- The state `Idle` of the press state machine, as `update` tests it. -/
def VulkanDemo.Idle (s : VulkanDemo) : Prop := s.clickDownTime < 0

/-- The state `Holding` of the press state machine: not `Idle`. -/
def VulkanDemo.Holding (s : VulkanDemo) : Prop := 0 ≤ s.clickDownTime

/-- The rest of the program between two calls of `update` (message handling, `draw`,
`windowResize`, the overlay) leaves the members owned by the demo as they are. -/
def VulkanDemo.SameDemo (s t : VulkanDemo) : Prop :=
  t.bunnyCount = s.bunnyCount ∧ t.spriteBatches = s.spriteBatches ∧
    t.currentTexId = s.currentTexId ∧ t.clickDownTime = s.clickDownTime

/-- The states the program can be in: the initial one, and those reached by calls of
`update` with any frame time, interleaved with the rest of the program. -/
inductive Reachable (P : Platform) : VulkanDemo → Prop
  | init {s : VulkanDemo} : s.Initial → Reachable P s
  | step {s t : VulkanDemo} (deltaTime : ℚ) : Reachable P s → update P s deltaTime = some t →
      Reachable P t
  | frame {s t : VulkanDemo} : Reachable P s → s.SameDemo t → Reachable P t

/-- The invariant carried by `update`: the current texture-region index and the index of
every batch are below `5`. -/
def TexIdsInRange (s : VulkanDemo) : Prop :=
  s.currentTexId < 5 ∧ ∀ p ∈ s.spriteBatches.map SpriteBatch.shape, p.1 < 5

/-! ## The static vertex buffer -/

/-- The struct `VertexData`: the `glm::vec4 inPositionTexcoord`. -/
structure VertexData where
  inPositionTexcoord : ℚ × ℚ × ℚ × ℚ
deriving DecidableEq, Repr

/-- The method `generateQuadVertices`, for a texture of `texw` by `texh` pixels. -/
def generateQuadVertices (texw texh tx ty tw th : ℚ) : List VertexData :=
  let halfw := tw * (1 / 2)
  let halfh := th * (1 / 2)
  [ ⟨(halfw, halfh, (tw + tx) / texw, (th + ty) / texh)⟩,
    ⟨(-halfw, halfh, tx / texw, (th + ty) / texh)⟩,
    ⟨(-halfw, -halfh, tx / texw, ty / texh)⟩,
    ⟨(halfw, -halfh, (tw + tx) / texw, ty / texh)⟩ ]

/-- The vertices `generateQuad` uploads into `vertexBuffer`: one quad per texture region. -/
def generateQuad (texw texh : ℚ) : List VertexData :=
  generateQuadVertices texw texh 2 47 26 37 ++ generateQuadVertices texw texh 2 86 26 37 ++
    generateQuadVertices texw texh 2 125 26 37 ++ generateQuadVertices texw texh 2 164 26 37 ++
    generateQuadVertices texw texh 2 2 26 37

/-- The size in bytes `generateQuad` gives `vertexBuffer`:
`vertices.size() * sizeof(VertexData)`. -/
def vertexBufferSize (texw texh : ℚ) : Nat := (generateQuad texw texh).length * sizeofVertexData

/-- The byte offset `buildCommandBuffer` binds `vertexBuffer` at for a batch:
`sizeof(VertexData) * 4 * spriteBatch.texId`. -/
def vertexBufferOffset (b : SpriteBatch) : Nat := sizeofVertexData * 4 * b.texId

/-! ## The reference step of the specification -/

/-- The per-frame physics update as the specification writes it (section 4.2), on the tuple
`(x, y, speedX, speedY)`; `randomBit` and `uniformRandom` are the outcomes of `randomBit()`
and of `uniformRandom(0,6)`. -/
def specStep (frameDeltaTimeSeconds maxX maxY : ℚ) (randomBit : Bool) (uniformRandom : ℚ)
    (q : ℚ × ℚ × ℚ × ℚ) : ℚ × ℚ × ℚ × ℚ :=
  let d := 60 * frameDeltaTimeSeconds
  let gravity_d := 1 / 2 * d
  let x := q.1 + q.2.2.1 * d
  let y := q.2.1 + q.2.2.2 * d
  let speedX := q.2.2.1
  let speedY := q.2.2.2 + gravity_d
  let hx : ℚ × ℚ :=
    if x > maxX then (maxX, -speedX) else if x < 0 then (0, -speedX) else (x, speedX)
  let hy : ℚ × ℚ :=
    if y > maxY then
      (maxY, if randomBit then speedY * (-85 / 100) - uniformRandom else speedY * (-85 / 100))
    else if y < 0 then (0, 0)
    else (y, speedY)
  (hx.1, hy.1, hx.2, hy.2)

/-- The tuple `(x, y, speedX, speedY)` of a sprite. -/
def Sprite.kinematics (s : Sprite) : ℚ × ℚ × ℚ × ℚ := (s.x, s.y, s.speedX, s.speedY)

/-! ## The swap chain: present mode, surface format and queue family -/

/-- The enumeration `VkPresentModeKHR` of the Vulkan headers. -/
inductive VkPresentModeKHR
  | VK_PRESENT_MODE_IMMEDIATE_KHR
  | VK_PRESENT_MODE_MAILBOX_KHR
  | VK_PRESENT_MODE_FIFO_KHR
  | VK_PRESENT_MODE_FIFO_RELAXED_KHR
  | VK_PRESENT_MODE_SHARED_DEMAND_REFRESH_KHR
  | VK_PRESENT_MODE_SHARED_CONTINUOUS_REFRESH_KHR
deriving DecidableEq, Repr

open VkPresentModeKHR

/-- The loop of `VulkanSwapChain::create` over `presentModes`, from the entry at hand on, with
the value `swapchainPresentMode` has so far. -/
def presentModeLoop : List VkPresentModeKHR → VkPresentModeKHR → VkPresentModeKHR
  | [], swapchainPresentMode => swapchainPresentMode
  | mode :: rest, swapchainPresentMode =>
    if mode = VK_PRESENT_MODE_MAILBOX_KHR then VK_PRESENT_MODE_MAILBOX_KHR
    else if swapchainPresentMode ≠ VK_PRESENT_MODE_MAILBOX_KHR ∧
        mode = VK_PRESENT_MODE_IMMEDIATE_KHR then
      presentModeLoop rest VK_PRESENT_MODE_IMMEDIATE_KHR
    else presentModeLoop rest swapchainPresentMode

/-- The present mode `VulkanSwapChain::create` puts into `swapchainCI.presentMode`; `none`
when `assert(presentModeCount > 0)` fails. -/
def selectPresentMode (presentModes : List VkPresentModeKHR) (vsync : Bool) :
    Option VkPresentModeKHR :=
  if presentModes.length > 0 then
    if !vsync then some (presentModeLoop presentModes VK_PRESENT_MODE_FIFO_KHR)
    else some VK_PRESENT_MODE_FIFO_KHR
  else none

/-- The struct `VkSurfaceFormatKHR`, with `VkFormat` and `VkColorSpaceKHR` as their numbers. -/
structure VkSurfaceFormatKHR where
  format : Nat
  colorSpace : Nat
deriving DecidableEq, Repr

/-- The constant `VK_FORMAT_UNDEFINED` of the Vulkan headers. -/
def VK_FORMAT_UNDEFINED : Nat := 0

/-- The constant `VK_FORMAT_B8G8R8A8_UNORM` of the Vulkan headers. -/
def VK_FORMAT_B8G8R8A8_UNORM : Nat := 44

/-- The loop of `VulkanSwapChain::initialize` over `surfaceFormats`: the first entry with the
format `VK_FORMAT_B8G8R8A8_UNORM`, if `found_B8G8R8A8_UNORM`. -/
def findB8G8R8A8 : List VkSurfaceFormatKHR → Option VkSurfaceFormatKHR
  | [] => none
  | surfaceFormat :: rest =>
    if surfaceFormat.format = VK_FORMAT_B8G8R8A8_UNORM then some surfaceFormat
    else findB8G8R8A8 rest

/-- The pair `(colorFormat, colorSpace)` chosen by `VulkanSwapChain::initialize`; `none` when
`assert(formatCount > 0)` fails. -/
def selectSurfaceFormat (surfaceFormats : List VkSurfaceFormatKHR) : Option (Nat × Nat) :=
  match surfaceFormats with
  | [] => none
  | first :: _ =>
    if surfaceFormats.length = 1 ∧ first.format = VK_FORMAT_UNDEFINED then
      some (VK_FORMAT_B8G8R8A8_UNORM, first.colorSpace)
    else
      match findB8G8R8A8 surfaceFormats with
      | some surfaceFormat => some (surfaceFormat.format, surfaceFormat.colorSpace)
      | none => some (first.format, first.colorSpace)

/-- A queue family as `VulkanSwapChain::initialize` looks at it: whether `queueFlags` has
`VK_QUEUE_GRAPHICS_BIT`, and whether `supportsPresent[i] == VK_TRUE`. -/
structure QueueFamily where
  graphics : Bool
  supportsPresent : Bool
deriving DecidableEq, Repr

/-- The constant `UINT32_MAX`. -/
def UINT32_MAX : Nat := 2 ^ 32 - 1

/-- The first loop of `VulkanSwapChain::initialize` over the queue families, from index `i`
on, with the value of `graphicsQueueNodeIndex` so far: the pair
`(graphicsQueueNodeIndex, presentQueueNodeIndex)` when the loop is left. -/
def graphicsPresentLoop : List QueueFamily → Nat → Nat → Nat × Nat
  | [], _, graphicsQueueNodeIndex => (graphicsQueueNodeIndex, UINT32_MAX)
  | q :: rest, i, graphicsQueueNodeIndex =>
    if q.graphics then
      if q.supportsPresent then (i, i)
      else
        graphicsPresentLoop rest (i + 1)
          (if graphicsQueueNodeIndex = UINT32_MAX then i else graphicsQueueNodeIndex)
    else graphicsPresentLoop rest (i + 1) graphicsQueueNodeIndex

/-- The second loop of `VulkanSwapChain::initialize`: the first index from `i` on of a family
with present support, else `UINT32_MAX`. -/
def presentLoop : List QueueFamily → Nat → Nat
  | [], _ => UINT32_MAX
  | q :: rest, i => if q.supportsPresent then i else presentLoop rest (i + 1)

/-- The value `VulkanSwapChain::initialize` gives `queueNodeIndex`; `none` when it leaves
through `exitFatal`. -/
def selectQueueNodeIndex (families : List QueueFamily) : Option Nat :=
  let r := graphicsPresentLoop families 0 UINT32_MAX
  let presentQueueNodeIndex := if r.2 = UINT32_MAX then presentLoop families 0 else r.2
  if r.1 = UINT32_MAX ∨ presentQueueNodeIndex = UINT32_MAX then none
  else if r.1 ≠ presentQueueNodeIndex then none
  else some r.1

/-- A family with both the graphics bit and present support. -/
def QueueFamily.both (q : QueueFamily) : Prop := q.graphics = true ∧ q.supportsPresent = true

/-! ## Recording of a command buffer -/

/-- The buffers `buildCommandBuffer` binds: the shared `vertexBuffer` and `indexBuffer`, and
the `instanceBuffer` of the batch at a given place of `spriteBatches`. -/
inductive BufferRef
  | vertexBuffer
  | indexBuffer
  | instanceBuffer (batch : Nat)
deriving DecidableEq, Repr

/-- The constant `VERTEX_BUFFER_BIND_ID`. -/
def VERTEX_BUFFER_BIND_ID : Nat := 0

/-- The constant `INSTANCE_BUFFER_BIND_ID`. -/
def INSTANCE_BUFFER_BIND_ID : Nat := 1

/-- The commands `buildCommandBuffer` records, with the arguments that vary. The command
`uiOverlayDraw` stands for whatever `UIOverlay.draw` records (its source is not part of the
repository). -/
inductive Cmd
  | vkBeginCommandBuffer
  | vkCmdBeginRenderPass (frameBuffer width height : Nat)
  | vkCmdSetViewport (width height : ℚ)
  | vkCmdSetScissor (width height : Nat)
  | vkCmdBindDescriptorSets
  | vkCmdBindPipeline
  | vkCmdBindVertexBuffers (firstBinding : Nat) (buffer : BufferRef) (offset : Nat)
  | vkCmdBindIndexBuffer (buffer : BufferRef) (offset : Nat)
  | vkCmdDrawIndexed (indexCount instanceCount firstIndex : Nat) (vertexOffset : Int)
      (firstInstance : Nat)
  | uiOverlayDraw
  | vkCmdEndRenderPass
  | vkEndCommandBuffer
deriving DecidableEq, Repr

/-- The loop of `buildCommandBuffer` over `spriteBatches`, from the batch at place `k` on.
The instance count is `spriteBatch.size()` converted to `uint32_t`. -/
def recordBatches : List SpriteBatch → Nat → List Cmd
  | [], _ => []
  | spriteBatch :: rest, k =>
    [ Cmd.vkCmdBindVertexBuffers VERTEX_BUFFER_BIND_ID BufferRef.vertexBuffer
        (sizeofVertexData * 4 * spriteBatch.texId),
      Cmd.vkCmdBindVertexBuffers INSTANCE_BUFFER_BIND_ID (BufferRef.instanceBuffer k) 0,
      Cmd.vkCmdBindIndexBuffer BufferRef.indexBuffer 0,
      Cmd.vkCmdDrawIndexed 6 (spriteBatch.size % 2 ^ 32) 0 0 0 ] ++
      recordBatches rest (k + 1)

/-- The method `VulkanFramework::drawUI`. -/
def drawUI (overlay : Bool) (width height : Nat) : List Cmd :=
  if overlay then
    [Cmd.vkCmdSetViewport width height, Cmd.vkCmdSetScissor width height, Cmd.uiOverlayDraw]
  else []

/-- The method `VulkanDemo::buildCommandBuffer`: the commands recorded, in order, for the
frame buffer `frameBuffer`; `overlay` is `settings.overlay`. -/
def buildCommandBuffer (s : VulkanDemo) (overlay : Bool) (frameBuffer : Nat) : List Cmd :=
  [ Cmd.vkBeginCommandBuffer,
    Cmd.vkCmdBeginRenderPass frameBuffer s.width s.height,
    Cmd.vkCmdSetViewport s.width s.height,
    Cmd.vkCmdSetScissor s.width s.height,
    Cmd.vkCmdBindDescriptorSets,
    Cmd.vkCmdBindPipeline ] ++
    recordBatches s.spriteBatches 0 ++ drawUI overlay s.width s.height ++
    [Cmd.vkCmdEndRenderPass, Cmd.vkEndCommandBuffer]

/-- What is bound while a command buffer is replayed: how often the descriptor set and the
pipeline have been bound, and the buffer and offset at vertex bindings 0 and 1 and at the
index binding. -/
structure BindState where
  descriptorSets : Nat
  pipeline : Nat
  vertexBinding : Option (BufferRef × Nat)
  instanceBinding : Option (BufferRef × Nat)
  indexBinding : Option (BufferRef × Nat)
deriving DecidableEq, Repr

/-- Nothing bound: the state at `vkBeginCommandBuffer`. -/
def BindState.empty : BindState :=
  { descriptorSets := 0, pipeline := 0, vertexBinding := none, instanceBinding := none,
    indexBinding := none }

/-- An indexed draw as the device executes it: its counts and what is bound at that time. -/
structure DrawCall where
  indexCount : Nat
  instanceCount : Nat
  bound : BindState
deriving DecidableEq, Repr

/-- The effect of one command on what is bound. -/
def BindState.step (st : BindState) : Cmd → BindState
  | Cmd.vkCmdBindDescriptorSets => { st with descriptorSets := st.descriptorSets + 1 }
  | Cmd.vkCmdBindPipeline => { st with pipeline := st.pipeline + 1 }
  | Cmd.vkCmdBindVertexBuffers firstBinding buffer offset =>
    if firstBinding = VERTEX_BUFFER_BIND_ID then
      { st with vertexBinding := some (buffer, offset) }
    else if firstBinding = INSTANCE_BUFFER_BIND_ID then
      { st with instanceBinding := some (buffer, offset) }
    else st
  | Cmd.vkCmdBindIndexBuffer buffer offset => { st with indexBinding := some (buffer, offset) }
  | _ => st

/-- The indexed draws of a command sequence, in order, each with what is bound when it is
reached, starting from the state `st`. -/
def drawCalls : List Cmd → BindState → List DrawCall
  | [], _ => []
  | Cmd.vkCmdDrawIndexed indexCount instanceCount _ _ _ :: rest, st =>
    { indexCount := indexCount, instanceCount := instanceCount, bound := st } ::
      drawCalls rest st
  | c :: rest, st => drawCalls rest (st.step c)

/-- The draw the specification expects for the batch at place `k`: 6 indices, one instance
per sprite, descriptor set and pipeline bound once, the shared vertex buffer at
`64 * texId`, the batch's own instance buffer at offset 0, the index buffer at offset 0. -/
def expectedDraw (k : Nat) (b : SpriteBatch) : DrawCall :=
  { indexCount := 6
    instanceCount := b.sprites.length
    bound :=
      { descriptorSets := 1
        pipeline := 1
        vertexBinding := some (BufferRef.vertexBuffer, 64 * b.texId)
        instanceBinding := some (BufferRef.instanceBuffer k, 0)
        indexBinding := some (BufferRef.indexBuffer, 0) } }

/-! ## The buffer wrapper `vks::Buffer` -/

/-- The enumeration `vks::BufferType`. -/
inductive BufferType
  | device
  | transient
  | staging
deriving DecidableEq, Repr

/-- What the allocator answers to `vmaCreateBuffer`: the handle of the new buffer (not
`VK_NULL_HANDLE`) and whether the memory type chosen is host visible. -/
structure Allocation where
  handle : Nat
  hostVisible : Bool
deriving DecidableEq, Repr

/-- The members of `vks::Buffer` its methods use, with the bytes of the memory bound to the
buffer. The handle `buffer` is `none` for `VK_NULL_HANDLE`; the pointer `mappedData` is `none`
for `nullptr` and otherwise names the allocation whose memory it points into. -/
structure Buffer where
  buffer : Option Nat
  mappedData : Option Nat
  isPersistentMapped : Bool
  hostVisible : Bool
  memory : List (Fin 256)
deriving DecidableEq, Repr

/-- A `vks::Buffer` as its member initialisers leave it. -/
def Buffer.new : Buffer :=
  { buffer := none, mappedData := none, isPersistentMapped := false, hostVisible := false,
    memory := [] }

/-- The method `Buffer::unmap`. -/
def Buffer.unmap (b : Buffer) : Buffer :=
  if b.mappedData.isSome ∧ ¬ b.isPersistentMapped then { b with mappedData := none } else b

/-- The method `Buffer::destroy`; `vmaDestroyBuffer` frees the memory. -/
def Buffer.destroy (b : Buffer) : Buffer :=
  if b.buffer.isSome then { b.unmap with buffer := none, memory := [] } else b

/-- The method `Buffer::create`, with the answer of the allocator. The new memory has `size`
bytes of indeterminate content, shown as zeros; `allocInfo.pMappedData` points into it when
the memory is host visible and is null otherwise. -/
def Buffer.create (b : Buffer) (bufferType : BufferType) (size : Nat) (persistentMapped : Bool)
    (alloc : Allocation) : Buffer :=
  let b1 := if b.buffer.isSome then b.destroy else b
  let _ := bufferType
  { b1 with
    isPersistentMapped := persistentMapped
    buffer := some alloc.handle
    hostVisible := alloc.hostVisible
    memory := List.replicate size 0
    mappedData :=
      if persistentMapped then (if alloc.hostVisible then some alloc.handle else none)
      else b1.mappedData }

/-- The method `Buffer::map`: the buffer afterwards and the pointer returned; `none` when the
assertion fails. -/
def Buffer.map (b : Buffer) : Option (Buffer × Option Nat) :=
  if b.buffer.isSome ∧ b.hostVisible then
    if b.mappedData.isNone then some ({ b with mappedData := b.buffer }, b.buffer)
    else some (b, b.mappedData)
  else none

/-- The call `memcpy(dst, data, size)` into the memory of a buffer through the pointer
`dst`; `none` when the behaviour is undefined: a null pointer or one into freed memory, or
fewer than `size` bytes on either side. -/
def Buffer.memcpy (b : Buffer) (dst : Option Nat) (data : List (Fin 256)) (size : Nat) :
    Option Buffer :=
  if dst.isSome ∧ dst = b.buffer ∧ size ≤ data.length ∧ size ≤ b.memory.length then
    some { b with memory := data.take size ++ b.memory.drop size }
  else none

/-- The method `Buffer::upload`. -/
def Buffer.upload (b : Buffer) (data : List (Fin 256)) (size : Nat) : Option Buffer :=
  (b.map).bind fun r => (r.1.memcpy r.1.mappedData data size).map Buffer.unmap

/-- Modelled from the spec: the methods `createCommandBuffer` and `flushCommandBuffer` of
`vks::VulkanDevice`, whose source is not at hand. The one-shot transfer command is submitted
and waited for, so on return the copy recorded by `vkCmdCopyBuffer` has taken place: `size`
bytes from offset 0 of the staging memory are at offset 0 of the memory of the buffer. -/
def flushCopy (staging memory : List (Fin 256)) (size : Nat) : List (Fin 256) :=
  staging.take size ++ memory.drop size

/-- The method `Buffer::uploadFromStaging`. In the staged path a staging buffer of `size`
bytes (a size of 0 is not valid for `vmaCreateBuffer`) receives `size` bytes of `data`
through `memcpy`, and the copy command is recorded and flushed; `none` when the assertion
of `map` fails or the behaviour is undefined. -/
def Buffer.uploadFromStaging (b : Buffer) (data : List (Fin 256)) (size : Nat) :
    Option Buffer :=
  if b.hostVisible then b.upload data size
  else
    if 0 < size ∧ size ≤ data.length ∧ b.buffer.isSome ∧ size ≤ b.memory.length then
      let mapped : List (Fin 256) := data.take size
      some { b with memory := flushCopy mapped b.memory size }
    else none

/-! ## The frame loop -/

/-- The type `VkResult`, as the numbers of the Vulkan headers. -/
abbrev VkResult := Int

/-- The constant `VK_SUCCESS`. -/
def VK_SUCCESS : VkResult := 0

/-- The constant `VK_SUBOPTIMAL_KHR`. -/
def VK_SUBOPTIMAL_KHR : VkResult := 1000001003

/-- The constant `VK_ERROR_OUT_OF_DATE_KHR`. -/
def VK_ERROR_OUT_OF_DATE_KHR : VkResult := -1000001004

/-- Modelled from the spec: the macro `VK_CHECK` of `VulkanTools.h`, which is not part of the
sources at hand. A failure of a call is checked at the call site and is fatal: the result
is `none` unless the value is `VK_SUCCESS`. -/
def VK_CHECK (result : VkResult) : Option Unit :=
  if result = VK_SUCCESS then some () else none

/-- What the program does towards the device and the window system, in the order it does
it. -/
inductive Event
  | acquireNextImage (result : VkResult)
  | windowResize
  | waitForFences (slot : Nat)
  | resetFences (slot : Nat)
  | buildCommandBuffer (slot : Nat) (cmds : List Cmd)
  | queueSubmit (slot : Nat) (fence : Nat)
  | queuePresent (image : Nat) (result : VkResult)
  | update (deltaTime : ℚ)
deriving DecidableEq, Repr

/-- The whole application object: the members modelled by `VulkanDemo`, and the further
members of the base class `VulkanFramework` that the frame loop reads or writes. The vectors
`drawCmdBuffers`, `waitFences` and `frameBuffers` are given by their sizes; `imageCount` is
`swapChain.imageCount` and `overlay` is `settings.overlay`. -/
structure VulkanApp where
  demo : VulkanDemo
  prepared : Bool
  currentBuffer : Nat
  destWidth : Nat
  destHeight : Nat
  imageCount : Nat
  drawCmdBuffers : Nat
  waitFences : Nat
  frameBuffers : Nat
  overlay : Bool
  frameDeltaTime : ℚ

/-- What the surface answers when the swap chain is created again: the current extent
(`0xFFFFFFFF` for an extent that is not defined) and the number of images of the new chain. -/
structure SurfaceReply where
  currentExtentWidth : Nat
  currentExtentHeight : Nat
  imageCount : Nat
deriving DecidableEq, Repr

/-- The call `drawCmdBuffersValid.resize(n, false)`. -/
def resizeValid (valid : List Bool) (n : Nat) : List Bool :=
  valid.take n ++ List.replicate (n - valid.length) false

/-- The method `VulkanFramework::windowResize`, with the answer of the surface; the calls
into the device are taken to succeed. -/
def windowResize (a : VulkanApp) (surface : SurfaceReply) : VulkanApp × List Event :=
  if !a.prepared then (a, [Event.windowResize])
  else
    let width := if surface.currentExtentWidth = UINT32_MAX then a.destWidth
      else surface.currentExtentWidth
    let height := if surface.currentExtentWidth = UINT32_MAX then a.destHeight
      else surface.currentExtentHeight
    let demo1 : VulkanDemo :=
      { a.demo with
        width := width
        height := height
        drawCmdBuffersValid := resizeValid a.demo.drawCmdBuffersValid surface.imageCount }
    ({ a with
       demo := invalidateCommandBuffers demo1
       imageCount := surface.imageCount
       frameBuffers := surface.imageCount
       drawCmdBuffers := surface.imageCount
       prepared := true }, [Event.windowResize])

/-- The method `VulkanFramework::prepareFrame`: `result` and `imageIndex` are what
`acquireNextImage` returns and writes (nothing is written when no image is acquired);
`none` when `VK_CHECK` is fatal. -/
def prepareFrame (a : VulkanApp) (result : VkResult) (imageIndex : Option Nat)
    (surface : SurfaceReply) : Option (VulkanApp × List Event) :=
  let a1 := match imageIndex with
    | some i => { a with currentBuffer := i }
    | none => a
  if result = VK_ERROR_OUT_OF_DATE_KHR ∨ result = VK_SUBOPTIMAL_KHR then
    some ((windowResize a1 surface).1,
      Event.acquireNextImage result :: (windowResize a1 surface).2)
  else (VK_CHECK result).map fun _ => (a1, [Event.acquireNextImage result])

/-- The method `VulkanFramework::submitFrame`: `result` is what `queuePresent` returns;
`none` when `VK_CHECK` is fatal. -/
def submitFrame (a : VulkanApp) (result : VkResult) (surface : SurfaceReply) :
    Option (VulkanApp × List Event) :=
  if ¬ (result = VK_SUCCESS ∨ result = VK_SUBOPTIMAL_KHR) then
    if result = VK_ERROR_OUT_OF_DATE_KHR then
      some ((windowResize a surface).1,
        Event.queuePresent a.currentBuffer result :: (windowResize a surface).2)
    else (VK_CHECK result).map fun _ => (a, [Event.queuePresent a.currentBuffer result])
  else some (a, [Event.queuePresent a.currentBuffer result])

/-- What the outside answers in the course of one frame: the result and image index of the
acquisition, the result of the presentation, the answer of the surface if the swap chain is
created again, the time measured for the frame, whether the overlay reports a change
(`UIOverlay.update() || UIOverlay.updated`), and the state of the pointer left by the
handling of messages before the frame. -/
structure FrameEnv where
  acquireResult : VkResult
  imageIndex : Option Nat
  presentResult : VkResult
  surface : SurfaceReply
  elapsed : ℚ
  overlayUpdate : Bool
  mouseButtonsLeft : Bool
  touchDown : Bool

/-- The part of `VulkanDemo::draw` between `prepareFrame` and `submitFrame`; `none` when a
vector is indexed beyond its size. -/
def drawRecord (a : VulkanApp) : Option (VulkanApp × List Event) :=
  let cb := a.currentBuffer
  if cb < a.waitFences then
    match a.demo.drawCmdBuffersValid[cb]? with
    | none => none
    | some valid =>
      if cb < a.drawCmdBuffers then
        if !valid then
          if cb < a.frameBuffers then
            some ({ a with
              demo := { a.demo with
                drawCmdBuffersValid := a.demo.drawCmdBuffersValid.set cb true } },
              [Event.waitForFences cb, Event.resetFences cb,
                Event.buildCommandBuffer cb (buildCommandBuffer a.demo a.overlay cb),
                Event.queueSubmit cb cb])
          else none
        else
          some (a, [Event.waitForFences cb, Event.resetFences cb, Event.queueSubmit cb cb])
      else none
  else none

/-- The method `VulkanDemo::draw`. -/
def draw (a : VulkanApp) (env : FrameEnv) : Option (VulkanApp × List Event) :=
  (prepareFrame a env.acquireResult env.imageIndex env.surface).bind fun r1 =>
    (drawRecord r1.1).bind fun r2 =>
      (submitFrame r2.1 env.presentResult env.surface).map fun r3 =>
        (r3.1, r1.2 ++ r2.2 ++ r3.2)

/-- The method `VulkanDemo::render`: `draw` if prepared, then `update(frameDeltaTime)`. -/
def render (P : Platform) (a : VulkanApp) (env : FrameEnv) : Option (VulkanApp × List Event) :=
  (if a.prepared then draw a env else some (a, [])).bind fun r1 =>
    (update P r1.1.demo r1.1.frameDeltaTime).map fun demo1 =>
      ({ r1.1 with demo := demo1 }, r1.2 ++ [Event.update r1.1.frameDeltaTime])

/-- The method `VulkanFramework::updateOverlay`, as far as the state modelled goes. -/
def updateOverlay (P : Platform) (a : VulkanApp) (overlayUpdate : Bool) : VulkanApp :=
  if !a.overlay then a
  else
    let a1 := if overlayUpdate then { a with demo := invalidateCommandBuffers a.demo } else a
    if P.win32 then a1
    else { a1 with demo := { a1.demo with mouseButtonsLeft := false } }

/-- The method `VulkanFramework::renderFrame`. -/
def renderFrame (P : Platform) (a : VulkanApp) (env : FrameEnv) :
    Option (VulkanApp × List Event) :=
  (render P a env).map fun r =>
    (updateOverlay P { r.1 with frameDeltaTime := env.elapsed } env.overlayUpdate, r.2)

/-- The handling of pointer messages before a frame: the state of the pointer is set. -/
def pointerInput (a : VulkanApp) (env : FrameEnv) : VulkanApp :=
  { a with
    demo := { a.demo with mouseButtonsLeft := env.mouseButtonsLeft, touchDown := env.touchDown } }

/-- A run of `renderLoop`: for each frame the handling of pointer messages, then
`renderFrame`; the final state and all events in order, `none` when a frame is fatal. -/
def renderFrames (P : Platform) : VulkanApp → List FrameEnv → Option (VulkanApp × List Event)
  | a, [] => some (a, [])
  | a, env :: rest =>
    (renderFrame P (pointerInput a env) env).bind fun r1 =>
      (renderFrames P r1.1 rest).map fun r2 => (r2.1, r1.2 ++ r2.2)

/-- How often `buildCommandBuffer` is called for the frame slot `slot` in a sequence of
events. -/
def buildCount (slot : Nat) : List Event → Nat
  | [] => 0
  | Event.buildCommandBuffer i _ :: rest =>
    (if i = slot then 1 else 0) + buildCount slot rest
  | _ :: rest => buildCount slot rest

/-! ## Runs of `update` -/

/-- What a call of `update` finds besides the members owned by the demo: the frame time, the
state of the pointer, the size of the viewport, and the validity flags as the frame loop
left them. -/
structure UpdateInput where
  deltaTime : ℚ
  mouseButtonsLeft : Bool
  touchDown : Bool
  width : Nat
  height : Nat
  drawCmdBuffersValid : List Bool

/-- The frame time, pointer and viewport of an input, without the validity flags. -/
def UpdateInput.physical (i : UpdateInput) : ℚ × Bool × Bool × Nat × Nat :=
  (i.deltaTime, i.mouseButtonsLeft, i.touchDown, i.width, i.height)

/-- The state `update` is called on: the members of the demo with the inputs of the call. -/
def VulkanDemo.withInput (s : VulkanDemo) (i : UpdateInput) : VulkanDemo :=
  { s with
    mouseButtonsLeft := i.mouseButtonsLeft
    touchDown := i.touchDown
    width := i.width
    height := i.height
    drawCmdBuffersValid := i.drawCmdBuffersValid }

/-- The tuples `(x, y, speedX, speedY)` of all sprites, batch by batch. -/
def VulkanDemo.kinematics (s : VulkanDemo) : List (List (ℚ × ℚ × ℚ × ℚ)) :=
  s.spriteBatches.map fun b => b.sprites.map Sprite.kinematics

/-- A run of calls of `update`, one per input: the tuples of all sprites after each call. -/
def runUpdates (P : Platform) :
    VulkanDemo → List UpdateInput → Option (List (List (List (ℚ × ℚ × ℚ × ℚ))))
  | _, [] => some []
  | s, i :: rest =>
    (update P (s.withInput i) i.deltaTime).bind fun t =>
      (runUpdates P t rest).map fun tail => t.kinematics :: tail

/-- The state without its validity flags. -/
def VulkanDemo.eraseValid (s : VulkanDemo) : VulkanDemo := { s with drawCmdBuffersValid := [] }

/-- What `draw` does to the validity flags when it does not resize: the flag of one frame
slot, which exists, is set; `buildCommandBuffer` is called for that slot if its flag was
`false`, and for no other slot. -/
def DrawEffect (valid valid1 : List Bool) (events : List Event) : Prop :=
  ∃ cb, valid1 = valid.set cb true ∧ (valid[cb]?).isSome = true ∧
    ∀ slot, buildCount slot events = if slot = cb ∧ valid[cb]? = some false then 1 else 0

/-- What a frame without resize, spawn and overlay change does to the validity flags:
nothing, or what `draw` does. -/
def FrameEffect (valid valid1 : List Bool) (events : List Event) : Prop :=
  (valid1 = valid ∧ ∀ slot, buildCount slot events = 0) ∨ DrawEffect valid valid1 events

/-! ## Scale and rotation -/

/-- The members `scale` and `rotation` of a sprite. -/
def Sprite.scaleRotation (s : Sprite) : ℚ × ℚ := (s.scale, s.rotation)

/-! ## Preparation, and the fences of the frame slots -/

/-- The method `VulkanDemo::prepare`, as far as the state modelled goes: of
`VulkanFramework::prepare` the calls `setupSwapChain`, `createCommandBuffers`,
`createSynchronizationPrimitives` (`waitFences.resize(drawCmdBuffers.size())`) and
`setupFrameBuffer`, in that order, then `prepared = true`; the calls into the device are
taken to succeed. -/
def prepare (a : VulkanApp) (surface : SurfaceReply) : VulkanApp :=
  let width := if surface.currentExtentWidth = UINT32_MAX then a.demo.width
    else surface.currentExtentWidth
  let height := if surface.currentExtentWidth = UINT32_MAX then a.demo.height
    else surface.currentExtentHeight
  let a1 : VulkanApp :=
    { a with
      demo := { a.demo with width := width, height := height }
      imageCount := surface.imageCount }
  let a2 : VulkanApp :=
    { a1 with
      drawCmdBuffers := a1.imageCount
      demo := { a1.demo with
        drawCmdBuffersValid := resizeValid a1.demo.drawCmdBuffersValid a1.imageCount } }
  let a3 : VulkanApp := { a2 with waitFences := a2.drawCmdBuffers }
  let a4 : VulkanApp := { a3 with frameBuffers := a3.imageCount }
  { a4 with prepared := true }

/-- The sizes of the four per-slot vectors: `drawCmdBuffers`, `drawCmdBuffersValid`,
`waitFences` and `frameBuffers`. -/
def VulkanApp.slotCounts (a : VulkanApp) : Nat × Nat × Nat × Nat :=
  (a.drawCmdBuffers, a.demo.drawCmdBuffersValid.length, a.waitFences, a.frameBuffers)

/-- A scan of a sequence of events for a frame slot that is submitted twice with no wait on
its fence in between: `pending` holds the slots submitted and not waited for since; `none`
when a pending slot is submitted. -/
def fenceScan : List Nat → List Event → Option (List Nat)
  | pending, [] => some pending
  | pending, Event.waitForFences slot :: rest =>
    fenceScan (pending.filter fun i => i ≠ slot) rest
  | pending, Event.queueSubmit slot _ :: rest =>
    if slot ∈ pending then none else fenceScan (slot :: pending) rest
  | pending, _ :: rest => fenceScan pending rest

/-! ## The scene-graph variant: `HelloWorld` of `CocosBunnyMark/Classes/HelloWorldScene.cpp`

The file defines `rrand()` and `rrand(a, b)` with the same text as `bunnymark.cpp`; they are
`rrand` and `rrand2` above. -/

/-- The constant `bunniesAddingThreshold = 0.1f` of `HelloWorldScene.cpp`, in seconds: the
value of type `float` nearest to `0.1`, which is `13421773 / 2 ^ 27`. -/
def HelloWorld.bunniesAddingThreshold : ℚ := 13421773 / 134217728

/-- The constant `gravity = 0.5f` of `HelloWorldScene.cpp`. -/
def HelloWorld.gravity : ℚ := 1 / 2

/-- The constant `bunniesEachTime` of `HelloWorldScene.cpp`: 500 when compiled for Windows,
200 otherwise. -/
def HelloWorld.bunniesEachTime (P : Platform) : Nat := if P.win32 then 500 else 200

/-- What the program sets on the engine's `Sprite` of a bunny: the index of its texture
rectangle in `textureRects`, its scale, its rotation in degrees and its displayed position. -/
structure SceneSprite where
  textureRect : Nat
  scale : ℚ
  rotation : ℚ
  position : ℚ × ℚ
deriving DecidableEq, Repr

/-- The struct `Bunny` of `HelloWorldScene.h`. -/
structure Bunny where
  x : ℚ
  y : ℚ
  speedX : ℚ
  speedY : ℚ
  sprite : SceneSprite
deriving DecidableEq, Repr

/-- The tuple `(x, y, speedX, speedY)` of a bunny. -/
def Bunny.kinematics (b : Bunny) : ℚ × ℚ × ℚ × ℚ := (b.x, b.y, b.speedX, b.speedY)

/-- The members of `HelloWorld` that `addBunnies` and `update` read or write, with the state of
the C library generator. -/
structure HelloWorld where
  maxX : ℚ
  maxY : ℚ
  bunnyCount : Nat
  currentTexId : Nat
  bunnies : List Bunny
  touchDownTime : ℚ
  isTouchDown : Bool
  randState : RandStream

/-- The method `HelloWorld::initBunny`; `toDegrees` is the engine's `CC_RADIANS_TO_DEGREES`.
A sprite is created at position `(0, 0)`. -/
def HelloWorld.initBunny (P : Platform) (toDegrees : ℚ → ℚ) (currentTexId : Nat)
    (g : RandStream) : Bunny × RandStream :=
  let speedX := rrand P g
  let speedY := rrand P speedX.2
  let scale := rrand2 P (1 / 2) 1 speedY.2
  let rotation := rrand P scale.2
  ({ x := 0, y := 0, speedX := speedX.1 * 10, speedY := speedY.1 * 10 - 5,
     sprite := { textureRect := currentTexId, scale := scale.1,
                 rotation := toDegrees (rotation.1 - 1 / 2), position := (0, 0) } },
    rotation.2)

/-- The loop of `HelloWorld::addBunnies`: `amount` bunnies, drawn in order from the
generator. -/
def HelloWorld.initBunnies (P : Platform) (toDegrees : ℚ → ℚ) (currentTexId : Nat) :
    Nat → RandStream → List Bunny × RandStream
  | 0, g => ([], g)
  | n + 1, g =>
    ((HelloWorld.initBunny P toDegrees currentTexId g).1 ::
        (HelloWorld.initBunnies P toDegrees currentTexId n
          (HelloWorld.initBunny P toDegrees currentTexId g).2).1,
      (HelloWorld.initBunnies P toDegrees currentTexId n
        (HelloWorld.initBunny P toDegrees currentTexId g).2).2)

/-- The method `HelloWorld::addBunnies(int amount)`: the loop does not run for an amount that
is not positive, and `bunnyCount += amount` is taken modulo `2 ^ 32`. -/
def HelloWorld.addBunnies (P : Platform) (toDegrees : ℚ → ℚ) (h : HelloWorld) (amount : Int) :
    HelloWorld :=
  let made := HelloWorld.initBunnies P toDegrees h.currentTexId amount.toNat h.randState
  { h with
    bunnies := h.bunnies ++ made.1
    bunnyCount := (((h.bunnyCount : Int) + amount) % 2 ^ 32).toNat
    randState := made.2 }

/-- The body of the loop of `HelloWorld::update` for one bunny, with the write of the
displayed position `setPosition(bunny.x, maxY - bunny.y)` at its end. -/
def HelloWorld.updateBunny (P : Platform) (d gravityd maxX maxY : ℚ) (bunny : Bunny)
    (g : RandStream) : Bunny × RandStream :=
  let b1 := { bunny with x := bunny.x + bunny.speedX * d }
  let b2 := { b1 with y := b1.y + b1.speedY * d }
  let b3 := { b2 with speedY := b2.speedY + gravityd }
  let b4 :=
    if b3.x > maxX then { b3 with speedX := b3.speedX * -1, x := maxX }
    else if b3.x < 0 then { b3 with speedX := b3.speedX * -1, x := 0 }
    else b3
  let r : Bunny × RandStream :=
    if b4.y > maxY then
      let b5 := { b4 with speedY := b4.speedY * (-17 / 20), y := maxY }
      if (rand g).1 &&& 1 ≠ 0 then
        ({ b5 with speedY := b5.speedY - (rrand P (rand g).2).1 * 6 }, (rrand P (rand g).2).2)
      else (b5, (rand g).2)
    else if b4.y < 0 then ({ b4 with speedY := 0, y := 0 }, g)
    else (b4, g)
  ({ r.1 with sprite := { r.1.sprite with position := (r.1.x, maxY - r.1.y) } }, r.2)

/-- The loop of `HelloWorld::update` over `bunnies`. -/
def HelloWorld.updateLoop (P : Platform) (d gravityd maxX maxY : ℚ) :
    List Bunny → RandStream → List Bunny × RandStream
  | [], g => ([], g)
  | bunny :: rest, g =>
    ((HelloWorld.updateBunny P d gravityd maxX maxY bunny g).1 ::
        (HelloWorld.updateLoop P d gravityd maxX maxY rest
          (HelloWorld.updateBunny P d gravityd maxX maxY bunny g).2).1,
      (HelloWorld.updateLoop P d gravityd maxX maxY rest
        (HelloWorld.updateBunny P d gravityd maxX maxY bunny g).2).2)

/-- The first half of `HelloWorld::update`: the press, hold and release handling. -/
def HelloWorld.updateTouch (P : Platform) (toDegrees : ℚ → ℚ) (h : HelloWorld)
    (dt : ℚ) : HelloWorld :=
  if h.isTouchDown then
    if h.touchDownTime < 0 then
      HelloWorld.addBunnies P toDegrees { h with touchDownTime := dt }
        (HelloWorld.bunniesEachTime P)
    else
      let h1 := { h with touchDownTime := h.touchDownTime + dt }
      if h1.touchDownTime > HelloWorld.bunniesAddingThreshold then
        let h2 := HelloWorld.addBunnies P toDegrees h1 (HelloWorld.bunniesEachTime P)
        { h2 with touchDownTime := h2.touchDownTime - HelloWorld.bunniesAddingThreshold }
      else h1
  else if h.touchDownTime > 0 then
    { h with touchDownTime := -1, currentTexId := (h.currentTexId + 1) % 2 ^ 32 % 5 }
  else h

/-- The method `HelloWorld::update(float dt)`. -/
def HelloWorld.update (P : Platform) (toDegrees : ℚ → ℚ) (h : HelloWorld) (dt : ℚ) :
    HelloWorld :=
  let h1 := HelloWorld.updateTouch P toDegrees h dt
  let d := 60 * dt
  let gravityd := HelloWorld.gravity * d
  let r := HelloWorld.updateLoop P d gravityd h1.maxX h1.maxY h1.bunnies h1.randState
  { h1 with bunnies := r.1, randState := r.2 }

/-! ## Sprites and their instance records -/

/-- A batch whose records follow its sprites: as many records as sprites, the sprite at place
`i` points to the record at place `i`, whose position is the sprite's `(x, y)`, and the
instance buffer has `sizeof(SpriteData)` bytes per sprite. -/
def SpriteBatch.InSync (b : SpriteBatch) : Prop :=
  b.spriteDatas.length = b.sprites.length ∧
    (∀ (i : Nat) (sprite : Sprite), b.sprites[i]? = some sprite →
      sprite.renderData = some i ∧
        (b.spriteDatas[i]?).map SpriteData.inSpritePosition = some (sprite.x, sprite.y)) ∧
    b.instanceBuffer.size = b.sprites.length * sizeofSpriteData ∧
    b.instanceBuffer.mappedData.length = b.sprites.length

/-- A batch whose mapped memory holds its records, in order, and nothing else. -/
def SpriteBatch.Flushed (b : SpriteBatch) : Prop :=
  b.instanceBuffer.mappedData = b.spriteDatas

/-- States of the two variants that correspond: the same pointer state, hold timer,
texture-region index, counter, generator and bounds, and the same tuples
`(x, y, speedX, speedY)` sprite by sprite, the batches of the raw-API variant taken one after
the other. -/
def Corresponds (P : Platform) (s : VulkanDemo) (h : HelloWorld) : Prop :=
  isClickDown P s = h.isTouchDown ∧ s.clickDownTime = h.touchDownTime ∧
    s.currentTexId = h.currentTexId ∧ s.bunnyCount = h.bunnyCount ∧
    s.randState = h.randState ∧ (s.width : ℚ) = h.maxX ∧ (s.height : ℚ) = h.maxY ∧
    s.kinematics.flatten = h.bunnies.map Bunny.kinematics

/-! ## The physics step with the values of `float` that are not finite -/

/-- A value of the type `float` as far as overflow goes: a finite value, given by the exact
rational (rounding is not modelled), an infinity with its sign, or a NaN. -/
inductive CFloat
  | finite (q : ℚ)
  | infinity (negative : Bool)
  | nan
deriving DecidableEq, Repr

/-- The bound of overflow of `float` under rounding to nearest: a result whose exact
magnitude reaches `2 ^ 128 - 2 ^ 103`, which is `FLT_MAX` and half a unit in its last place,
is an infinity. -/
def floatOverflow : ℚ := 2 ^ 128 - 2 ^ 103

/-- The result of an operation on finite values whose exact result is `q`. -/
def CFloat.ofExact (q : ℚ) : CFloat :=
  if floatOverflow ≤ q then CFloat.infinity false
  else if q ≤ -floatOverflow then CFloat.infinity true
  else CFloat.finite q

/-- The product of two values of type `float`: zero times an infinity is a NaN. -/
def CFloat.mul : CFloat → CFloat → CFloat
  | CFloat.finite a, CFloat.finite b => CFloat.ofExact (a * b)
  | CFloat.finite a, CFloat.infinity n =>
    if a = 0 then CFloat.nan else CFloat.infinity (if a < 0 then !n else n)
  | CFloat.infinity n, CFloat.finite b =>
    if b = 0 then CFloat.nan else CFloat.infinity (if b < 0 then !n else n)
  | CFloat.infinity n, CFloat.infinity m => CFloat.infinity (n != m)
  | CFloat.nan, _ => CFloat.nan
  | _, CFloat.nan => CFloat.nan

/-- The sum of two values of type `float`: the sum of the two infinities is a NaN. -/
def CFloat.add : CFloat → CFloat → CFloat
  | CFloat.finite a, CFloat.finite b => CFloat.ofExact (a + b)
  | CFloat.finite _, CFloat.infinity n => CFloat.infinity n
  | CFloat.infinity n, CFloat.finite _ => CFloat.infinity n
  | CFloat.infinity n, CFloat.infinity m => if n = m then CFloat.infinity n else CFloat.nan
  | CFloat.nan, _ => CFloat.nan
  | _, CFloat.nan => CFloat.nan

/-- The negation of a value of type `float`. -/
def CFloat.neg : CFloat → CFloat
  | CFloat.finite a => CFloat.finite (-a)
  | CFloat.infinity n => CFloat.infinity (!n)
  | CFloat.nan => CFloat.nan

/-- The difference of two values of type `float`. -/
def CFloat.sub (a b : CFloat) : CFloat := a.add b.neg

/-- The comparison `a > b` of two values of type `float`: false when either is a NaN. -/
def CFloat.gt : CFloat → CFloat → Bool
  | CFloat.finite a, CFloat.finite b => decide (a > b)
  | CFloat.finite _, CFloat.infinity n => n
  | CFloat.infinity n, CFloat.finite _ => !n
  | CFloat.infinity n, CFloat.infinity m => !n && m
  | CFloat.nan, _ => false
  | _, CFloat.nan => false

/-- The comparison `a < b` of two values of type `float`. -/
def CFloat.lt (a b : CFloat) : Bool := b.gt a

/-- The members of `Sprite` that the loop body of `update` reads or writes, as values of type
`float` that may be infinite or NaN. -/
structure SpriteF where
  x : CFloat
  y : CFloat
  speedX : CFloat
  speedY : CFloat
deriving DecidableEq, Repr

/-- The function `rrand()` with the quotient as a value of type `float`: a division by zero
gives an infinity, or a NaN for `0 / 0`. -/
def rrandF (P : Platform) (g : RandStream) : CFloat × RandStream :=
  (if P.RAND_MAX = 0 then (if (rand g).1 = 0 then CFloat.nan else CFloat.infinity false)
    else CFloat.finite (((rand g).1 : ℚ) / (P.RAND_MAX : ℚ)), (rand g).2)

/-- The body of the inner loop of `update` for one sprite, before `updatePosition`, with the
values of type `float` that may be infinite or NaN. -/
def updateBunnyF (P : Platform) (d gravityd maxX maxY : CFloat) (bunny : SpriteF)
    (g : RandStream) : SpriteF × RandStream :=
  let b1 := { bunny with x := bunny.x.add (bunny.speedX.mul d) }
  let b2 := { b1 with y := b1.y.add (b1.speedY.mul d) }
  let b3 := { b2 with speedY := b2.speedY.add gravityd }
  let b4 :=
    if b3.x.gt maxX then { b3 with speedX := b3.speedX.mul (CFloat.finite (-1)), x := maxX }
    else if b3.x.lt (CFloat.finite 0) then
      { b3 with speedX := b3.speedX.mul (CFloat.finite (-1)), x := CFloat.finite 0 }
    else b3
  if b4.y.gt maxY then
    let b5 := { b4 with speedY := b4.speedY.mul (CFloat.finite (-17 / 20)), y := maxY }
    if (rand g).1 &&& 1 ≠ 0 then
      ({ b5 with speedY := b5.speedY.sub ((rrandF P (rand g).2).1.mul (CFloat.finite 6)) },
        (rrandF P (rand g).2).2)
    else (b5, (rand g).2)
  else if b4.y.lt (CFloat.finite 0) then
    ({ b4 with speedY := CFloat.finite 0, y := CFloat.finite 0 }, g)
  else (b4, g)

/-- The loop body of `update` as `update` calls it, for a frame time and a sprite that are
finite: `d = 60.f * deltaTime`, `gravityd = gravity * d`. -/
def updateStepF (P : Platform) (deltaTime maxX maxY : ℚ) (q : ℚ × ℚ × ℚ × ℚ)
    (g : RandStream) : SpriteF × RandStream :=
  let d := (CFloat.finite 60).mul (CFloat.finite deltaTime)
  let gravityd := (CFloat.finite gravity).mul d
  updateBunnyF P d gravityd (CFloat.finite maxX) (CFloat.finite maxY)
    { x := CFloat.finite q.1, y := CFloat.finite q.2.1, speedX := CFloat.finite q.2.2.1,
      speedY := CFloat.finite q.2.2.2 } g

/-! ## Concrete inputs -/

/-- A platform with `RAND_MAX = 32767`, compiled for Windows. -/
def demoPlatform : Platform :=
  { RAND_MAX := 32767, sinf := fun _ => 0, cosf := fun _ => 1, win32 := true }

/-- A generator whose draws are all `0`. -/
def zeroStream : RandStream := { draws := fun _ => 0, pos := 0 }

/-- A sprite at rest at the origin. -/
def restSprite : Sprite :=
  { x := 0, y := 0, scale := 1, rotation := 0, renderData := none, speedX := 0, speedY := 0 }

/-- The application right after start, with the left button pressed: 800 by 600, three frame
slots with valid command buffers. -/
def pressedDemo : VulkanDemo :=
  { width := 800, height := 600, mouseButtonsLeft := true, touchDown := false,
    drawCmdBuffersValid := [true, true, true], bunnyCount := 0, spriteBatches := [],
    currentTexId := 0, clickDownTime := -1, randState := zeroStream }

/-- The application with the left button held for a quarter of a second. -/
def holdingDemo : VulkanDemo := { pressedDemo with clickDownTime := 1 / 4 }

/-- The application with two batches: two resting sprites of texture region 3, then one of
texture region 0. -/
def twoBatchDemo : VulkanDemo :=
  { pressedDemo with
    spriteBatches :=
      [ { texId := 3, spriteDatas := [], sprites := [restSprite, restSprite],
          instanceBuffer := ⟨0, []⟩ },
        { texId := 0, spriteDatas := [], sprites := [restSprite],
          instanceBuffer := ⟨0, []⟩ } ] }

/-- The application after `prepare` and a first spawn-free start: three frame slots, none of
them recorded yet, the pointer up. -/
def preparedApp : VulkanApp :=
  { demo := { pressedDemo with
      mouseButtonsLeft := false
      drawCmdBuffersValid := [false, false, false] }
    prepared := true
    currentBuffer := 0
    destWidth := 800
    destHeight := 600
    imageCount := 3
    drawCmdBuffers := 3
    waitFences := 3
    frameBuffers := 3
    overlay := true
    frameDeltaTime := 1 }

/-- A surface of 800 by 600 whose swap chain has three images. -/
def sameSurface : SurfaceReply :=
  { currentExtentWidth := 800, currentExtentHeight := 600, imageCount := 3 }

/-- The application right after start with the pointer pressed on either platform. -/
def bothPressedDemo : VulkanDemo := { pressedDemo with touchDown := true }

/-- The initial state with two frame slots that were never recorded. -/
def staleFlagsDemo : VulkanDemo := { pressedDemo with drawCmdBuffersValid := [false, false] }

/-- Two calls of `update`: a press, then a release, each after a sixtieth of a second. -/
def pressReleaseInputs (valid : List Bool) : List UpdateInput :=
  [ { deltaTime := 1 / 60, mouseButtonsLeft := true, touchDown := false, width := 800,
      height := 600, drawCmdBuffersValid := valid },
    { deltaTime := 1 / 60, mouseButtonsLeft := false, touchDown := false, width := 800,
      height := 600, drawCmdBuffersValid := valid } ]

/-- A frame in which image 0 is acquired and presented with success, the pointer is up, and
the overlay reports `overlayUpdate`. -/
def quietFrame (overlayUpdate : Bool) : FrameEnv :=
  { acquireResult := VK_SUCCESS, imageIndex := some 0, presentResult := VK_SUCCESS,
    surface := sameSurface, elapsed := 1 / 60, overlayUpdate := overlayUpdate,
    mouseButtonsLeft := false, touchDown := false }

/-- A generator whose draws are all `RAND_MAX = 32767`. -/
def maxStream : RandStream := { draws := fun _ => 32767, pos := 0 }

/-- The application object as constructed, before `prepare`: 800 by 600, no frame slot. -/
def freshApp : VulkanApp :=
  { demo := { pressedDemo with mouseButtonsLeft := false, drawCmdBuffersValid := [] }
    prepared := false
    currentBuffer := 0
    destWidth := 800
    destHeight := 600
    imageCount := 0
    drawCmdBuffers := 0
    waitFences := 0
    frameBuffers := 0
    overlay := true
    frameDeltaTime := 1 }

/-- A surface of 800 by 600 whose swap chain has four images. -/
def fourImageSurface : SurfaceReply :=
  { currentExtentWidth := 800, currentExtentHeight := 600, imageCount := 4 }

/-- The prepared application with the command buffers of all three frame slots recorded. -/
def recordedApp : VulkanApp :=
  { preparedApp with
    demo := { preparedApp.demo with drawCmdBuffersValid := [true, true, true] } }

/-- A frame in which the acquisition of image 0 reports `VK_SUBOPTIMAL_KHR`. -/
def suboptimalFrame : FrameEnv := { quietFrame false with acquireResult := VK_SUBOPTIMAL_KHR }

/-- The prepared application with two batches as `initSprites` makes them: two resting
sprites of texture region 3, then one of texture region 0; the pointer is up. -/
def syncedApp : VulkanApp :=
  { preparedApp with
    demo := { preparedApp.demo with
      spriteBatches :=
        [ (SpriteBatch.new 3).initSprites demoPlatform [restSprite, restSprite],
          (SpriteBatch.new 0).initSprites demoPlatform [restSprite] ] } }

/-- A frame in which image 3, the fourth of a swap chain with four images, is acquired. -/
def fourthImageFrame : FrameEnv :=
  { quietFrame false with imageIndex := some 3, surface := fourImageSurface }

/-- The scene right after start with a touch down: a visible area of 800 by 600. -/
def pressedScene : HelloWorld :=
  { maxX := 800, maxY := 600, bunnyCount := 0, currentTexId := 0, bunnies := [],
    touchDownTime := -1, isTouchDown := true, randState := zeroStream }

/-- A bunny at rest at the origin. -/
def restBunny : Bunny :=
  { x := 0, y := 0, speedX := 0, speedY := 0,
    sprite := { textureRect := 0, scale := 1, rotation := 0, position := (0, 0) } }

/-- The application with the left button held for a sixteenth of a second. -/
def shortHoldDemo : VulkanDemo := { holdingDemo with clickDownTime := 1 / 16 }

/-! ## The physics step: theorems -/

theorem and_one_ne_zero_iff (n : Nat) : n &&& 1 ≠ 0 ↔ n % 2 = 1 := by
  rw [Nat.and_one_is_mod]; omega

/-- C1: the loop body of `update` for one sprite computes the reference step of the
specification on `(x, y, speedX, speedY)`, where the random bit is the parity of the first
draw and the uniform value is `6` times the second draw over `RAND_MAX`. -/
theorem updateBunny_eq_specStep (P : Platform) (dt maxX maxY : ℚ) (bunny : Sprite)
    (g : RandStream) :
    (updateBunny P (60 * dt) (gravity * (60 * dt)) maxX maxY bunny g).1.kinematics =
      specStep dt maxX maxY (decide (g.peek 0 % 2 = 1))
        ((g.peek 1 : ℚ) / (P.RAND_MAX : ℚ) * 6)
        bunny.kinematics := by
  simp only [updateBunny, specStep, Sprite.kinematics, gravity, rand, rrand,
    RandStream.peek, and_one_ne_zero_iff, Nat.add_zero]
  split_ifs <;> simp_all <;> first | done | ring1 | (left; norm_num)

/-- C2: a sprite with `x = maxX + 1` and `speedX = 3` is put back on the right edge with its
horizontal speed reversed, for every frame time that is not negative. -/
theorem updateBunny_boundary_reflection (P : Platform) (dt maxX maxY : ℚ) (bunny : Sprite)
    (g : RandStream) (hdt : 0 ≤ dt) (hx : bunny.x = maxX + 1) (hs : bunny.speedX = 3) :
    (updateBunny P (60 * dt) (gravity * (60 * dt)) maxX maxY bunny g).1.x = maxX ∧
      (updateBunny P (60 * dt) (gravity * (60 * dt)) maxX maxY bunny g).1.speedX = -3 := by
  have h : bunny.x + bunny.speedX * (60 * dt) > maxX := by rw [hx, hs]; linarith
  simp only [updateBunny, if_pos h]
  split_ifs <;> simp [hs]

/-- Witness of C2: an 800 by 600 viewport, `dt = 1/60`, a sprite at `x = 801` with `speedX = 3`. -/
theorem updateBunny_boundary_reflection_witness :
    (updateBunny demoPlatform (60 * (1 / 60)) (gravity * (60 * (1 / 60))) 800 600
        { restSprite with x := 800 + 1, speedX := 3 } zeroStream).1.x = 800 ∧
      (updateBunny demoPlatform (60 * (1 / 60)) (gravity * (60 * (1 / 60))) 800 600
        { restSprite with x := 800 + 1, speedX := 3 } zeroStream).1.speedX = -3 :=
  updateBunny_boundary_reflection demoPlatform (1 / 60) 800 600
    { restSprite with x := 800 + 1, speedX := 3 } zeroStream (by norm_num) rfl rfl

/-- C4, as stated, fails: with `dt = 1/60` in an 800 by 600 viewport, a sprite at `y = -1`
with `speedY = 5` moves to `y = 4` and keeps falling with `speedY = 5.5`. -/
theorem updateBunny_floor_clamp_counterexample :
    (updateBunny demoPlatform (60 * (1 / 60)) (gravity * (60 * (1 / 60))) (800 : Nat)
        (600 : Nat) { restSprite with y := -1, speedY := 5 } zeroStream).1.y = 4 ∧
      (updateBunny demoPlatform (60 * (1 / 60)) (gravity * (60 * (1 / 60))) (800 : Nat)
        (600 : Nat) { restSprite with y := -1, speedY := 5 } zeroStream).1.speedY = 11 / 2 := by
  constructor <;> simp [updateBunny, restSprite, zeroStream, rand, gravity] <;> norm_num

/-- C4, amended: for a frame time `dt < 1/300` (so that `y` is still negative after the
move; in particular for `0 ≤ dt < 1/300`) and every viewport, a sprite with `y = -1` and
`speedY = 5` ends with `y = 0` and `speedY = 0`. -/
theorem updateBunny_floor_clamp (P : Platform) (dt : ℚ) (width height : Nat) (bunny : Sprite)
    (g : RandStream) (hlt : dt < 1 / 300) (hy : bunny.y = -1) (hs : bunny.speedY = 5) :
    (updateBunny P (60 * dt) (gravity * (60 * dt)) width height bunny g).1.y = 0 ∧
      (updateBunny P (60 * dt) (gravity * (60 * dt)) width height bunny g).1.speedY = 0 := by
  have h : bunny.y + bunny.speedY * (60 * dt) < 0 := by rw [hy, hs]; linarith
  have hh : (0 : ℚ) ≤ (height : ℚ) := Nat.cast_nonneg height
  have h1 : ¬ bunny.y + bunny.speedY * (60 * dt) > (height : ℚ) := by
    intro hc; linarith
  simp only [updateBunny]
  split_ifs <;> simp_all

/-- Witness of C4 amended: an 800 by 600 viewport, `dt = 1/600`, a sprite at `y = -1` with `speedY = 5`. -/
theorem updateBunny_floor_clamp_witness :
    (updateBunny demoPlatform (60 * (1 / 600)) (gravity * (60 * (1 / 600))) (800 : Nat)
        (600 : Nat) { restSprite with y := -1, speedY := 5 } zeroStream).1.y = 0 ∧
      (updateBunny demoPlatform (60 * (1 / 600)) (gravity * (60 * (1 / 600))) (800 : Nat)
        (600 : Nat) { restSprite with y := -1, speedY := 5 } zeroStream).1.speedY = 0 :=
  updateBunny_floor_clamp demoPlatform (1 / 600) 800 600
    { restSprite with y := -1, speedY := 5 } zeroStream (by norm_num) rfl rfl

/-! ## Lemmas on `addBunnies` and on the two halves of `update` -/

theorem makeBunnies_length (P : Platform) (n : Nat) (g : RandStream) :
    (makeBunnies P n g).1.length = n := by
  induction n generalizing g with
  | zero => rfl
  | succ n ih => simp [makeBunnies, ih]

theorem initSpritesLoop_length (P : Platform) (i : Nat) (l : List Sprite)
    (datas : List SpriteData) : (initSpritesLoop P i l datas).1.length = l.length := by
  induction l generalizing i datas with
  | nil => rfl
  | cons a l ih => simp [initSpritesLoop, ih]

theorem initSprites_shape (P : Platform) (type : Nat) (sprs : List Sprite) :
    ((SpriteBatch.new type).initSprites P sprs).shape = (type, sprs.length) := by
  simp [SpriteBatch.initSprites, SpriteBatch.new, SpriteBatch.shape, SpriteBatch.size,
    initSpritesLoop_length]

theorem updateSprites_length (P : Platform) (d gravityd maxX maxY : ℚ) (l : List Sprite)
    (datas : List SpriteData) (g : RandStream) :
    (updateSprites P d gravityd maxX maxY l datas g).1.length = l.length := by
  induction l generalizing datas g with
  | nil => rfl
  | cons a l ih => simp [updateSprites, ih]

theorem updateBatch_shape (P : Platform) (d gravityd maxX maxY : ℚ) (b : SpriteBatch)
    (g : RandStream) : (updateBatch P d gravityd maxX maxY b g).1.shape = b.shape := by
  simp [updateBatch, SpriteBatch.flush, SpriteBatch.shape, SpriteBatch.size,
    updateSprites_length]

theorem updateBatches_shape (P : Platform) (d gravityd maxX maxY : ℚ) (l : List SpriteBatch)
    (g : RandStream) :
    (updateBatches P d gravityd maxX maxY l g).1.map SpriteBatch.shape =
      l.map SpriteBatch.shape := by
  induction l generalizing g with
  | nil => rfl
  | cons a l ih => simp [updateBatches, ih, updateBatch_shape]

/-- Every sprite a batch holds after the inner loop is the loop body applied to the sprite
at the same place before, with the generator as it stood when its turn came. -/
theorem updateSprites_pointwise (P : Platform) (d gravityd maxX maxY : ℚ) (l : List Sprite)
    (datas : List SpriteData) (g : RandStream) :
    List.Forall₂ (fun old new => ∃ g1, new = (updateBunny P d gravityd maxX maxY old g1).1) l
      (updateSprites P d gravityd maxX maxY l datas g).1 := by
  induction l generalizing datas g with
  | nil => exact List.Forall₂.nil
  | cons a l ih => exact List.Forall₂.cons ⟨g, rfl⟩ (ih _ _)

/-- The outer loop of `update` keeps the batches in order and steps each of their sprites
with the loop body. -/
theorem updateBatches_pointwise (P : Platform) (d gravityd maxX maxY : ℚ)
    (l : List SpriteBatch) (g : RandStream) :
    List.Forall₂
      (fun b c => c.texId = b.texId ∧
        List.Forall₂ (fun old new => ∃ g1, new = (updateBunny P d gravityd maxX maxY old g1).1)
          b.sprites c.sprites)
      l (updateBatches P d gravityd maxX maxY l g).1 := by
  induction l generalizing g with
  | nil => exact List.Forall₂.nil
  | cons a l ih =>
    exact List.Forall₂.cons ⟨rfl, updateSprites_pointwise P d gravityd maxX maxY _ _ g⟩ (ih _)

/-- The second half of `update` steps every sprite of every batch with the loop body, for
`d = 60 * deltaTime`, `gravityd = gravity * d` and the viewport `width` by `height`. -/
theorem updateBunnies_pointwise (P : Platform) (s : VulkanDemo) (dt : ℚ) :
    List.Forall₂
      (fun b c => c.texId = b.texId ∧
        List.Forall₂
          (fun old new => ∃ g1,
            new = (updateBunny P (60 * dt) (gravity * (60 * dt)) s.width s.height old g1).1)
          b.sprites c.sprites)
      s.spriteBatches (updateBunnies P s dt).spriteBatches :=
  updateBatches_pointwise P (60 * dt) (gravity * (60 * dt)) s.width s.height s.spriteBatches
    s.randState

@[simp]
theorem updateBunnies_clickDownTime (P : Platform) (s : VulkanDemo) (dt : ℚ) :
    (updateBunnies P s dt).clickDownTime = s.clickDownTime := rfl

@[simp]
theorem updateBunnies_currentTexId (P : Platform) (s : VulkanDemo) (dt : ℚ) :
    (updateBunnies P s dt).currentTexId = s.currentTexId := rfl

@[simp]
theorem updateBunnies_bunnyCount (P : Platform) (s : VulkanDemo) (dt : ℚ) :
    (updateBunnies P s dt).bunnyCount = s.bunnyCount := rfl

@[simp]
theorem updateBunnies_drawCmdBuffersValid (P : Platform) (s : VulkanDemo) (dt : ℚ) :
    (updateBunnies P s dt).drawCmdBuffersValid = s.drawCmdBuffersValid := rfl

@[simp]
theorem updateBunnies_mouseButtonsLeft (P : Platform) (s : VulkanDemo) (dt : ℚ) :
    (updateBunnies P s dt).mouseButtonsLeft = s.mouseButtonsLeft := rfl

@[simp]
theorem updateBunnies_touchDown (P : Platform) (s : VulkanDemo) (dt : ℚ) :
    (updateBunnies P s dt).touchDown = s.touchDown := rfl

@[simp]
theorem updateBunnies_shape (P : Platform) (s : VulkanDemo) (dt : ℚ) :
    (updateBunnies P s dt).spriteBatches.map SpriteBatch.shape =
      s.spriteBatches.map SpriteBatch.shape := by
  simp [updateBunnies, updateBatches_shape]

@[simp]
theorem addBunniesCore_clickDownTime (P : Platform) (s : VulkanDemo) (n : Nat) :
    (addBunniesCore P s n).clickDownTime = s.clickDownTime := rfl

@[simp]
theorem addBunniesCore_currentTexId (P : Platform) (s : VulkanDemo) (n : Nat) :
    (addBunniesCore P s n).currentTexId = s.currentTexId := rfl

@[simp]
theorem addBunniesCore_bunnyCount (P : Platform) (s : VulkanDemo) (n : Nat) :
    (addBunniesCore P s n).bunnyCount = (s.bunnyCount + n) % 2 ^ 32 := rfl

@[simp]
theorem addBunniesCore_mouseButtonsLeft (P : Platform) (s : VulkanDemo) (n : Nat) :
    (addBunniesCore P s n).mouseButtonsLeft = s.mouseButtonsLeft := rfl

@[simp]
theorem addBunniesCore_touchDown (P : Platform) (s : VulkanDemo) (n : Nat) :
    (addBunniesCore P s n).touchDown = s.touchDown := rfl

@[simp]
theorem addBunniesCore_drawCmdBuffersValid (P : Platform) (s : VulkanDemo) (n : Nat) :
    (addBunniesCore P s n).drawCmdBuffersValid =
      List.replicate s.drawCmdBuffersValid.length false := by
  simp [addBunniesCore, invalidateCommandBuffers, List.eq_replicate_iff]

@[simp]
theorem addBunniesCore_shape (P : Platform) (s : VulkanDemo) (n : Nat) :
    (addBunniesCore P s n).spriteBatches.map SpriteBatch.shape =
      s.spriteBatches.map SpriteBatch.shape ++ [(s.currentTexId, n)] := by
  simp [addBunniesCore, invalidateCommandBuffers, initSprites_shape, makeBunnies_length]

@[simp]
theorem updateBunnies_length (P : Platform) (s : VulkanDemo) (dt : ℚ) :
    (updateBunnies P s dt).spriteBatches.length = s.spriteBatches.length := by
  have h := congrArg List.length (updateBunnies_shape P s dt)
  rwa [List.length_map, List.length_map] at h

@[simp]
theorem addBunniesCore_length (P : Platform) (s : VulkanDemo) (n : Nat) :
    (addBunniesCore P s n).spriteBatches.length = s.spriteBatches.length + 1 := by
  have h := congrArg List.length (addBunniesCore_shape P s n)
  rwa [List.length_map, List.length_append, List.length_map, List.length_singleton] at h

theorem addBunnies_natCast (P : Platform) (s : VulkanDemo) (n : Nat) :
    addBunnies P s (n : Int) = some (addBunniesCore P s n) := by
  simp [addBunnies]

theorem isClickDown_congr (P : Platform) (s t : VulkanDemo)
    (h1 : t.mouseButtonsLeft = s.mouseButtonsLeft) (h2 : t.touchDown = s.touchDown) :
    isClickDown P t = isClickDown P s := by
  simp [isClickDown, h1, h2]

/-- The press edge: pointer down in `Idle`. -/
theorem update_press (P : Platform) (s : VulkanDemo) (dt : ℚ) (hc : isClickDown P s = true)
    (hi : s.clickDownTime < 0) :
    update P s dt =
      some (updateBunnies P
        (addBunniesCore P { s with clickDownTime := dt } bunniesEachTime) dt) := by
  simp [update, updateClick, hc, hi, addBunnies_natCast]

/-- Pointer down in `Holding`, threshold exceeded. -/
theorem update_hold_spawn (P : Platform) (s : VulkanDemo) (dt : ℚ)
    (hc : isClickDown P s = true) (hi : 0 ≤ s.clickDownTime)
    (ht : s.clickDownTime + dt > bunniesAddingThreshold) :
    update P s dt =
      some (updateBunnies P
        { addBunniesCore P { s with clickDownTime := s.clickDownTime + dt } bunniesEachTime
          with clickDownTime := s.clickDownTime + dt - bunniesAddingThreshold } dt) := by
  have hi1 : ¬ s.clickDownTime < 0 := not_lt.mpr hi
  simp [update, updateClick, hc, hi1, ht, addBunnies_natCast]

/-- Pointer down in `Holding`, threshold not exceeded. -/
theorem update_hold_wait (P : Platform) (s : VulkanDemo) (dt : ℚ)
    (hc : isClickDown P s = true) (hi : 0 ≤ s.clickDownTime)
    (ht : s.clickDownTime + dt ≤ bunniesAddingThreshold) :
    update P s dt =
      some (updateBunnies P { s with clickDownTime := s.clickDownTime + dt } dt) := by
  have hi1 : ¬ s.clickDownTime < 0 := not_lt.mpr hi
  have ht1 : ¬ s.clickDownTime + dt > bunniesAddingThreshold := not_lt.mpr ht
  simp [update, updateClick, hc, hi1, ht1]

/-- Pointer up with a positive hold timer. -/
theorem update_release (P : Platform) (s : VulkanDemo) (dt : ℚ)
    (hc : isClickDown P s = false) (hi : 0 < s.clickDownTime) :
    update P s dt =
      some (updateBunnies P
        { s with clickDownTime := -1, currentTexId := (s.currentTexId + 1) % 2 ^ 32 % 5 }
        dt) := by
  simp [update, updateClick, hc, hi]

/-- Pointer up with a hold timer that is not positive. -/
theorem update_rest (P : Platform) (s : VulkanDemo) (dt : ℚ)
    (hc : isClickDown P s = false) (hi : s.clickDownTime ≤ 0) :
    update P s dt = some (updateBunnies P s dt) := by
  have hi1 : ¬ 0 < s.clickDownTime := not_lt.mpr hi
  simp [update, updateClick, hc, hi1]

/-! ## The press state machine: theorems -/

/-- C5, as stated, fails: from the initial state, a press with `dt = 1/60` leaves the hold
timer at `1/60`, not at `0`. -/
theorem update_press_timer_counterexample :
    isClickDown demoPlatform pressedDemo = true ∧ pressedDemo.Idle ∧
      (update demoPlatform pressedDemo (1 / 60)).map (fun s => s.clickDownTime) =
        some (1 / 60) ∧
      (1 / 60 : ℚ) ≠ 0 := by
  refine ⟨rfl, ?_, ?_, by norm_num⟩
  · simp [VulkanDemo.Idle, pressedDemo]
  · rw [update_press demoPlatform pressedDemo (1 / 60) rfl (by simp [pressedDemo])]
    simp

/-- C5, amended: in `Idle`, an `update` with the pointer pressed returns a state whose hold
timer equals `dt` (so it is `Holding` when `dt` is not negative, and the timer is `0` only
for `dt = 0`), with exactly one batch of 5000 sprites of the current texture region appended
and the counter raised by 5000. -/
theorem update_press_spawns_one (P : Platform) (s : VulkanDemo) (dt : ℚ)
    (hc : isClickDown P s = true) (hi : s.Idle) :
    ∃ t, update P s dt = some t ∧ t.clickDownTime = dt ∧ (0 ≤ dt → t.Holding) ∧
      t.spriteBatches.map SpriteBatch.shape =
        s.spriteBatches.map SpriteBatch.shape ++ [(s.currentTexId, 5000)] ∧
      t.bunnyCount = (s.bunnyCount + 5000) % 2 ^ 32 := by
  refine ⟨_, update_press P s dt hc hi, ?_, ?_, ?_, ?_⟩
  · simp
  · intro h; simpa [VulkanDemo.Holding] using h
  · simp [bunniesEachTime]
  · simp [bunniesEachTime]

/-- Witness of C5 amended: the initial state with the button pressed, `dt = 1/60`. -/
theorem update_press_spawns_one_witness :
    ∃ t, update demoPlatform pressedDemo (1 / 60) = some t ∧ t.clickDownTime = 1 / 60 ∧
      ((0 : ℚ) ≤ 1 / 60 → t.Holding) ∧
      t.spriteBatches.map SpriteBatch.shape =
        pressedDemo.spriteBatches.map SpriteBatch.shape ++ [(pressedDemo.currentTexId, 5000)] ∧
      t.bunnyCount = (pressedDemo.bunnyCount + 5000) % 2 ^ 32 :=
  update_press_spawns_one demoPlatform pressedDemo (1 / 60) rfl
    (by simp [VulkanDemo.Idle, pressedDemo])

/-- C7, as stated, fails: from the initial state, one `update` with the pointer pressed and
`dt = 1/4` leaves the hold timer at `1/4`, not at `3/20`: the press edge stores `dt` and
makes no threshold check. -/
theorem update_first_press_counterexample :
    pressedDemo.Initial ∧ isClickDown demoPlatform pressedDemo = true ∧
      (update demoPlatform pressedDemo (1 / 4)).map (fun s => s.clickDownTime) =
        some (1 / 4) ∧
      (1 / 4 : ℚ) ≠ 3 / 20 := by
  refine ⟨⟨rfl, rfl, rfl, rfl⟩, rfl, ?_, by norm_num⟩
  rw [update_press demoPlatform pressedDemo (1 / 4) rfl (by simp [pressedDemo])]
  simp

/-- C7, amended: from the initial state, one `update` with the pointer pressed and
`dt = 1/4` spawns exactly one batch of 5000 sprites (no second one) and leaves the hold
timer equal to `1/4`. -/
theorem update_first_press (P : Platform) (s : VulkanDemo) (h0 : s.Initial)
    (hc : isClickDown P s = true) :
    ∃ t, update P s (1 / 4) = some t ∧
      t.spriteBatches.map SpriteBatch.shape = [(0, 5000)] ∧ t.bunnyCount = 5000 ∧
      t.clickDownTime = 1 / 4 := by
  obtain ⟨hb, hs, hx, ht⟩ := h0
  have hi : s.clickDownTime < 0 := by rw [ht]; norm_num
  refine ⟨_, update_press P s (1 / 4) hc hi, ?_, ?_, ?_⟩
  · simp [hs, hx, bunniesEachTime]
  · simp [hb, bunniesEachTime]
  · simp

/-- Witness of C7 amended: the initial state with the button pressed. -/
theorem update_first_press_witness :
    ∃ t, update demoPlatform pressedDemo (1 / 4) = some t ∧
      t.spriteBatches.map SpriteBatch.shape = [(0, 5000)] ∧ t.bunnyCount = 5000 ∧
      t.clickDownTime = 1 / 4 :=
  update_first_press demoPlatform pressedDemo ⟨rfl, rfl, rfl, rfl⟩ rfl

/-- C8, the code at the failing input: from the initial state, a press with `dt = 0` leads
to `Holding` with hold timer `0`; the next `update` with the pointer released leaves the
timer at `0` (not `-1`) and the texture-region index unchanged, and a later press does not
take the press edge: it spawns nothing. -/
theorem update_release_after_zero_press :
    ∃ s1 s2 s3, update demoPlatform pressedDemo 0 = some s1 ∧ s1.Holding ∧
      update demoPlatform { s1 with mouseButtonsLeft := false } (1 / 60) = some s2 ∧
      s2.clickDownTime = 0 ∧ ¬ s2.Idle ∧ s2.currentTexId = s1.currentTexId ∧
      s2.currentTexId ≠ (s1.currentTexId + 1) % 5 ∧
      update demoPlatform { s2 with mouseButtonsLeft := true } (1 / 60) = some s3 ∧
      s3.spriteBatches.length = s2.spriteBatches.length := by
  obtain ⟨s1, h1, c1, x1⟩ : ∃ s1, update demoPlatform pressedDemo 0 = some s1 ∧
      s1.clickDownTime = 0 ∧ s1.currentTexId = 0 :=
    ⟨_, update_press demoPlatform pressedDemo 0 rfl (by simp [pressedDemo]), by simp,
      by simp [pressedDemo]⟩
  have h2 := update_rest demoPlatform { s1 with mouseButtonsLeft := false } (1 / 60)
    (by simp [isClickDown, demoPlatform]) (by simp [c1])
  have h3 := update_hold_wait demoPlatform
    { updateBunnies demoPlatform { s1 with mouseButtonsLeft := false } (1 / 60) with
      mouseButtonsLeft := true } (1 / 60)
    (by simp [isClickDown, demoPlatform]) (by simp [c1])
    (by simp [c1, bunniesAddingThreshold]; norm_num)
  exact ⟨s1, _, _, h1, by simp [VulkanDemo.Holding, c1], h2, by simp [c1],
    by simp [VulkanDemo.Idle, c1], by simp, by simp [x1], h3, by simp⟩

/-! ## The texture-region index -/

theorem update_texIdsInRange (P : Platform) (s t : VulkanDemo) (dt : ℚ)
    (h : TexIdsInRange s) (hu : update P s dt = some t) : TexIdsInRange t := by
  obtain ⟨hcur, hall⟩ := h
  cases hc : isClickDown P s with
  | true =>
    by_cases hi : s.clickDownTime < 0
    · rw [update_press P s dt hc hi] at hu
      obtain rfl := Option.some.inj hu
      refine ⟨by simpa using hcur, ?_⟩
      intro p hp
      simp only [updateBunnies_shape, addBunniesCore_shape, List.mem_append,
        List.mem_singleton] at hp
      rcases hp with hp | rfl
      · exact hall p hp
      · exact hcur
    · by_cases ht : s.clickDownTime + dt > bunniesAddingThreshold
      · rw [update_hold_spawn P s dt hc (not_lt.mp hi) ht] at hu
        obtain rfl := Option.some.inj hu
        refine ⟨by simpa using hcur, ?_⟩
        intro p hp
        simp only [updateBunnies_shape, addBunniesCore_shape, List.mem_append,
          List.mem_singleton] at hp
        rcases hp with hp | rfl
        · exact hall p hp
        · exact hcur
      · rw [update_hold_wait P s dt hc (not_lt.mp hi) (not_lt.mp ht)] at hu
        obtain rfl := Option.some.inj hu
        refine ⟨by simpa using hcur, ?_⟩
        intro p hp
        simp only [updateBunnies_shape] at hp
        exact hall p hp
  | false =>
    by_cases hi : 0 < s.clickDownTime
    · rw [update_release P s dt hc hi] at hu
      obtain rfl := Option.some.inj hu
      refine ⟨?_, ?_⟩
      · simp only [updateBunnies_currentTexId]
        exact Nat.mod_lt _ (by norm_num)
      · intro p hp
        simp only [updateBunnies_shape] at hp
        exact hall p hp
    · rw [update_rest P s dt hc (not_lt.mp hi)] at hu
      obtain rfl := Option.some.inj hu
      refine ⟨by simpa using hcur, ?_⟩
      intro p hp
      simp only [updateBunnies_shape] at hp
      exact hall p hp

theorem reachable_texIdsInRange (P : Platform) (s : VulkanDemo) (h : Reachable P s) :
    TexIdsInRange s := by
  induction h with
  | init h0 =>
    obtain ⟨_, hs, hx, _⟩ := h0
    exact ⟨by rw [hx]; norm_num, by simp [hs]⟩
  | step dt _ hu ih => exact update_texIdsInRange P _ _ dt ih hu
  | frame _ hsame ih =>
    obtain ⟨_, hs, hx, _⟩ := hsame
    exact ⟨by rw [hx]; exact ih.1, by rw [hs]; exact ih.2⟩

theorem vertexBufferSize_eq (texw texh : ℚ) : vertexBufferSize texw texh = 320 := by
  simp [vertexBufferSize, generateQuad, generateQuadVertices, sizeofVertexData]

/-- C9: in every reachable state `currentTexId < 5` and every batch has `texId < 5`; the
byte offset `64 * texId` at which `buildCommandBuffer` binds the vertex buffer leaves a
whole quad (4 vertices of 16 bytes) inside the 20-vertex, 320-byte buffer `generateQuad`
fills. -/
theorem reachable_texId_lt_five (P : Platform) (texw texh : ℚ) (s : VulkanDemo)
    (h : Reachable P s) :
    s.currentTexId < 5 ∧ (generateQuad texw texh).length = 20 ∧
      vertexBufferSize texw texh = 320 ∧
      ∀ b ∈ s.spriteBatches, b.texId < 5 ∧ vertexBufferOffset b = 64 * b.texId ∧
        vertexBufferOffset b + 4 * sizeofVertexData ≤ vertexBufferSize texw texh := by
  obtain ⟨hcur, hall⟩ := reachable_texIdsInRange P s h
  refine ⟨hcur, by simp [generateQuad, generateQuadVertices], vertexBufferSize_eq texw texh,
    ?_⟩
  intro b hb
  have hlt : b.texId < 5 := hall b.shape (List.mem_map_of_mem _ hb)
  refine ⟨hlt, by simp [vertexBufferOffset, sizeofVertexData], ?_⟩
  rw [vertexBufferSize_eq]
  simp only [vertexBufferOffset, sizeofVertexData]
  omega

/-- Witness of C9: the state after the first call of `update` with the pointer pressed,
which holds one batch, with a texture of 32 by 256 pixels. -/
theorem reachable_texId_lt_five_witness :
    ∃ t, update demoPlatform pressedDemo (1 / 60) = some t ∧ Reachable demoPlatform t ∧
      t.spriteBatches.length = 1 ∧
      (t.currentTexId < 5 ∧ (generateQuad 32 256).length = 20 ∧
        vertexBufferSize 32 256 = 320 ∧
        ∀ b ∈ t.spriteBatches, b.texId < 5 ∧ vertexBufferOffset b = 64 * b.texId ∧
          vertexBufferOffset b + 4 * sizeofVertexData ≤ vertexBufferSize 32 256) := by
  have hp := update_press demoPlatform pressedDemo (1 / 60) rfl (by decide)
  have hr : Reachable demoPlatform
      (updateBunnies demoPlatform
        (addBunniesCore demoPlatform { pressedDemo with clickDownTime := 1 / 60 }
          bunniesEachTime) (1 / 60)) :=
    Reachable.step (1 / 60) (Reachable.init ⟨rfl, rfl, rfl, rfl⟩) hp
  exact ⟨_, hp, hr, by simp [pressedDemo],
    reachable_texId_lt_five demoPlatform 32 256 _ hr⟩

/-! ## Invalidation of the command buffers -/

/-- C10: `addBunnies(amount)` either does not return (a negative amount, for which
`sprs.resize` throws) or returns a state with as many frame slots as before, every one of
them with its validity flag `false`, whatever the flags were; it returns for every amount
that is not negative. -/
theorem addBunnies_invalidates_all (P : Platform) (s : VulkanDemo) (amount : Int) :
    (amount < 0 ∧ addBunnies P s amount = none) ∨
      (0 ≤ amount ∧ ∃ t, addBunnies P s amount = some t ∧
        t.drawCmdBuffersValid = List.replicate s.drawCmdBuffersValid.length false) := by
  by_cases h : amount < 0
  · exact Or.inl ⟨h, by simp [addBunnies, h]⟩
  · exact Or.inr ⟨not_lt.mp h, addBunniesCore P s amount.toNat, by simp [addBunnies, h],
      addBunniesCore_drawCmdBuffersValid P s amount.toNat⟩

/-! ## The swap chain: theorems -/

theorem presentModeLoop_eq (modes : List VkPresentModeKHR) (m : VkPresentModeKHR)
    (hm : m ≠ VK_PRESENT_MODE_MAILBOX_KHR) :
    presentModeLoop modes m =
      if VK_PRESENT_MODE_MAILBOX_KHR ∈ modes then VK_PRESENT_MODE_MAILBOX_KHR
      else if VK_PRESENT_MODE_IMMEDIATE_KHR ∈ modes then VK_PRESENT_MODE_IMMEDIATE_KHR
      else m := by
  induction modes generalizing m with
  | nil => simp [presentModeLoop]
  | cons p rest ih =>
    by_cases h1 : p = VK_PRESENT_MODE_MAILBOX_KHR
    · simp [presentModeLoop, h1]
    · by_cases h2 : p = VK_PRESENT_MODE_IMMEDIATE_KHR
      · have hne : VK_PRESENT_MODE_IMMEDIATE_KHR ≠ VK_PRESENT_MODE_MAILBOX_KHR := by decide
        simp only [presentModeLoop, if_neg h1, hm, h2, ne_eq, not_false_eq_true, and_self,
          if_true, ih _ hne, List.mem_cons, true_or]
        subst h2
        by_cases h3 : VK_PRESENT_MODE_MAILBOX_KHR ∈ rest <;> simp [h3]
      · have e1 : ¬ VK_PRESENT_MODE_MAILBOX_KHR = p := fun h => h1 h.symm
        have e2 : ¬ VK_PRESENT_MODE_IMMEDIATE_KHR = p := fun h => h2 h.symm
        simp [presentModeLoop, h1, h2, ih m hm, e1, e2]

theorem findB8G8R8A8_eq_find (l : List VkSurfaceFormatKHR) :
    findB8G8R8A8 l = l.find? (fun f => decide (f.format = VK_FORMAT_B8G8R8A8_UNORM)) := by
  induction l with
  | nil => rfl
  | cons a l ih =>
    by_cases h : a.format = VK_FORMAT_B8G8R8A8_UNORM
    · simp [findB8G8R8A8, h]
    · simp [findB8G8R8A8, h, ih]

/-- C15: for a list of surface formats that is not empty, `VulkanSwapChain::initialize`
selects `VK_FORMAT_B8G8R8A8_UNORM` with the colour space of its first occurrence when the
list contains it; it selects `VK_FORMAT_B8G8R8A8_UNORM` with the colour space of the entry
when the list is the single entry `VK_FORMAT_UNDEFINED`; otherwise it selects the format and
colour space of the first entry. -/
theorem selectSurfaceFormat_policy (first : VkSurfaceFormatKHR)
    (rest : List VkSurfaceFormatKHR) :
    (∀ e, (first :: rest).find? (fun f => decide (f.format = VK_FORMAT_B8G8R8A8_UNORM)) =
        some e →
      selectSurfaceFormat (first :: rest) = some (VK_FORMAT_B8G8R8A8_UNORM, e.colorSpace)) ∧
    (rest = [] ∧ first.format = VK_FORMAT_UNDEFINED →
      selectSurfaceFormat (first :: rest) =
        some (VK_FORMAT_B8G8R8A8_UNORM, first.colorSpace)) ∧
    ((∀ f ∈ first :: rest, f.format ≠ VK_FORMAT_B8G8R8A8_UNORM) →
      ¬ (rest = [] ∧ first.format = VK_FORMAT_UNDEFINED) →
      selectSurfaceFormat (first :: rest) = some (first.format, first.colorSpace)) := by
  have hlen : (first :: rest).length = 1 ↔ rest = [] := by
    cases rest <;> simp
  refine ⟨?_, ?_, ?_⟩
  · intro e he
    have hfmt : e.format = VK_FORMAT_B8G8R8A8_UNORM := by
      simpa using List.find?_some he
    have hmem : e ∈ first :: rest := List.mem_of_find?_eq_some he
    have hnot : ¬ ((first :: rest).length = 1 ∧ first.format = VK_FORMAT_UNDEFINED) := by
      rintro ⟨h1, h2⟩
      rw [hlen] at h1
      subst h1
      simp only [List.mem_singleton] at hmem
      subst hmem
      rw [h2] at hfmt
      exact absurd hfmt (by decide)
    simp only [selectSurfaceFormat, if_neg hnot, findB8G8R8A8_eq_find, he, hfmt]
  · rintro ⟨h1, h2⟩
    subst h1
    simp [selectSurfaceFormat, h2]
  · intro hall hnot
    have hnot1 : ¬ ((first :: rest).length = 1 ∧ first.format = VK_FORMAT_UNDEFINED) := by
      rw [hlen]; exact hnot
    have hnone : (first :: rest).find? (fun f => decide (f.format = VK_FORMAT_B8G8R8A8_UNORM))
        = none := by
      rw [List.find?_eq_none]
      intro f hf
      simpa using hall f hf
    simp only [selectSurfaceFormat, if_neg hnot1, findB8G8R8A8_eq_find, hnone]

theorem graphicsPresentLoop_found (pre : List QueueFamily) (q : QueueFamily)
    (post : List QueueFamily) (i g : Nat) (hpre : ∀ x ∈ pre, ¬ x.both) (hq : q.both) :
    graphicsPresentLoop (pre ++ q :: post) i g = (i + pre.length, i + pre.length) := by
  induction pre generalizing i g with
  | nil => simp [graphicsPresentLoop, hq.1, hq.2]
  | cons a pre ih =>
    have ha : ¬ a.both := hpre a (List.mem_cons_self _ _)
    have hpre1 : ∀ x ∈ pre, ¬ x.both := fun x hx => hpre x (List.mem_cons_of_mem _ hx)
    have e : i + 1 + pre.length = i + (pre.length + 1) := by omega
    by_cases h1 : a.graphics = true
    · have h2 : ¬ a.supportsPresent = true := fun h => ha ⟨h1, h⟩
      simp [graphicsPresentLoop, h1, h2, ih _ _ hpre1, e]
    · simp [graphicsPresentLoop, h1, ih _ _ hpre1, e]

theorem graphicsPresentLoop_none (l : List QueueFamily) (i g : Nat)
    (hl : ∀ x ∈ l, ¬ x.both) :
    (graphicsPresentLoop l i g).2 = UINT32_MAX ∧
      ((graphicsPresentLoop l i g).1 = g ∨
        ∃ k q, l[k]? = some q ∧ q.graphics = true ∧ (graphicsPresentLoop l i g).1 = i + k) := by
  induction l generalizing i g with
  | nil => simp [graphicsPresentLoop]
  | cons a l ih =>
    have ha : ¬ a.both := hl a (List.mem_cons_self _ _)
    have hl1 : ∀ x ∈ l, ¬ x.both := fun x hx => hl x (List.mem_cons_of_mem _ hx)
    by_cases h1 : a.graphics = true
    · have h2 : ¬ a.supportsPresent = true := fun h => ha ⟨h1, h⟩
      have step : graphicsPresentLoop (a :: l) i g =
          graphicsPresentLoop l (i + 1) (if g = UINT32_MAX then i else g) := by
        simp [graphicsPresentLoop, h1, h2]
      rw [step]
      obtain ⟨e2, e1⟩ := ih (i + 1) (if g = UINT32_MAX then i else g) hl1
      refine ⟨e2, ?_⟩
      rcases e1 with e1 | ⟨k, q, hk, hg, e1⟩
      · by_cases hgm : g = UINT32_MAX
        · right
          exact ⟨0, a, by simp, h1, by rw [e1, if_pos hgm]; rfl⟩
        · left
          rw [e1, if_neg hgm]
      · right
        exact ⟨k + 1, q, by simpa using hk, hg, by rw [e1]; omega⟩
    · have step : graphicsPresentLoop (a :: l) i g = graphicsPresentLoop l (i + 1) g := by
        simp [graphicsPresentLoop, h1]
      rw [step]
      obtain ⟨e2, e1⟩ := ih (i + 1) g hl1
      refine ⟨e2, ?_⟩
      rcases e1 with e1 | ⟨k, q, hk, hg, e1⟩
      · exact Or.inl e1
      · right
        exact ⟨k + 1, q, by simpa using hk, hg, by rw [e1]; omega⟩

theorem presentLoop_cases (l : List QueueFamily) (i : Nat) :
    presentLoop l i = UINT32_MAX ∨
      ∃ k q, l[k]? = some q ∧ q.supportsPresent = true ∧ presentLoop l i = i + k := by
  induction l generalizing i with
  | nil => simp [presentLoop]
  | cons a l ih =>
    by_cases h : a.supportsPresent = true
    · right
      exact ⟨0, a, by simp, h, by simp [presentLoop, h]⟩
    · have step : presentLoop (a :: l) i = presentLoop l (i + 1) := by
        simp [presentLoop, h]
      rw [step]
      rcases ih (i + 1) with e | ⟨k, q, hk, hp, e⟩
      · exact Or.inl e
      · right
        exact ⟨k + 1, q, by simpa using hk, hp, by rw [e]; omega⟩

/-- C16: for a list of fewer than `2 ^ 32` queue families, `VulkanSwapChain::initialize`
gets past its two `exitFatal` calls exactly when some family has both the graphics bit and
present support, and `queueNodeIndex` is then the lowest index of such a family. -/
theorem selectQueueNodeIndex_lowest_both (families : List QueueFamily)
    (hlen : families.length < 2 ^ 32) :
    (∀ pre q post, families = pre ++ q :: post → (∀ x ∈ pre, ¬ x.both) → q.both →
      selectQueueNodeIndex families = some pre.length) ∧
    ((∀ x ∈ families, ¬ x.both) → selectQueueNodeIndex families = none) ∧
    ((selectQueueNodeIndex families).isSome ↔ ∃ x ∈ families, x.both) := by
  have hfound : ∀ pre q post, families = pre ++ q :: post → (∀ x ∈ pre, ¬ x.both) → q.both →
      selectQueueNodeIndex families = some pre.length := by
    intro pre q post hf hpre hq
    have hlt : pre.length < UINT32_MAX := by
      have : pre.length + 1 ≤ families.length := by rw [hf]; simp
      simp only [UINT32_MAX]; omega
    have hne : pre.length ≠ UINT32_MAX := Nat.ne_of_lt hlt
    simp [selectQueueNodeIndex, hf, graphicsPresentLoop_found pre q post 0 UINT32_MAX hpre hq,
      hne]
  have hnone : (∀ x ∈ families, ¬ x.both) → selectQueueNodeIndex families = none := by
    intro hall
    obtain ⟨e2, e1⟩ := graphicsPresentLoop_none families 0 UINT32_MAX hall
    simp only [selectQueueNodeIndex, e2, if_true]
    rcases e1 with e1 | ⟨k, q, hk, hg, e1⟩
    · simp [e1]
    · rcases presentLoop_cases families 0 with e3 | ⟨j, p, hj, hp, e3⟩
      · simp [e3]
      · have hkj : k ≠ j := by
          intro hkj
          subst hkj
          rw [hk] at hj
          obtain rfl := Option.some.inj hj
          exact hall q (List.getElem?_mem hk) ⟨hg, hp⟩
        have hne : (graphicsPresentLoop families 0 UINT32_MAX).1 ≠ presentLoop families 0 := by
          rw [e1, e3]; omega
        simp [hne]
  refine ⟨hfound, hnone, ?_⟩
  constructor
  · intro hs
    by_contra hex
    have hall : ∀ x ∈ families, ¬ x.both := fun x hx hb => hex ⟨x, hx, hb⟩
    rw [hnone hall] at hs
    exact absurd hs (by simp)
  · rintro ⟨x, hx, hb⟩
    have hsome : (families.find? (fun y => y.graphics && y.supportsPresent)).isSome := by
      rw [List.find?_isSome]
      exact ⟨x, hx, by simp [hb.1, hb.2]⟩
    obtain ⟨b, hbfind⟩ := Option.isSome_iff_exists.mp hsome
    obtain ⟨hpb, pre, post, hf, hpre⟩ := List.find?_eq_some.mp hbfind
    have hq : b.both := by simpa [QueueFamily.both] using hpb
    have hpre1 : ∀ y ∈ pre, ¬ y.both := by
      intro y hy hyb
      have := hpre y hy
      simp [hyb.1, hyb.2] at this
    rw [hfound pre b post hf hpre1 hq]
    rfl

/-- Witness of C16: three families, the third one the first with both capabilities. -/
theorem selectQueueNodeIndex_lowest_both_witness :
    (∀ pre q post,
        [QueueFamily.mk true false, QueueFamily.mk false true, QueueFamily.mk true true] =
          pre ++ q :: post →
        (∀ x ∈ pre, ¬ x.both) → q.both →
        selectQueueNodeIndex
          [QueueFamily.mk true false, QueueFamily.mk false true, QueueFamily.mk true true] =
          some pre.length) ∧
    ((∀ x ∈ [QueueFamily.mk true false, QueueFamily.mk false true, QueueFamily.mk true true],
        ¬ x.both) →
      selectQueueNodeIndex
        [QueueFamily.mk true false, QueueFamily.mk false true, QueueFamily.mk true true] =
        none) ∧
    ((selectQueueNodeIndex
        [QueueFamily.mk true false, QueueFamily.mk false true, QueueFamily.mk true true]).isSome ↔
      ∃ x ∈ [QueueFamily.mk true false, QueueFamily.mk false true, QueueFamily.mk true true],
        x.both) :=
  selectQueueNodeIndex_lowest_both
    [QueueFamily.mk true false, QueueFamily.mk false true, QueueFamily.mk true true]
    (by norm_num)

/-! ## Recording of a command buffer: theorems -/

theorem drawCalls_recordBatches_cons (b : SpriteBatch) (l : List SpriteBatch) (k : Nat)
    (tail : List Cmd) (st : BindState) :
    drawCalls (recordBatches (b :: l) k ++ tail) st =
      { indexCount := 6, instanceCount := b.size % 2 ^ 32,
        bound :=
          { st with
            vertexBinding := some (BufferRef.vertexBuffer, sizeofVertexData * 4 * b.texId)
            instanceBinding := some (BufferRef.instanceBuffer k, 0)
            indexBinding := some (BufferRef.indexBuffer, 0) } } ::
        drawCalls (recordBatches l (k + 1) ++ tail)
          { st with
            vertexBinding := some (BufferRef.vertexBuffer, sizeofVertexData * 4 * b.texId)
            instanceBinding := some (BufferRef.instanceBuffer k, 0)
            indexBinding := some (BufferRef.indexBuffer, 0) } := by
  simp [recordBatches, drawCalls, BindState.step, VERTEX_BUFFER_BIND_ID,
    INSTANCE_BUFFER_BIND_ID]

theorem drawCalls_recordBatches (l : List SpriteBatch) (k : Nat) (tail : List Cmd)
    (st : BindState) (hd : st.descriptorSets = 1) (hp : st.pipeline = 1)
    (hsize : ∀ b ∈ l, b.sprites.length < 2 ^ 32) (htail : ∀ st1, drawCalls tail st1 = []) :
    drawCalls (recordBatches l k ++ tail) st =
      (List.enumFrom k l).map (fun p => expectedDraw p.1 p.2) := by
  induction l generalizing k st with
  | nil => simp [recordBatches, htail]
  | cons b l ih =>
    have hb : b.sprites.length < 2 ^ 32 := hsize b (List.mem_cons_self _ _)
    have hl : ∀ c ∈ l, c.sprites.length < 2 ^ 32 :=
      fun c hc => hsize c (List.mem_cons_of_mem _ hc)
    have e : sizeofVertexData * 4 * b.texId = 64 * b.texId := by
      unfold sizeofVertexData; omega
    rw [drawCalls_recordBatches_cons]
    rw [ih (k + 1) _ (by exact hd) (by exact hp) hl, e]
    have hm : b.size % 2 ^ 32 = b.sprites.length := Nat.mod_eq_of_lt hb
    rw [hm]
    simp [expectedDraw, hd, hp, List.enumFrom_cons]

theorem count_recordBatches (l : List SpriteBatch) (k : Nat) :
    (recordBatches l k).count Cmd.vkCmdBindPipeline = 0 ∧
      (recordBatches l k).count Cmd.vkCmdBindDescriptorSets = 0 := by
  induction l generalizing k with
  | nil => simp [recordBatches]
  | cons b l ih =>
    obtain ⟨h1, h2⟩ := ih (k + 1)
    simp [recordBatches, List.count_cons, h1, h2]

/-- C12: for every list of batches (each of fewer than `2 ^ 32` sprites, as `addBunnies`
makes them), the commands recorded by `buildCommandBuffer` bind the descriptor set and the
pipeline exactly once, and their indexed draws are exactly one per batch, in the order of
`spriteBatches`; the draw of the batch at place `k` has 6 indices and one instance per
sprite of that batch, and is reached with descriptor set and pipeline bound, the shared
vertex buffer bound at byte offset `64 * texId` and the batch's own instance buffer bound at
offset 0. -/
theorem buildCommandBuffer_draws (s : VulkanDemo) (overlay : Bool) (frameBuffer : Nat)
    (hsize : ∀ b ∈ s.spriteBatches, b.sprites.length < 2 ^ 32) :
    drawCalls (buildCommandBuffer s overlay frameBuffer) BindState.empty =
        s.spriteBatches.enum.map (fun p => expectedDraw p.1 p.2) ∧
      (buildCommandBuffer s overlay frameBuffer).count Cmd.vkCmdBindPipeline = 1 ∧
      (buildCommandBuffer s overlay frameBuffer).count Cmd.vkCmdBindDescriptorSets = 1 := by
  have htail : ∀ st1, drawCalls
      (drawUI overlay s.width s.height ++ [Cmd.vkCmdEndRenderPass, Cmd.vkEndCommandBuffer])
      st1 = [] := by
    intro st1
    cases overlay <;> simp [drawUI, drawCalls]
  obtain ⟨c1, c2⟩ := count_recordBatches s.spriteBatches 0
  refine ⟨?_, ?_, ?_⟩
  · have hb : buildCommandBuffer s overlay frameBuffer =
        Cmd.vkBeginCommandBuffer :: Cmd.vkCmdBeginRenderPass frameBuffer s.width s.height ::
          Cmd.vkCmdSetViewport s.width s.height :: Cmd.vkCmdSetScissor s.width s.height ::
          Cmd.vkCmdBindDescriptorSets :: Cmd.vkCmdBindPipeline ::
          (recordBatches s.spriteBatches 0 ++
            (drawUI overlay s.width s.height ++
              [Cmd.vkCmdEndRenderPass, Cmd.vkEndCommandBuffer])) := by
      simp [buildCommandBuffer]
    rw [hb]
    simp only [drawCalls]
    rw [drawCalls_recordBatches s.spriteBatches 0 _ _ (by simp [BindState.step, BindState.empty])
      (by simp [BindState.step, BindState.empty]) hsize htail]
    rfl
  · cases overlay <;>
      simp [buildCommandBuffer, drawUI, List.count_cons, List.count_append, c1]
  · cases overlay <;>
      simp [buildCommandBuffer, drawUI, List.count_cons, List.count_append, c2]

/-- Witness of C12: two batches, of 2 and of 1 sprites, with texture regions 3 and 0. -/
theorem buildCommandBuffer_draws_witness :
    drawCalls (buildCommandBuffer twoBatchDemo true 0) BindState.empty =
        twoBatchDemo.spriteBatches.enum.map (fun p => expectedDraw p.1 p.2) ∧
      (buildCommandBuffer twoBatchDemo true 0).count Cmd.vkCmdBindPipeline = 1 ∧
      (buildCommandBuffer twoBatchDemo true 0).count Cmd.vkCmdBindDescriptorSets = 1 :=
  buildCommandBuffer_draws twoBatchDemo true 0 (by
    intro b hb
    simp only [twoBatchDemo, List.mem_cons, List.mem_singleton, List.not_mem_nil,
      or_false] at hb
    rcases hb with rfl | rfl <;> simp)

/-! ## The buffer wrapper: theorems -/

/-- C17, the code at the failing input: a buffer created persistently mapped and then
destroyed has a null handle but keeps its pointer `mappedData`; a second `destroy` changes
nothing; after a later `create` without persistent mapping, which gets another allocation,
`mappedData` still holds the old pointer and `map` returns it without mapping. -/
theorem destroy_persistent_keeps_mappedData :
    ((Buffer.new.create BufferType.transient 24 true ⟨1, true⟩).destroy).buffer = none ∧
      ((Buffer.new.create BufferType.transient 24 true ⟨1, true⟩).destroy).mappedData =
        some 1 ∧
      ((Buffer.new.create BufferType.transient 24 true ⟨1, true⟩).destroy).destroy =
        (Buffer.new.create BufferType.transient 24 true ⟨1, true⟩).destroy ∧
      (((Buffer.new.create BufferType.transient 24 true ⟨1, true⟩).destroy).create
          BufferType.transient 24 false ⟨2, true⟩).mappedData = some 1 ∧
      ((((Buffer.new.create BufferType.transient 24 true ⟨1, true⟩).destroy).create
          BufferType.transient 24 false ⟨2, true⟩).map).map Prod.snd = some (some 1) := by
  decide

/-- On an object whose pointer `mappedData` is null, a buffer created with `n` bytes receives
`size` bytes of data with `1 ≤ size ≤ n`: `uploadFromStaging` returns, and the first `size`
bytes of the memory of the buffer are the data, whether the memory is host visible (map,
copy, unmap) or not (staging buffer and copy command). -/
theorem uploadFromStaging_fresh (b0 : Buffer) (bufferType : BufferType) (n : Nat)
    (persistentMapped : Bool) (alloc : Allocation) (data : List (Fin 256)) (size : Nat)
    (hm : b0.mappedData = none) (h1 : 1 ≤ size) (hn : size ≤ n) (hd : data.length = size) :
    ∃ b, (b0.create bufferType n persistentMapped alloc).uploadFromStaging data size =
        some b ∧ b.memory.take size = data ∧ b.memory.length = n := by
  have hd1 : size ≤ data.length := le_of_eq hd.symm
  have ht : data.take size = data := by rw [← hd]; exact List.take_length data
  cases hv : alloc.hostVisible <;> cases hp : persistentMapped <;> cases hb : b0.buffer
  all_goals
    simp [Buffer.uploadFromStaging, Buffer.upload, Buffer.create, Buffer.destroy, Buffer.map,
      Buffer.memcpy, Buffer.unmap, flushCopy, hb, hm, hv, hp, hd1, hn, ht, hd,
      List.take_append_of_le_length, Nat.lt_of_lt_of_le Nat.zero_lt_one h1]

/-- C18 does not hold of the code: on an object whose earlier buffer was persistently mapped,
`destroy` (called by hand, or by `create` itself) leaves the pointer `mappedData` of the old
allocation; a buffer then created without persistent mapping in host-visible memory keeps
that pointer, `map` returns it without mapping, and `uploadFromStaging` copies through it
into freed memory, not into the memory of the buffer. On an object whose pointer is null the
round trip holds. -/
theorem uploadFromStaging_stale_pointer :
    (((Buffer.new.create BufferType.transient 24 true ⟨1, true⟩).destroy).create
        BufferType.transient 4 false ⟨2, true⟩).buffer = some 2 ∧
      (((Buffer.new.create BufferType.transient 24 true ⟨1, true⟩).destroy).create
        BufferType.transient 4 false ⟨2, true⟩).mappedData = some 1 ∧
      (((Buffer.new.create BufferType.transient 24 true ⟨1, true⟩).destroy).create
        BufferType.transient 4 false ⟨2, true⟩).uploadFromStaging [1, 2, 3] 3 = none ∧
      ((Buffer.new.create BufferType.transient 24 true ⟨1, true⟩).create
        BufferType.transient 4 false ⟨2, true⟩).uploadFromStaging [1, 2, 3] 3 = none ∧
      (∃ b, (Buffer.new.create BufferType.device 4 false ⟨7, false⟩).uploadFromStaging
        [1, 2, 3] 3 = some b ∧ b.memory.take 3 = [1, 2, 3] ∧ b.memory.length = 4) ∧
      ∀ (b0 : Buffer) (bufferType : BufferType) (n : Nat) (persistentMapped : Bool)
        (alloc : Allocation) (data : List (Fin 256)) (size : Nat),
        b0.mappedData = none → 1 ≤ size → size ≤ n → data.length = size →
          ∃ b, (b0.create bufferType n persistentMapped alloc).uploadFromStaging data size =
            some b ∧ b.memory.take size = data ∧ b.memory.length = n := by
  refine ⟨by decide, by decide, by decide, by decide, ?_, ?_⟩
  · exact uploadFromStaging_fresh Buffer.new BufferType.device 4 false ⟨7, false⟩ [1, 2, 3] 3
      rfl (by decide) (by decide) rfl
  · intro b0 bufferType n persistentMapped alloc data size hm h1 hn hd
    exact uploadFromStaging_fresh b0 bufferType n persistentMapped alloc data size hm h1 hn hd

/-! ## The frame loop: theorems -/

theorem windowResize_events (a : VulkanApp) (surface : SurfaceReply) :
    (windowResize a surface).2 = [Event.windowResize] := by
  unfold windowResize
  split <;> rfl

/-- C13, as stated, fails: when the presentation returns `VK_SUBOPTIMAL_KHR`, `submitFrame`
returns without a call of `windowResize`: its only event is the presentation. -/
theorem submitFrame_suboptimal_counterexample :
    (submitFrame preparedApp VK_SUBOPTIMAL_KHR sameSurface).map Prod.snd =
        some [Event.queuePresent 0 VK_SUBOPTIMAL_KHR] ∧
      Event.windowResize ∉ [Event.queuePresent 0 VK_SUBOPTIMAL_KHR] := by
  constructor
  · simp [submitFrame, preparedApp]
  · decide

/-- C13, amended: in `prepareFrame` a result `VK_ERROR_OUT_OF_DATE_KHR` or
`VK_SUBOPTIMAL_KHR` calls `windowResize` and is not fatal, `VK_SUCCESS` does neither, and
every other result is fatal. In `submitFrame` only `VK_ERROR_OUT_OF_DATE_KHR` calls
`windowResize`; `VK_SUBOPTIMAL_KHR` is accepted like `VK_SUCCESS` (no `windowResize`, not
fatal, state unchanged), and every other result is fatal. -/
theorem prepareFrame_submitFrame_results (a : VulkanApp) (result : VkResult)
    (imageIndex : Option Nat) (surface : SurfaceReply) :
    ((result = VK_ERROR_OUT_OF_DATE_KHR ∨ result = VK_SUBOPTIMAL_KHR) →
      ∃ r, prepareFrame a result imageIndex surface = some r ∧ Event.windowResize ∈ r.2) ∧
    (result = VK_SUCCESS →
      ∃ r, prepareFrame a result imageIndex surface = some r ∧ Event.windowResize ∉ r.2) ∧
    (result ≠ VK_ERROR_OUT_OF_DATE_KHR → result ≠ VK_SUBOPTIMAL_KHR → result ≠ VK_SUCCESS →
      prepareFrame a result imageIndex surface = none) ∧
    (result = VK_ERROR_OUT_OF_DATE_KHR →
      ∃ r, submitFrame a result surface = some r ∧ Event.windowResize ∈ r.2) ∧
    ((result = VK_SUCCESS ∨ result = VK_SUBOPTIMAL_KHR) →
      submitFrame a result surface = some (a, [Event.queuePresent a.currentBuffer result])) ∧
    (result ≠ VK_ERROR_OUT_OF_DATE_KHR → result ≠ VK_SUBOPTIMAL_KHR → result ≠ VK_SUCCESS →
      submitFrame a result surface = none) := by
  refine ⟨?_, ?_, ?_, ?_, ?_, ?_⟩
  · intro h
    simp only [prepareFrame, if_pos h]
    exact ⟨_, rfl, by simp [windowResize_events]⟩
  · intro h
    subst h
    have hn : ¬ (VK_SUCCESS = VK_ERROR_OUT_OF_DATE_KHR ∨ VK_SUCCESS = VK_SUBOPTIMAL_KHR) := by
      decide
    simp only [prepareFrame, if_neg hn, VK_CHECK, if_true, Option.map_some']
    exact ⟨_, rfl, by simp⟩
  · intro h1 h2 h3
    simp [prepareFrame, VK_CHECK, h1, h2, h3]
  · intro h
    subst h
    have hn : ¬ (VK_ERROR_OUT_OF_DATE_KHR = VK_SUCCESS ∨
        VK_ERROR_OUT_OF_DATE_KHR = VK_SUBOPTIMAL_KHR) := by decide
    rw [submitFrame, if_pos hn, if_pos rfl]
    exact ⟨_, rfl, by simp [windowResize_events]⟩
  · intro h
    simp [submitFrame, h]
  · intro h1 h2 h3
    simp [submitFrame, VK_CHECK, h1, h2, h3]

/-! ## The sprite counter -/

/-- A call of `update` either spawns nothing and leaves counter and validity flags as they
are, or appends one batch, adds 5000 to the counter modulo `2 ^ 32` and clears all flags. -/
theorem update_cases (P : Platform) (s t : VulkanDemo) (dt : ℚ) (h : update P s dt = some t) :
    (t.spriteBatches.length = s.spriteBatches.length ∧
        t.drawCmdBuffersValid = s.drawCmdBuffersValid ∧ t.bunnyCount = s.bunnyCount) ∨
      (t.spriteBatches.length = s.spriteBatches.length + 1 ∧
        t.drawCmdBuffersValid = List.replicate s.drawCmdBuffersValid.length false ∧
        t.bunnyCount = (s.bunnyCount + 5000) % 2 ^ 32) := by
  cases hc : isClickDown P s with
  | true =>
    by_cases hi : s.clickDownTime < 0
    · rw [update_press P s dt hc hi] at h
      obtain rfl := Option.some.inj h
      right
      simp [bunniesEachTime]
    · by_cases ht : s.clickDownTime + dt > bunniesAddingThreshold
      · rw [update_hold_spawn P s dt hc (not_lt.mp hi) ht] at h
        obtain rfl := Option.some.inj h
        right
        simp [bunniesEachTime]
      · rw [update_hold_wait P s dt hc (not_lt.mp hi) (not_lt.mp ht)] at h
        obtain rfl := Option.some.inj h
        left
        simp
  | false =>
    by_cases hi : 0 < s.clickDownTime
    · rw [update_release P s dt hc hi] at h
      obtain rfl := Option.some.inj h
      left
      simp
    · rw [update_rest P s dt hc (not_lt.mp hi)] at h
      obtain rfl := Option.some.inj h
      left
      simp

/-- A call of `update` returns. -/
theorem update_isSome (P : Platform) (s : VulkanDemo) (dt : ℚ) : ∃ t, update P s dt = some t := by
  cases hc : isClickDown P s with
  | true =>
    by_cases hi : s.clickDownTime < 0
    · exact ⟨_, update_press P s dt hc hi⟩
    · by_cases ht : s.clickDownTime + dt > bunniesAddingThreshold
      · exact ⟨_, update_hold_spawn P s dt hc (not_lt.mp hi) ht⟩
      · exact ⟨_, update_hold_wait P s dt hc (not_lt.mp hi) (not_lt.mp ht)⟩
  | false =>
    by_cases hi : 0 < s.clickDownTime
    · exact ⟨_, update_release P s dt hc hi⟩
    · exact ⟨_, update_rest P s dt hc (not_lt.mp hi)⟩

/-- While the pointer is held, every call of `update` with one second of frame time spawns:
after `n + 1` such calls the counter is `5000 * (n + 1)` modulo `2 ^ 32`. -/
theorem reachable_held_count (P : Platform) (n : Nat) :
    ∃ s, Reachable P s ∧ isClickDown P s = true ∧ 0 ≤ s.clickDownTime ∧
      s.bunnyCount = (5000 * (n + 1)) % 2 ^ 32 := by
  induction n with
  | zero =>
    have hc : isClickDown P bothPressedDemo = true := by
      simp [isClickDown, bothPressedDemo, pressedDemo]
    have hi : bothPressedDemo.clickDownTime < 0 := by
      simp [bothPressedDemo, pressedDemo]
    refine ⟨_, Reachable.step 1 (Reachable.init ⟨rfl, rfl, rfl, rfl⟩)
      (update_press P bothPressedDemo 1 hc hi), ?_, ?_, ?_⟩
    · rw [isClickDown_congr P bothPressedDemo _ (by simp) (by simp)]
      exact hc
    · simp
    · simp [bothPressedDemo, pressedDemo, bunniesEachTime]
  | succ n ih =>
    obtain ⟨s, hr, hc, hi, hcount⟩ := ih
    have ht : s.clickDownTime + 1 > bunniesAddingThreshold := by
      simp only [bunniesAddingThreshold]; linarith
    refine ⟨_, Reachable.step 1 hr (update_hold_spawn P s 1 hc hi ht), ?_, ?_, ?_⟩
    · rw [isClickDown_congr P s _ (by simp) (by simp)]
      exact hc
    · simp only [updateBunnies_clickDownTime, bunniesAddingThreshold]; linarith
    · simp only [updateBunnies_bunnyCount, addBunniesCore_bunnyCount, hcount, bunniesEachTime]
      omega

/-- C19, as stated, fails: there is a reachable state (858993 batches, counter 4294965000)
from which an `update` with the pointer held spawns once more and the 32-bit counter wraps
to 2704, a smaller value. -/
theorem bunnyCount_wrap_counterexample :
    ∃ s t, Reachable demoPlatform s ∧ update demoPlatform s 1 = some t ∧
      s.bunnyCount = 4294965000 ∧ t.bunnyCount = 2704 ∧ t.bunnyCount < s.bunnyCount := by
  obtain ⟨s, hr, hc, hi, hcount⟩ := reachable_held_count demoPlatform 858992
  have ht : s.clickDownTime + 1 > bunniesAddingThreshold := by
    simp only [bunniesAddingThreshold]; linarith
  have hs : s.bunnyCount = 4294965000 := by rw [hcount]; norm_num
  refine ⟨s, _, hr, update_hold_spawn demoPlatform s 1 hc hi ht, hs, ?_, ?_⟩
  · simp only [updateBunnies_bunnyCount, addBunniesCore_bunnyCount, hs, bunniesEachTime]
    norm_num
  · simp only [updateBunnies_bunnyCount, addBunniesCore_bunnyCount, hs, bunniesEachTime]
    norm_num

/-- C19, amended: as long as the counter can take 5000 more without passing `2 ^ 32`, a
call of `update` returns a state whose counter is the old one or the old one plus 5000, so
it does not decrease. -/
theorem bunnyCount_monotone (P : Platform) (s : VulkanDemo) (dt : ℚ)
    (hroom : s.bunnyCount + 5000 < 2 ^ 32) :
    ∃ t, update P s dt = some t ∧ s.bunnyCount ≤ t.bunnyCount ∧
      (t.bunnyCount = s.bunnyCount ∨ t.bunnyCount = s.bunnyCount + 5000) := by
  obtain ⟨t, ht⟩ := update_isSome P s dt
  refine ⟨t, ht, ?_, ?_⟩
  · rcases update_cases P s t dt ht with ⟨_, _, h⟩ | ⟨_, _, h⟩
    · rw [h]
    · rw [h, Nat.mod_eq_of_lt hroom]; omega
  · rcases update_cases P s t dt ht with ⟨_, _, h⟩ | ⟨_, _, h⟩
    · exact Or.inl h
    · right; rw [h, Nat.mod_eq_of_lt hroom]

/-- Witness of C19 amended: the initial state with the pointer pressed. -/
theorem bunnyCount_monotone_witness :
    ∃ t, update demoPlatform pressedDemo (1 / 60) = some t ∧
      pressedDemo.bunnyCount ≤ t.bunnyCount ∧
      (t.bunnyCount = pressedDemo.bunnyCount ∨ t.bunnyCount = pressedDemo.bunnyCount + 5000) :=
  bunnyCount_monotone demoPlatform pressedDemo (1 / 60) (by simp [pressedDemo])

/-! ## Determinism of the physics -/

theorem eraseValid_updateBunnies (P : Platform) (s : VulkanDemo) (dt : ℚ) :
    (updateBunnies P s dt).eraseValid = updateBunnies P s.eraseValid dt := rfl

theorem eraseValid_addBunniesCore (P : Platform) (s : VulkanDemo) (n : Nat) (c : ℚ) :
    (addBunniesCore P { s with clickDownTime := c } n).eraseValid =
      (addBunniesCore P { s.eraseValid with clickDownTime := c } n).eraseValid := rfl

/-- The result of `update`, without the validity flags, does not depend on the flags it
finds. -/
theorem update_eraseValid (P : Platform) (s : VulkanDemo) (dt : ℚ) :
    (update P s dt).map VulkanDemo.eraseValid =
      (update P s.eraseValid dt).map VulkanDemo.eraseValid := by
  have hcc : isClickDown P s.eraseValid = isClickDown P s := rfl
  have htt : s.eraseValid.clickDownTime = s.clickDownTime := rfl
  cases hc : isClickDown P s with
  | true =>
    have hc1 : isClickDown P s.eraseValid = true := by rw [hcc, hc]
    by_cases hi : s.clickDownTime < 0
    · rw [update_press P s dt hc hi, update_press P s.eraseValid dt hc1 hi]
      simp only [Option.map_some', eraseValid_updateBunnies]
      rw [eraseValid_addBunniesCore]
    · by_cases ht : s.clickDownTime + dt > bunniesAddingThreshold
      · rw [update_hold_spawn P s dt hc (not_lt.mp hi) ht,
          update_hold_spawn P s.eraseValid dt hc1 (not_lt.mp hi) ht]
        rfl
      · rw [update_hold_wait P s dt hc (not_lt.mp hi) (not_lt.mp ht),
          update_hold_wait P s.eraseValid dt hc1 (not_lt.mp hi) (not_lt.mp ht)]
        rfl
  | false =>
    have hc1 : isClickDown P s.eraseValid = false := by rw [hcc, hc]
    by_cases hi : 0 < s.clickDownTime
    · rw [update_release P s dt hc hi, update_release P s.eraseValid dt hc1 hi]
      rfl
    · rw [update_rest P s dt hc (not_lt.mp hi), update_rest P s.eraseValid dt hc1 (not_lt.mp hi)]
      rfl

theorem eraseValid_eq_fields (t1 t2 : VulkanDemo) (h : t1.eraseValid = t2.eraseValid) :
    t1.SameDemo t2 ∧ t1.randState = t2.randState := by
  have a1 := congrArg VulkanDemo.bunnyCount h
  have a2 := congrArg VulkanDemo.spriteBatches h
  have a3 := congrArg VulkanDemo.currentTexId h
  have a4 := congrArg VulkanDemo.clickDownTime h
  have a5 := congrArg VulkanDemo.randState h
  exact ⟨⟨a1.symm, a2.symm, a3.symm, a4.symm⟩, a5⟩

/-- C20: two runs of `update` that start from states with the same members of the demo and
the same generator, and receive call by call the same frame time, pointer state and
viewport, yield the same sequence of tuples `(x, y, speedX, speedY)` for every sprite,
whatever the validity flags of the frame slots are in either run; and the runs return. -/
theorem runUpdates_deterministic (P : Platform) (in1 in2 : List UpdateInput)
    (s1 s2 : VulkanDemo) (hdemo : s1.SameDemo s2) (hrand : s1.randState = s2.randState)
    (hin : in1.map UpdateInput.physical = in2.map UpdateInput.physical) :
    runUpdates P s1 in1 = runUpdates P s2 in2 ∧ (runUpdates P s1 in1).isSome := by
  induction in1 generalizing in2 s1 s2 with
  | nil =>
    cases in2 with
    | nil => exact ⟨rfl, rfl⟩
    | cons j rest => simp at hin
  | cons i rest ih =>
    cases in2 with
    | nil => simp at hin
    | cons j rest2 =>
      simp only [List.map_cons, List.cons.injEq] at hin
      obtain ⟨hij, hrest⟩ := hin
      simp only [UpdateInput.physical, Prod.mk.injEq] at hij
      obtain ⟨hdt, hm, htd, hw, hh⟩ := hij
      obtain ⟨h1, h2, h3, h4⟩ := hdemo
      have hs : (s1.withInput i).eraseValid = (s2.withInput j).eraseValid := by
        simp only [VulkanDemo.withInput, VulkanDemo.eraseValid, hm, htd, hw, hh, h1, h2, h3,
          h4, hrand]
      obtain ⟨t1, ht1⟩ := update_isSome P (s1.withInput i) i.deltaTime
      obtain ⟨t2, ht2⟩ := update_isSome P (s2.withInput j) j.deltaTime
      have ht : t1.eraseValid = t2.eraseValid := by
        have e1 := update_eraseValid P (s1.withInput i) i.deltaTime
        have e2 := update_eraseValid P (s2.withInput j) j.deltaTime
        rw [ht1] at e1
        rw [ht2, ← hs, ← hdt, ← e1] at e2
        exact (Option.some.inj e2).symm
      obtain ⟨hsame, hg⟩ := eraseValid_eq_fields t1 t2 ht
      have hb : t2.spriteBatches = t1.spriteBatches := hsame.2.1
      have hk : t1.kinematics = t2.kinematics := by
        simp only [VulkanDemo.kinematics, hb]
      obtain ⟨hrun, hsome⟩ := ih rest2 t1 t2 hsame hg hrest
      simp only [runUpdates, ht1, ht2, Option.some_bind, hrun, hk, true_and]
      cases hr : runUpdates P t2 rest2 with
      | none => rw [hrun, hr] at hsome; exact absurd hsome (by simp)
      | some v => simp

/-- Witness of C20: the initial state, once with three valid frame slots and once with two
slots never recorded; a press and a release, with different flags found by the calls. -/
theorem runUpdates_deterministic_witness :
    pressedDemo.SameDemo staleFlagsDemo ∧
      (runUpdates demoPlatform pressedDemo (pressReleaseInputs [true, false, true]) =
          runUpdates demoPlatform staleFlagsDemo (pressReleaseInputs []) ∧
        (runUpdates demoPlatform pressedDemo (pressReleaseInputs [true, false, true])).isSome) :=
  ⟨⟨rfl, rfl, rfl, rfl⟩,
    runUpdates_deterministic demoPlatform (pressReleaseInputs [true, false, true])
      (pressReleaseInputs []) pressedDemo staleFlagsDemo ⟨rfl, rfl, rfl, rfl⟩ rfl rfl⟩

/-! ## Rebuilding of the command buffers over a run of frames -/

theorem buildCount_append (slot : Nat) (l1 l2 : List Event) :
    buildCount slot (l1 ++ l2) = buildCount slot l1 + buildCount slot l2 := by
  induction l1 with
  | nil => simp [buildCount]
  | cons e l1 ih =>
    cases e <;> simp [buildCount, ih, Nat.add_assoc]

theorem windowResize_batches (a : VulkanApp) (surface : SurfaceReply) :
    (windowResize a surface).1.demo.spriteBatches = a.demo.spriteBatches := by
  unfold windowResize
  split <;> rfl

theorem prepareFrame_batches (a : VulkanApp) (result : VkResult) (imageIndex : Option Nat)
    (surface : SurfaceReply) (r : VulkanApp × List Event)
    (h : prepareFrame a result imageIndex surface = some r) :
    r.1.demo.spriteBatches = a.demo.spriteBatches := by
  unfold prepareFrame at h
  cases imageIndex <;>
  · simp only at h
    split_ifs at h with h1
    · obtain rfl := Option.some.inj h
      exact windowResize_batches _ _
    · simp only [VK_CHECK] at h
      split_ifs at h
      · obtain rfl := Option.some.inj h
        rfl
      · simp at h

theorem prepareFrame_noResize (a : VulkanApp) (result : VkResult) (imageIndex : Option Nat)
    (surface : SurfaceReply) (r : VulkanApp × List Event)
    (h : prepareFrame a result imageIndex surface = some r) (hn : Event.windowResize ∉ r.2) :
    r.1.demo = a.demo ∧ r.1.prepared = a.prepared ∧ r.1.overlay = a.overlay ∧
      r.1.frameDeltaTime = a.frameDeltaTime ∧ ∀ slot, buildCount slot r.2 = 0 := by
  unfold prepareFrame at h
  cases imageIndex <;>
  · simp only at h
    split_ifs at h with h1
    · obtain rfl := Option.some.inj h
      simp [windowResize_events] at hn
    · simp only [VK_CHECK] at h
      split_ifs at h
      · obtain rfl := Option.some.inj h
        exact ⟨rfl, rfl, rfl, rfl, fun _ => rfl⟩
      · simp at h

theorem submitFrame_cases (a : VulkanApp) (result : VkResult) (surface : SurfaceReply)
    (r : VulkanApp × List Event) (h : submitFrame a result surface = some r) :
    r = (a, [Event.queuePresent a.currentBuffer result]) ∨
      r = ((windowResize a surface).1,
        Event.queuePresent a.currentBuffer result :: (windowResize a surface).2) := by
  by_cases h1 : result = VK_SUCCESS ∨ result = VK_SUBOPTIMAL_KHR
  · simp only [submitFrame, h1, not_true_eq_false, if_false] at h
    exact Or.inl (Option.some.inj h).symm
  · by_cases h2 : result = VK_ERROR_OUT_OF_DATE_KHR
    · simp only [submitFrame, h1, not_false_eq_true, if_true, h2] at h
      right
      rw [h2]
      exact (Option.some.inj h).symm
    · have h3 : result ≠ VK_SUCCESS := fun e => h1 (Or.inl e)
      simp [submitFrame, h2, VK_CHECK, h3] at h
      exact absurd (Or.inr h.1) h1

theorem submitFrame_batches (a : VulkanApp) (result : VkResult) (surface : SurfaceReply)
    (r : VulkanApp × List Event) (h : submitFrame a result surface = some r) :
    r.1.demo.spriteBatches = a.demo.spriteBatches := by
  rcases submitFrame_cases a result surface r h with rfl | rfl
  · rfl
  · exact windowResize_batches _ _

theorem submitFrame_noResize (a : VulkanApp) (result : VkResult) (surface : SurfaceReply)
    (r : VulkanApp × List Event) (h : submitFrame a result surface = some r)
    (hn : Event.windowResize ∉ r.2) :
    r.1 = a ∧ ∀ slot, buildCount slot r.2 = 0 := by
  rcases submitFrame_cases a result surface r h with rfl | rfl
  · exact ⟨rfl, fun _ => rfl⟩
  · simp [windowResize_events] at hn

theorem drawRecord_cases (a : VulkanApp) (r : VulkanApp × List Event)
    (h : drawRecord a = some r) :
    (a.demo.drawCmdBuffersValid[a.currentBuffer]? = some false ∧
        r = ({ a with
            demo := { a.demo with
              drawCmdBuffersValid := a.demo.drawCmdBuffersValid.set a.currentBuffer true } },
          [Event.waitForFences a.currentBuffer, Event.resetFences a.currentBuffer,
            Event.buildCommandBuffer a.currentBuffer
              (buildCommandBuffer a.demo a.overlay a.currentBuffer),
            Event.queueSubmit a.currentBuffer a.currentBuffer])) ∨
      (a.demo.drawCmdBuffersValid[a.currentBuffer]? = some true ∧
        r = (a, [Event.waitForFences a.currentBuffer, Event.resetFences a.currentBuffer,
          Event.queueSubmit a.currentBuffer a.currentBuffer])) := by
  by_cases h1 : a.currentBuffer < a.waitFences
  · cases hv : a.demo.drawCmdBuffersValid[a.currentBuffer]? with
    | none => simp [drawRecord, h1, hv] at h
    | some valid =>
      by_cases h2 : a.currentBuffer < a.drawCmdBuffers
      · cases valid with
        | false =>
          by_cases h3 : a.currentBuffer < a.frameBuffers
          · simp only [drawRecord, h1, hv, h2, h3, if_true, Bool.not_false] at h
            exact Or.inl ⟨rfl, (Option.some.inj h).symm⟩
          · simp [drawRecord, h1, hv, h2, h3] at h
        | true =>
          simp only [drawRecord, h1, hv, h2, if_true, Bool.not_true, Bool.false_eq_true,
            if_false] at h
          exact Or.inr ⟨rfl, (Option.some.inj h).symm⟩
      · simp [drawRecord, h1, hv, h2] at h
  · simp [drawRecord, h1] at h

theorem drawRecord_batches (a : VulkanApp) (r : VulkanApp × List Event)
    (h : drawRecord a = some r) : r.1.demo.spriteBatches = a.demo.spriteBatches := by
  rcases drawRecord_cases a r h with ⟨_, rfl⟩ | ⟨_, rfl⟩ <;> rfl

theorem drawRecord_effect (a : VulkanApp) (r : VulkanApp × List Event)
    (h : drawRecord a = some r) :
    DrawEffect a.demo.drawCmdBuffersValid r.1.demo.drawCmdBuffersValid r.2 ∧
      Event.windowResize ∉ r.2 ∧ r.1.prepared = a.prepared ∧ r.1.overlay = a.overlay ∧
      r.1.frameDeltaTime = a.frameDeltaTime ∧
      r.1.demo.spriteBatches = a.demo.spriteBatches := by
  rcases drawRecord_cases a r h with ⟨hv, rfl⟩ | ⟨hv, rfl⟩
  · refine ⟨⟨a.currentBuffer, rfl, by simp [hv], ?_⟩, by simp, rfl, rfl, rfl, rfl⟩
    intro slot
    by_cases hs : a.currentBuffer = slot
    · subst hs
      simp [buildCount, hv]
    · have hs1 : ¬ slot = a.currentBuffer := fun e => hs e.symm
      simp [buildCount, hs, hs1]
  · refine ⟨⟨a.currentBuffer, ?_, by simp [hv], ?_⟩, by simp, rfl, rfl, rfl, rfl⟩
    · apply List.ext_getElem?
      intro j
      rw [List.getElem?_set]
      by_cases hj : a.currentBuffer = j
      · subst hj
        have hlt : a.currentBuffer < a.demo.drawCmdBuffersValid.length := by
          by_contra hge
          rw [List.getElem?_eq_none (not_lt.mp hge)] at hv
          exact absurd hv (by simp)
        simp [hlt, hv]
      · simp [hj]
    · intro slot
      simp [buildCount, hv]

theorem draw_batches (a : VulkanApp) (env : FrameEnv) (r : VulkanApp × List Event)
    (h : draw a env = some r) : r.1.demo.spriteBatches = a.demo.spriteBatches := by
  simp only [draw, Option.bind_eq_some, Option.map_eq_some'] at h
  obtain ⟨p1, h1, p2, h2, p3, h3, rfl⟩ := h
  simp only
  rw [submitFrame_batches _ _ _ _ h3, drawRecord_batches _ _ h2,
    prepareFrame_batches _ _ _ _ _ h1]

theorem draw_noResize (a : VulkanApp) (env : FrameEnv) (r : VulkanApp × List Event)
    (h : draw a env = some r) (hn : Event.windowResize ∉ r.2) :
    DrawEffect a.demo.drawCmdBuffersValid r.1.demo.drawCmdBuffersValid r.2 ∧
      r.1.overlay = a.overlay ∧ r.1.frameDeltaTime = a.frameDeltaTime := by
  simp only [draw, Option.bind_eq_some, Option.map_eq_some'] at h
  obtain ⟨p1, h1, p2, h2, p3, h3, rfl⟩ := h
  simp only [List.mem_append, not_or] at hn
  obtain ⟨⟨hn1, _⟩, hn3⟩ := hn
  obtain ⟨e1, _, e1o, e1f, c1⟩ := prepareFrame_noResize _ _ _ _ _ h1 hn1
  obtain ⟨⟨cb, hset, hsome, c2⟩, _, _, e2o, e2f, _⟩ := drawRecord_effect _ _ h2
  obtain ⟨e3, c3⟩ := submitFrame_noResize _ _ _ _ h3 hn3
  rw [e1] at hset hsome c2
  refine ⟨⟨cb, by simp only [e3, hset], hsome, ?_⟩, by simp only [e3, e2o, e1o],
    by simp only [e3, e2f, e1f]⟩
  intro slot
  simp only [buildCount_append, c1, c2, c3, Nat.zero_add, Nat.add_zero]

theorem frameEffect_slot (valid valid1 : List Bool) (events : List Event)
    (h : FrameEffect valid valid1 events) (slot : Nat) :
    buildCount slot events ≤ 1 ∧
      (valid[slot]? = some true → valid1[slot]? = some true ∧ buildCount slot events = 0) ∧
      (buildCount slot events = 1 → valid1[slot]? = some true) := by
  rcases h with ⟨rfl, hc⟩ | ⟨cb, rfl, hsome, hc⟩
  · simp [hc slot]
  · have hlt : cb < valid.length := by
      by_contra hge
      rw [List.getElem?_eq_none (not_lt.mp hge)] at hsome
      simp at hsome
    rw [hc slot]
    refine ⟨by split <;> simp, ?_, ?_⟩
    · intro hv
      by_cases hs : slot = cb
      · subst hs
        simp [List.getElem?_set, hlt, hv]
      · have hs1 : ¬ cb = slot := fun e => hs e.symm
        simp [List.getElem?_set, hs, hs1, hv]
    · intro h1
      by_cases hs : slot = cb
      · subst hs
        simp [List.getElem?_set, hlt]
      · simp [hs] at h1

theorem updateOverlay_batches (P : Platform) (a : VulkanApp) (overlayUpdate : Bool) :
    (updateOverlay P a overlayUpdate).demo.spriteBatches = a.demo.spriteBatches := by
  unfold updateOverlay
  cases a.overlay <;> cases overlayUpdate <;> cases P.win32 <;> rfl

theorem updateOverlay_valid (P : Platform) (a : VulkanApp) :
    (updateOverlay P a false).demo.drawCmdBuffersValid = a.demo.drawCmdBuffersValid := by
  unfold updateOverlay
  cases a.overlay <;> cases P.win32 <;> rfl

theorem update_batches_le (P : Platform) (s t : VulkanDemo) (dt : ℚ)
    (h : update P s dt = some t) : s.spriteBatches.length ≤ t.spriteBatches.length := by
  rcases update_cases P s t dt h with ⟨e, _, _⟩ | ⟨e, _, _⟩ <;> omega

theorem render_batches_le (P : Platform) (a : VulkanApp) (env : FrameEnv)
    (r : VulkanApp × List Event) (h : render P a env = some r) :
    a.demo.spriteBatches.length ≤ r.1.demo.spriteBatches.length := by
  simp only [render, Option.bind_eq_some, Option.map_eq_some'] at h
  obtain ⟨r1, h1, demo1, h2, rfl⟩ := h
  have hle := update_batches_le P _ _ _ h2
  have hb : r1.1.demo.spriteBatches = a.demo.spriteBatches := by
    cases hp : a.prepared with
    | true =>
      rw [hp] at h1
      exact draw_batches a env r1 h1
    | false =>
      rw [hp] at h1
      obtain rfl := Option.some.inj h1
      rfl
  rw [hb] at hle
  exact hle

theorem render_noResize (P : Platform) (a : VulkanApp) (env : FrameEnv)
    (r : VulkanApp × List Event) (h : render P a env = some r)
    (hn : Event.windowResize ∉ r.2)
    (hlen : r.1.demo.spriteBatches.length = a.demo.spriteBatches.length) :
    FrameEffect a.demo.drawCmdBuffersValid r.1.demo.drawCmdBuffersValid r.2 := by
  simp only [render, Option.bind_eq_some, Option.map_eq_some'] at h
  obtain ⟨r1, h1, demo1, h2, rfl⟩ := h
  simp only [List.mem_append, not_or] at hn
  have hcount : ∀ slot, buildCount slot (r1.2 ++ [Event.update r1.1.frameDeltaTime]) =
      buildCount slot r1.2 := by
    intro slot
    simp [buildCount_append, buildCount]
  cases hp : a.prepared with
  | true =>
    rw [hp] at h1
    simp only [if_true] at h1
    have hb : r1.1.demo.spriteBatches = a.demo.spriteBatches := draw_batches a env r1 h1
    obtain ⟨⟨cb, hset, hsome, hc⟩, _, _⟩ := draw_noResize a env r1 h1 hn.1
    have hv : demo1.drawCmdBuffersValid = r1.1.demo.drawCmdBuffersValid := by
      rcases update_cases P _ _ _ h2 with ⟨_, e, _⟩ | ⟨e, _, _⟩
      · exact e
      · simp only at hlen
        rw [hb] at e
        omega
    right
    exact ⟨cb, by simp only [hv, hset], hsome, fun slot => by rw [hcount slot, hc slot]⟩
  | false =>
    rw [hp] at h1
    obtain rfl := Option.some.inj h1
    have hv : demo1.drawCmdBuffersValid = a.demo.drawCmdBuffersValid := by
      rcases update_cases P _ _ _ h2 with ⟨_, e, _⟩ | ⟨e, _, _⟩
      · exact e
      · simp only at hlen e
        omega
    left
    exact ⟨hv, fun slot => by rw [hcount slot]; rfl⟩

theorem frame_batches_le (P : Platform) (a : VulkanApp) (env : FrameEnv)
    (r : VulkanApp × List Event) (h : renderFrame P (pointerInput a env) env = some r) :
    a.demo.spriteBatches.length ≤ r.1.demo.spriteBatches.length := by
  simp only [renderFrame, Option.map_eq_some'] at h
  obtain ⟨r0, h0, rfl⟩ := h
  have hle := render_batches_le P _ env r0 h0
  simp only [updateOverlay_batches]
  exact hle

theorem frame_noResize (P : Platform) (a : VulkanApp) (env : FrameEnv)
    (r : VulkanApp × List Event) (h : renderFrame P (pointerInput a env) env = some r)
    (hn : Event.windowResize ∉ r.2) (ho : env.overlayUpdate = false)
    (hlen : r.1.demo.spriteBatches.length = a.demo.spriteBatches.length) :
    FrameEffect a.demo.drawCmdBuffersValid r.1.demo.drawCmdBuffersValid r.2 := by
  simp only [renderFrame, Option.map_eq_some'] at h
  obtain ⟨r0, h0, rfl⟩ := h
  rw [ho] at hlen ⊢
  simp only [updateOverlay_batches] at hlen
  simp only [updateOverlay_valid]
  exact render_noResize P (pointerInput a env) env r0 h0 hn hlen

theorem renderFrames_cons (P : Platform) (a : VulkanApp) (env : FrameEnv)
    (rest : List FrameEnv) (r : VulkanApp × List Event)
    (h : renderFrames P a (env :: rest) = some r) :
    ∃ r1 r2, renderFrame P (pointerInput a env) env = some r1 ∧
      renderFrames P r1.1 rest = some r2 ∧ r = (r2.1, r1.2 ++ r2.2) := by
  simp only [renderFrames, Option.bind_eq_some, Option.map_eq_some'] at h
  obtain ⟨r1, h1, r2, h2, rfl⟩ := h
  exact ⟨r1, r2, h1, h2, rfl⟩

theorem renderFrames_batches_le (P : Platform) (envs : List FrameEnv) (a : VulkanApp)
    (r : VulkanApp × List Event) (h : renderFrames P a envs = some r) :
    a.demo.spriteBatches.length ≤ r.1.demo.spriteBatches.length := by
  induction envs generalizing a r with
  | nil =>
    simp only [renderFrames] at h
    obtain rfl := Option.some.inj h
    exact le_refl _
  | cons env rest ih =>
    obtain ⟨r1, r2, h1, h2, rfl⟩ := renderFrames_cons P a env rest r h
    exact le_trans (frame_batches_le P a env r1 h1) (ih r1.1 r2 h2)

/-- C11, as stated, fails: from a state whose three frame slots are all invalid, as a spawn
leaves them, two frames without spawn and without resize that both acquire image 0 call
`buildCommandBuffer` for slot 0 twice, because the overlay reports a change in the first
frame and `updateOverlay` invalidates all slots. -/
theorem renderFrames_overlay_counterexample :
    (renderFrames demoPlatform preparedApp [quietFrame true, quietFrame false]).map
        (fun r => (buildCount 0 r.2, decide (Event.windowResize ∈ r.2),
          r.1.demo.spriteBatches.length)) =
      some (2, false, preparedApp.demo.spriteBatches.length) := by
  decide

/-- C11, amended: in a run of consecutive frames with no spawn (the number of batches at
the end is the one at the start), no call of `windowResize` and no change reported by the
overlay, `buildCommandBuffer` is called at most once for each frame slot, and not at all
for a slot whose validity flag is set at the start. -/
theorem renderFrames_build_at_most_once (P : Platform) (envs : List FrameEnv) (a : VulkanApp)
    (r : VulkanApp × List Event) (hrun : renderFrames P a envs = some r)
    (hresize : Event.windowResize ∉ r.2) (hoverlay : ∀ env ∈ envs, env.overlayUpdate = false)
    (hspawn : r.1.demo.spriteBatches.length = a.demo.spriteBatches.length) (slot : Nat) :
    buildCount slot r.2 ≤ 1 ∧
      (a.demo.drawCmdBuffersValid[slot]? = some true → buildCount slot r.2 = 0) := by
  induction envs generalizing a r with
  | nil =>
    simp only [renderFrames] at hrun
    obtain rfl := Option.some.inj hrun
    simp [buildCount]
  | cons env rest ih =>
    obtain ⟨r1, r2, h1, h2, rfl⟩ := renderFrames_cons P a env rest r hrun
    simp only [List.mem_append, not_or] at hresize
    have hle1 := frame_batches_le P a env r1 h1
    have hle2 := renderFrames_batches_le P rest r1.1 r2 h2
    simp only at hspawn
    have hlen1 : r1.1.demo.spriteBatches.length = a.demo.spriteBatches.length := by omega
    have hlen2 : r2.1.demo.spriteBatches.length = r1.1.demo.spriteBatches.length := by omega
    have heff := frame_noResize P a env r1 h1 hresize.1
      (hoverlay env (List.mem_cons_self _ _)) hlen1
    obtain ⟨hc1, hkeep, hset⟩ := frameEffect_slot _ _ _ heff slot
    obtain ⟨hc2, hzero⟩ := ih r1.1 r2 h2 hresize.2
      (fun e he => hoverlay e (List.mem_cons_of_mem _ he)) hlen2
    simp only [buildCount_append]
    constructor
    · by_cases hb : buildCount slot r1.2 = 1
      · rw [hzero (hset hb)]
        omega
      · omega
    · intro hv
      obtain ⟨hv1, hz⟩ := hkeep hv
      rw [hz, hzero hv1]

/-- Witness of C11 amended: two frames that both acquire image 0, from the state with
three invalid slots; slot 0 is built in the first frame only. -/
theorem renderFrames_build_at_most_once_witness :
    ∃ r, renderFrames demoPlatform preparedApp [quietFrame false, quietFrame false] = some r ∧
      Event.windowResize ∉ r.2 ∧
      r.1.demo.spriteBatches.length = preparedApp.demo.spriteBatches.length ∧
      buildCount 0 r.2 = 1 ∧
      (buildCount 0 r.2 ≤ 1 ∧
        (preparedApp.demo.drawCmdBuffersValid[0]? = some true → buildCount 0 r.2 = 0)) := by
  have hfacts :
      (renderFrames demoPlatform preparedApp [quietFrame false, quietFrame false]).map
        (fun r => (decide (Event.windowResize ∈ r.2), r.1.demo.spriteBatches.length,
          buildCount 0 r.2)) = some (false, preparedApp.demo.spriteBatches.length, 1) := by
    decide
  obtain ⟨r, hr, hf⟩ := Option.map_eq_some'.mp hfacts
  simp only [Prod.mk.injEq, decide_eq_false_iff_not] at hf
  exact ⟨r, hr, hf.1, hf.2.1, hf.2.2,
    renderFrames_build_at_most_once demoPlatform [quietFrame false, quietFrame false]
      preparedApp r hr hf.1 (by intro env he; simp at he; rw [he]; rfl)
      hf.2.1 0⟩

/-! ## Bounds of the physics step and of the scale -/

/-- In exact arithmetic, for a viewport with `maxX ≥ 0` and `maxY ≥ 0`, whatever the sprite,
the frame time and the draws, the sprite is inside the viewport after one physics step, and
the magnitude of its horizontal speed is the one before the step. -/
theorem updateBunny_in_viewport (P : Platform) (dt maxX maxY : ℚ) (bunny : Sprite)
    (g : RandStream) (hx : 0 ≤ maxX) (hy : 0 ≤ maxY) :
    0 ≤ (updateBunny P (60 * dt) (gravity * (60 * dt)) maxX maxY bunny g).1.x ∧
      (updateBunny P (60 * dt) (gravity * (60 * dt)) maxX maxY bunny g).1.x ≤ maxX ∧
      0 ≤ (updateBunny P (60 * dt) (gravity * (60 * dt)) maxX maxY bunny g).1.y ∧
      (updateBunny P (60 * dt) (gravity * (60 * dt)) maxX maxY bunny g).1.y ≤ maxY ∧
      |(updateBunny P (60 * dt) (gravity * (60 * dt)) maxX maxY bunny g).1.speedX| =
        |bunny.speedX| := by
  simp only [updateBunny]
  split_ifs <;> simp_all

theorem newBunny_scale (P : Platform) (g : RandStream) :
    (newBunny P g).1.scale = 1 / 2 + (g.peek 2 : ℚ) / (P.RAND_MAX : ℚ) * (1 / 2) := by
  simp only [newBunny, rrand2, rrand, rand, RandStream.peek]
  norm_num

theorem makeBunnies_scale (P : Platform) (n : Nat) (g : RandStream) :
    ∀ sprite ∈ (makeBunnies P n g).1,
      ∃ k, sprite.scale = 1 / 2 + (g.draws k : ℚ) / (P.RAND_MAX : ℚ) * (1 / 2) := by
  induction n generalizing g with
  | zero => simp [makeBunnies]
  | succ n ih =>
    intro sprite hs
    simp only [makeBunnies, List.mem_cons] at hs
    rcases hs with hs | hs
    · exact ⟨g.pos + 2, by rw [hs, newBunny_scale]; rfl⟩
    · obtain ⟨k, hk⟩ := ih _ sprite hs
      exact ⟨k, by rw [hk]; rfl⟩

theorem setRenderData_fst (P : Platform) (s : Sprite) (i : Nat) (datas : List SpriteData) :
    (s.setRenderData P (some i) datas).1 = { s with renderData := some i } := rfl

theorem initSpritesLoop_scaleRotation (P : Platform) (i : Nat) (l : List Sprite)
    (datas : List SpriteData) :
    (initSpritesLoop P i l datas).1.map Sprite.scaleRotation = l.map Sprite.scaleRotation := by
  induction l generalizing i datas with
  | nil => rfl
  | cons a l ih => simp [initSpritesLoop, ih, setRenderData_fst, Sprite.scaleRotation]

theorem updateBunny_scaleRotation (P : Platform) (d gravityd maxX maxY : ℚ) (bunny : Sprite)
    (g : RandStream) :
    (updateBunny P d gravityd maxX maxY bunny g).1.scaleRotation = bunny.scaleRotation := by
  simp only [updateBunny, Sprite.scaleRotation]
  split_ifs <;> rfl

theorem updateSprites_scaleRotation (P : Platform) (d gravityd maxX maxY : ℚ)
    (l : List Sprite) (datas : List SpriteData) (g : RandStream) :
    (updateSprites P d gravityd maxX maxY l datas g).1.map Sprite.scaleRotation =
      l.map Sprite.scaleRotation := by
  induction l generalizing datas g with
  | nil => rfl
  | cons a l ih => simp [updateSprites, ih, updateBunny_scaleRotation]

theorem updateBatches_scaleRotation (P : Platform) (d gravityd maxX maxY : ℚ)
    (l : List SpriteBatch) (g : RandStream) :
    (updateBatches P d gravityd maxX maxY l g).1.map
        (fun b => b.sprites.map Sprite.scaleRotation) =
      l.map fun b => b.sprites.map Sprite.scaleRotation := by
  induction l generalizing g with
  | nil => rfl
  | cons a l ih =>
    simp [updateBatches, ih, updateBatch, SpriteBatch.flush, updateSprites_scaleRotation]

/-- C21, as stated, fails: when the draw for the scale is `RAND_MAX` the sprite created by
`addBunnies` has scale `1.0`, which is not below `1.0`. -/
theorem addBunnies_scale_counterexample :
    (addBunnies demoPlatform { pressedDemo with randState := maxStream } 1).map
        (fun t => t.spriteBatches.map fun b => b.sprites.map Sprite.scale) = some [[1]] ∧
      maxStream.peek 2 ≤ demoPlatform.RAND_MAX ∧ ¬ ((1 : ℚ) < 1) := by
  refine ⟨?_, by decide, by norm_num⟩
  simp [addBunnies, addBunniesCore, invalidateCommandBuffers, makeBunnies,
    SpriteBatch.initSprites, SpriteBatch.new, initSpritesLoop, setRenderData_fst, newBunny_scale,
    maxStream, demoPlatform, pressedDemo, RandStream.peek]
  norm_num

/-- C21, amended: with `RAND_MAX > 0` and draws `r` in `0 ≤ r ≤ RAND_MAX`, every sprite of the
batch created by `addBunnies` has scale `0.5 + (r / RAND_MAX) * 0.5` for a draw `r`, with
`0.5 ≤ scale ≤ 1.0` (the upper bound is reached for `r = RAND_MAX`); the physics step of
`update` changes neither the scale nor the rotation of any sprite. -/
theorem addBunnies_scale_range (P : Platform) (s t : VulkanDemo) (amount : Int)
    (hR : 0 < P.RAND_MAX) (hr : ∀ k, s.randState.draws k ≤ P.RAND_MAX)
    (h : addBunnies P s amount = some t) :
    (∃ b, t.spriteBatches = s.spriteBatches ++ [b] ∧
      ∀ sprite ∈ b.sprites, ∃ r : Nat, r ≤ P.RAND_MAX ∧
        sprite.scale = 1 / 2 + (r : ℚ) / (P.RAND_MAX : ℚ) * (1 / 2) ∧
        1 / 2 ≤ sprite.scale ∧ sprite.scale ≤ 1) ∧
      (∀ (d gravityd maxX maxY : ℚ) (bunny : Sprite) (g : RandStream),
        (updateBunny P d gravityd maxX maxY bunny g).1.scale = bunny.scale ∧
          (updateBunny P d gravityd maxX maxY bunny g).1.rotation = bunny.rotation) ∧
      ∀ dt : ℚ, (updateBunnies P t dt).spriteBatches.map
          (fun b => b.sprites.map Sprite.scaleRotation) =
        t.spriteBatches.map fun b => b.sprites.map Sprite.scaleRotation := by
  have hR1 : (0 : ℚ) < (P.RAND_MAX : ℚ) := by exact_mod_cast hR
  refine ⟨?_, ?_, ?_⟩
  · unfold addBunnies at h
    split_ifs at h with hneg
    simp only [Option.some.injEq] at h
    subst h
    refine ⟨_, rfl, ?_⟩
    intro sprite hs
    have hs1 : sprite.scaleRotation ∈
        ((makeBunnies P amount.toNat s.randState).1).map Sprite.scaleRotation := by
      rw [← initSpritesLoop_scaleRotation P 0 _
        (resizeSpriteDatas [] (makeBunnies P amount.toNat s.randState).1.length)]
      exact List.mem_map_of_mem _ hs
    obtain ⟨old, hold, he⟩ := List.mem_map.mp hs1
    obtain ⟨k, hk⟩ := makeBunnies_scale P _ _ old hold
    have hsc : sprite.scale = old.scale := (congrArg Prod.fst he).symm
    have hle : ((s.randState.draws k : ℕ) : ℚ) ≤ (P.RAND_MAX : ℚ) := by exact_mod_cast hr k
    have h0 : (0 : ℚ) ≤ (s.randState.draws k : ℚ) := by positivity
    have hq1 : (s.randState.draws k : ℚ) / (P.RAND_MAX : ℚ) ≤ 1 := (div_le_one hR1).mpr hle
    have hq0 : 0 ≤ (s.randState.draws k : ℚ) / (P.RAND_MAX : ℚ) := div_nonneg h0 hR1.le
    exact ⟨s.randState.draws k, hr k, by rw [hsc, hk], by rw [hsc, hk]; linarith,
      by rw [hsc, hk]; linarith⟩
  · intro d gravityd maxX maxY bunny g
    have := updateBunny_scaleRotation P d gravityd maxX maxY bunny g
    exact ⟨congrArg Prod.fst this, congrArg Prod.snd this⟩
  · intro dt
    exact updateBatches_scaleRotation P _ _ _ _ _ _

/-- Witness of C21 amended: two sprites added to the application right after start, with draws
that are all `0`. -/
theorem addBunnies_scale_range_witness :
    ∃ b, (addBunniesCore demoPlatform pressedDemo 2).spriteBatches =
        pressedDemo.spriteBatches ++ [b] ∧
      ∀ sprite ∈ b.sprites, ∃ r : Nat, r ≤ demoPlatform.RAND_MAX ∧
        sprite.scale = 1 / 2 + (r : ℚ) / (demoPlatform.RAND_MAX : ℚ) * (1 / 2) ∧
        1 / 2 ≤ sprite.scale ∧ sprite.scale ≤ 1 :=
  (addBunnies_scale_range demoPlatform pressedDemo (addBunniesCore demoPlatform pressedDemo 2)
    2 (by decide) (fun _ => Nat.zero_le _) rfl).1

/-! ## Resize and the per-slot vectors -/

/-- C24: on a prepared application, whatever the validity flags were, `windowResize` sets the
width and the height to the destination size, or to the extent of the surface when the
surface defines one, gives `drawCmdBuffers` and the flags the size of the new image count,
leaves every flag `false` and `prepared` true, and keeps the sprites; on an application that
is not prepared it changes nothing. -/
theorem windowResize_spec (a : VulkanApp) (surface : SurfaceReply) :
    (a.prepared = true →
      (windowResize a surface).1.prepared = true ∧
        (windowResize a surface).1.demo.drawCmdBuffersValid =
          List.replicate surface.imageCount false ∧
        (windowResize a surface).1.drawCmdBuffers = surface.imageCount ∧
        (surface.currentExtentWidth = UINT32_MAX →
          (windowResize a surface).1.demo.width = a.destWidth ∧
            (windowResize a surface).1.demo.height = a.destHeight) ∧
        (surface.currentExtentWidth ≠ UINT32_MAX →
          (windowResize a surface).1.demo.width = surface.currentExtentWidth ∧
            (windowResize a surface).1.demo.height = surface.currentExtentHeight) ∧
        (windowResize a surface).1.demo.spriteBatches = a.demo.spriteBatches ∧
        (windowResize a surface).1.demo.bunnyCount = a.demo.bunnyCount) ∧
      (a.prepared = false → (windowResize a surface).1 = a) := by
  constructor
  · intro hp
    have hlen : (resizeValid a.demo.drawCmdBuffersValid surface.imageCount).length =
        surface.imageCount := by
      simp only [resizeValid, List.length_append, List.length_take, List.length_replicate]
      omega
    refine ⟨?_, ?_, ?_, ?_, ?_, ?_, ?_⟩
    · simp [windowResize, hp]
    · simp only [windowResize, hp, invalidateCommandBuffers, Bool.not_true, Bool.false_eq_true,
        if_false]
      rw [List.eq_replicate_iff]
      exact ⟨by rw [List.length_map, hlen], by simp⟩
    · simp [windowResize, hp]
    · intro he
      simp [windowResize, hp, he, invalidateCommandBuffers]
    · intro he
      simp [windowResize, hp, he, invalidateCommandBuffers]
    · simp [windowResize, hp, invalidateCommandBuffers]
    · simp [windowResize, hp, invalidateCommandBuffers]
  · intro hp
    simp [windowResize, hp]

/-- Witness of C24: the prepared application with three recorded slots, resized by a surface
with four images. -/
theorem windowResize_spec_witness :
    (windowResize recordedApp fourImageSurface).1.prepared = true ∧
      (windowResize recordedApp fourImageSurface).1.demo.drawCmdBuffersValid =
        List.replicate fourImageSurface.imageCount false ∧
      (windowResize recordedApp fourImageSurface).1.drawCmdBuffers =
        fourImageSurface.imageCount ∧
      (windowResize freshApp fourImageSurface).1 = freshApp :=
  ⟨((windowResize_spec recordedApp fourImageSurface).1 rfl).1,
    ((windowResize_spec recordedApp fourImageSurface).1 rfl).2.1,
    ((windowResize_spec recordedApp fourImageSurface).1 rfl).2.2.1,
    (windowResize_spec freshApp fourImageSurface).2 rfl⟩

theorem prepare_slotCounts (a : VulkanApp) (surface : SurfaceReply) :
    (prepare a surface).slotCounts =
        (surface.imageCount, surface.imageCount, surface.imageCount, surface.imageCount) ∧
      (prepare a surface).imageCount = surface.imageCount ∧
      (prepare a surface).prepared = true := by
  have hlen : (resizeValid a.demo.drawCmdBuffersValid surface.imageCount).length =
      surface.imageCount := by
    simp only [resizeValid, List.length_append, List.length_take, List.length_replicate]
    omega
  simp [prepare, VulkanApp.slotCounts, hlen]

/-- C23 does not hold of the code: `prepare` gives the four per-slot vectors the size of the
image count, but `windowResize` does not call `createSynchronizationPrimitives`, so after a
resize whose swap chain has four images instead of three there are four command buffers, flags
and framebuffers and still three fences, and the `draw` that acquires image 3 indexes
`waitFences` beyond its size. -/
theorem windowResize_keeps_fence_count :
    (prepare freshApp sameSurface).slotCounts = (3, 3, 3, 3) ∧
      (prepare freshApp sameSurface).imageCount = 3 ∧
      (windowResize (prepare freshApp sameSurface) fourImageSurface).1.imageCount = 4 ∧
      (windowResize (prepare freshApp sameSurface) fourImageSurface).1.slotCounts =
        (4, 4, 3, 4) ∧
      (draw (windowResize (prepare freshApp sameSurface) fourImageSurface).1
        fourthImageFrame).isSome = false ∧
      ∀ (a : VulkanApp) (surface : SurfaceReply), a.prepared = true →
        (windowResize a surface).1.slotCounts =
          (surface.imageCount, surface.imageCount, a.waitFences, surface.imageCount) := by
  refine ⟨by decide, by decide, by decide, by decide, by decide, ?_⟩
  intro a surface hp
  have hlen : (resizeValid a.demo.drawCmdBuffersValid surface.imageCount).length =
      surface.imageCount := by
    simp only [resizeValid, List.length_append, List.length_take, List.length_replicate]
    omega
  simp [windowResize, hp, VulkanApp.slotCounts, invalidateCommandBuffers, hlen]

/-! ## One call of `draw` -/

theorem prepareFrame_success (a : VulkanApp) (imageIndex : Option Nat)
    (surface : SurfaceReply) :
    prepareFrame a VK_SUCCESS imageIndex surface =
      some ({ a with currentBuffer := imageIndex.getD a.currentBuffer },
        [Event.acquireNextImage VK_SUCCESS]) := by
  cases imageIndex <;>
    simp [prepareFrame, VK_CHECK, VK_SUCCESS, VK_ERROR_OUT_OF_DATE_KHR, VK_SUBOPTIMAL_KHR]

theorem submitFrame_success (a : VulkanApp) (result : VkResult) (surface : SurfaceReply)
    (h : result = VK_SUCCESS ∨ result = VK_SUBOPTIMAL_KHR) :
    submitFrame a result surface = some (a, [Event.queuePresent a.currentBuffer result]) := by
  simp [submitFrame, h]

/-- A call of `draw` whose acquisition succeeds, whose presentation succeeds or is suboptimal,
and whose frame slot exists in all four vectors, returns: the state and the events it leaves,
for a slot whose flag is `valid`. -/
theorem draw_success (a : VulkanApp) (env : FrameEnv) (valid : Bool)
    (hacq : env.acquireResult = VK_SUCCESS)
    (hpres : env.presentResult = VK_SUCCESS ∨ env.presentResult = VK_SUBOPTIMAL_KHR)
    (h1 : env.imageIndex.getD a.currentBuffer < a.waitFences)
    (h2 : env.imageIndex.getD a.currentBuffer < a.drawCmdBuffers)
    (h3 : env.imageIndex.getD a.currentBuffer < a.frameBuffers)
    (hv : a.demo.drawCmdBuffersValid[env.imageIndex.getD a.currentBuffer]? = some valid) :
    draw a env =
      some ((if valid then { a with currentBuffer := env.imageIndex.getD a.currentBuffer }
          else
            { a with
              currentBuffer := env.imageIndex.getD a.currentBuffer
              demo := { a.demo with
                drawCmdBuffersValid :=
                  a.demo.drawCmdBuffersValid.set (env.imageIndex.getD a.currentBuffer) true } }),
        [Event.acquireNextImage VK_SUCCESS,
            Event.waitForFences (env.imageIndex.getD a.currentBuffer),
            Event.resetFences (env.imageIndex.getD a.currentBuffer)] ++
          (if valid then []
            else [Event.buildCommandBuffer (env.imageIndex.getD a.currentBuffer)
              (buildCommandBuffer a.demo a.overlay (env.imageIndex.getD a.currentBuffer))]) ++
          [Event.queueSubmit (env.imageIndex.getD a.currentBuffer)
              (env.imageIndex.getD a.currentBuffer),
            Event.queuePresent (env.imageIndex.getD a.currentBuffer) env.presentResult]) := by
  cases valid <;>
    simp [draw, hacq, prepareFrame_success, drawRecord, h1, h2, h3, hv,
      submitFrame_success _ _ _ hpres]

/-- C22, as stated, fails: when the acquisition reports `VK_SUBOPTIMAL_KHR`, `prepareFrame`
calls `windowResize` inside `draw`; with all three flags set before the call, the command
buffer of slot 0 is built although its flag was `true`, and the flags of slots 1 and 2 are
`false` afterwards. -/
theorem draw_resize_counterexample :
    recordedApp.demo.drawCmdBuffersValid = [true, true, true] ∧
      (draw recordedApp suboptimalFrame).map
          (fun r => (r.1.demo.drawCmdBuffersValid, buildCount 0 r.2)) =
        some ([true, false, false], 1) := by
  decide

/-- C22, amended: a call of `draw` that does not resize (the acquisition succeeds, the
presentation succeeds or is suboptimal) and whose frame slot `cb` exists in the four per-slot
vectors returns; it calls `buildCommandBuffer` for `cb` if and only if the flag of `cb` is
`false` (once, with the commands recorded from the state), leaves the flag of `cb` `true`,
calls it for no other slot and leaves the flags of the other slots as they are, and submits
the command buffer of `cb` in both cases. -/
theorem draw_builds_iff_invalid (a : VulkanApp) (env : FrameEnv) (cb : Nat)
    (hcb : env.imageIndex.getD a.currentBuffer = cb)
    (hacq : env.acquireResult = VK_SUCCESS)
    (hpres : env.presentResult = VK_SUCCESS ∨ env.presentResult = VK_SUBOPTIMAL_KHR)
    (h1 : cb < a.waitFences) (h2 : cb < a.drawCmdBuffers) (h3 : cb < a.frameBuffers)
    (h4 : cb < a.demo.drawCmdBuffersValid.length) :
    ∃ r, draw a env = some r ∧
      (Event.buildCommandBuffer cb (buildCommandBuffer a.demo a.overlay cb) ∈ r.2 ↔
        a.demo.drawCmdBuffersValid[cb]? = some false) ∧
      buildCount cb r.2 = (if a.demo.drawCmdBuffersValid[cb]? = some false then 1 else 0) ∧
      r.1.demo.drawCmdBuffersValid[cb]? = some true ∧
      (∀ slot, slot ≠ cb →
        r.1.demo.drawCmdBuffersValid[slot]? = a.demo.drawCmdBuffersValid[slot]? ∧
          buildCount slot r.2 = 0) ∧
      Event.queueSubmit cb cb ∈ r.2 ∧ Event.windowResize ∉ r.2 := by
  subst hcb
  have hv : a.demo.drawCmdBuffersValid[env.imageIndex.getD a.currentBuffer]? =
      some (a.demo.drawCmdBuffersValid.get ⟨_, h4⟩) := by
    rw [List.getElem?_eq_getElem h4]
    rfl
  generalize a.demo.drawCmdBuffersValid.get ⟨_, h4⟩ = valid at hv
  refine ⟨_, draw_success a env valid hacq hpres h1 h2 h3 hv, ?_⟩
  cases valid
  · refine ⟨by simp [hv], by simp [hv, buildCount], by simp [List.getElem?_set, h4], ?_,
      by simp, by simp⟩
    intro slot hs
    have hs1 : ¬ env.imageIndex.getD a.currentBuffer = slot := fun e => hs e.symm
    simp [List.getElem?_set, hs1, buildCount]
  · refine ⟨by simp [hv], by simp [hv, buildCount], by simp [hv], ?_, by simp, by simp⟩
    intro slot _
    simp [buildCount]

/-- Witness of C22 amended: the prepared application with three invalid slots, in a frame that
acquires image 0. -/
theorem draw_builds_iff_invalid_witness :
    ∃ r, draw preparedApp (quietFrame false) = some r ∧
      (Event.buildCommandBuffer 0 (buildCommandBuffer preparedApp.demo preparedApp.overlay 0) ∈
          r.2 ↔ preparedApp.demo.drawCmdBuffersValid[0]? = some false) ∧
      buildCount 0 r.2 =
        (if preparedApp.demo.drawCmdBuffersValid[0]? = some false then 1 else 0) ∧
      r.1.demo.drawCmdBuffersValid[0]? = some true ∧
      (∀ slot, slot ≠ 0 →
        r.1.demo.drawCmdBuffersValid[slot]? = preparedApp.demo.drawCmdBuffersValid[slot]? ∧
          buildCount slot r.2 = 0) ∧
      Event.queueSubmit 0 0 ∈ r.2 ∧ Event.windowResize ∉ r.2 :=
  draw_builds_iff_invalid preparedApp (quietFrame false) 0 rfl rfl (Or.inl rfl) (by decide)
    (by decide) (by decide) (by decide)

/-! ## The order of events in `draw`, and the fences -/

theorem prepareFrame_events (a : VulkanApp) (result : VkResult) (imageIndex : Option Nat)
    (surface : SurfaceReply) (r : VulkanApp × List Event)
    (h : prepareFrame a result imageIndex surface = some r) :
    ∃ resize, r.2 = Event.acquireNextImage result :: resize ∧
      (resize = [] ∨ resize = [Event.windowResize]) := by
  unfold prepareFrame at h
  cases imageIndex <;>
  · simp only at h
    split_ifs at h with h1
    · obtain rfl := Option.some.inj h
      exact ⟨_, rfl, Or.inr (windowResize_events _ _)⟩
    · simp only [VK_CHECK] at h
      split_ifs at h
      · obtain rfl := Option.some.inj h
        exact ⟨[], rfl, Or.inl rfl⟩
      · simp at h

/-- The events of a call of `draw`, in order: the acquisition, a resize if the acquisition
asks for one, the wait on the fence of the slot, its reset, the recording if the slot needs
it, the submission of the slot with the same fence, the presentation, and a resize if the
presentation asks for one. -/
theorem draw_events (a : VulkanApp) (env : FrameEnv) (r : VulkanApp × List Event)
    (h : draw a env = some r) :
    ∃ cb resize1 build resize2,
      r.2 = Event.acquireNextImage env.acquireResult ::
        (resize1 ++ [Event.waitForFences cb, Event.resetFences cb] ++ build ++
          [Event.queueSubmit cb cb, Event.queuePresent cb env.presentResult] ++ resize2) ∧
      (resize1 = [] ∨ resize1 = [Event.windowResize]) ∧
      (build = [] ∨ ∃ cmds, build = [Event.buildCommandBuffer cb cmds]) ∧
      (resize2 = [] ∨ resize2 = [Event.windowResize]) := by
  simp only [draw, Option.bind_eq_some, Option.map_eq_some'] at h
  obtain ⟨p1, h1, p2, h2, p3, h3, rfl⟩ := h
  obtain ⟨resize1, e1, hr1⟩ := prepareFrame_events _ _ _ _ _ h1
  have hcur : p2.1.currentBuffer = p1.1.currentBuffer := by
    rcases drawRecord_cases _ _ h2 with ⟨_, rfl⟩ | ⟨_, rfl⟩ <;> rfl
  have e2 : ∃ build, p2.2 = [Event.waitForFences p1.1.currentBuffer,
        Event.resetFences p1.1.currentBuffer] ++ build ++
        [Event.queueSubmit p1.1.currentBuffer p1.1.currentBuffer] ∧
      (build = [] ∨ ∃ cmds, build = [Event.buildCommandBuffer p1.1.currentBuffer cmds]) := by
    rcases drawRecord_cases _ _ h2 with ⟨_, rfl⟩ | ⟨_, rfl⟩
    · exact ⟨_, rfl, Or.inr ⟨_, rfl⟩⟩
    · exact ⟨[], rfl, Or.inl rfl⟩
  obtain ⟨build, e2, hb⟩ := e2
  have e3 : ∃ resize2, p3.2 = Event.queuePresent p1.1.currentBuffer env.presentResult ::
      resize2 ∧ (resize2 = [] ∨ resize2 = [Event.windowResize]) := by
    rcases submitFrame_cases _ _ _ _ h3 with rfl | rfl
    · exact ⟨[], by rw [hcur], Or.inl rfl⟩
    · exact ⟨_, by rw [hcur], Or.inr (windowResize_events _ _)⟩
  obtain ⟨resize2, e3, hr2⟩ := e3
  refine ⟨p1.1.currentBuffer, resize1, build, resize2, ?_, hr1, hb, hr2⟩
  simp only [e1, e2, e3, List.cons_append, List.append_assoc, List.nil_append,
    List.singleton_append]

theorem fenceScan_append (l1 l2 : List Event) (pending : List Nat) :
    fenceScan pending (l1 ++ l2) = (fenceScan pending l1).bind fun q => fenceScan q l2 := by
  induction l1 generalizing pending with
  | nil => simp [fenceScan]
  | cons e l1 ih =>
    cases e with
    | queueSubmit slot fence =>
      by_cases hm : slot ∈ pending <;> simp [fenceScan, hm, ih]
    | _ => simp [fenceScan, ih]

/-- The scan passes over the events of a call of `draw`, whatever is pending before. -/
theorem fenceScan_draw (a : VulkanApp) (env : FrameEnv) (r : VulkanApp × List Event)
    (h : draw a env = some r) (pending : List Nat) :
    ∃ q, fenceScan pending r.2 = some q := by
  obtain ⟨cb, resize1, build, resize2, e, h1, h2, h3⟩ := draw_events a env r h
  rw [e]
  rcases h1 with rfl | rfl <;> rcases h2 with rfl | ⟨cmds, rfl⟩ <;> rcases h3 with rfl | rfl <;>
    simp [fenceScan]

theorem fenceScan_render (P : Platform) (a : VulkanApp) (env : FrameEnv)
    (r : VulkanApp × List Event) (h : render P a env = some r) (pending : List Nat) :
    ∃ q, fenceScan pending r.2 = some q := by
  simp only [render, Option.bind_eq_some, Option.map_eq_some'] at h
  obtain ⟨r1, h1, demo1, _, rfl⟩ := h
  cases hp : a.prepared with
  | true =>
    rw [hp] at h1
    simp only [if_true] at h1
    obtain ⟨q, hq⟩ := fenceScan_draw a env r1 h1 pending
    exact ⟨q, by simp [fenceScan_append, hq, fenceScan]⟩
  | false =>
    rw [hp] at h1
    simp only [Bool.false_eq_true, if_false] at h1
    obtain rfl := Option.some.inj h1
    exact ⟨pending, by simp [fenceScan]⟩

theorem fenceScan_renderFrames (P : Platform) (envs : List FrameEnv) (a : VulkanApp)
    (r : VulkanApp × List Event) (h : renderFrames P a envs = some r) (pending : List Nat) :
    ∃ q, fenceScan pending r.2 = some q := by
  induction envs generalizing a r pending with
  | nil =>
    simp only [renderFrames] at h
    obtain rfl := Option.some.inj h
    exact ⟨pending, rfl⟩
  | cons env rest ih =>
    obtain ⟨r1, r2, h1, h2, rfl⟩ := renderFrames_cons P a env rest r h
    simp only [renderFrame, Option.map_eq_some'] at h1
    obtain ⟨r0, h0, rfl⟩ := h1
    obtain ⟨q1, hq1⟩ := fenceScan_render P _ env r0 h0 pending
    obtain ⟨q2, hq2⟩ := ih _ r2 h2 q1
    exact ⟨q2, by simp [fenceScan_append, hq1, hq2]⟩

theorem fenceScan_pending (slot fence : Nat) (l3 l2 : List Event) (pending : List Nat)
    (hm : slot ∈ pending)
    (h : fenceScan pending (l2 ++ Event.queueSubmit slot fence :: l3) ≠ none) :
    Event.waitForFences slot ∈ l2 := by
  induction l2 generalizing pending with
  | nil => simp [fenceScan, hm] at h
  | cons e l2 ih =>
    cases e with
    | waitForFences s =>
      by_cases hs : s = slot
      · subst hs
        exact List.mem_cons_self _ _
      · simp only [List.cons_append, fenceScan] at h
        have hs1 : slot ≠ s := fun e => hs e.symm
        exact List.mem_cons_of_mem _ (ih _ (by simp [hm, hs1]) h)
    | queueSubmit s f =>
      simp only [List.cons_append, fenceScan] at h
      split_ifs at h with hp
      · exact absurd rfl h
      · exact List.mem_cons_of_mem _ (ih _ (List.mem_cons_of_mem _ hm) h)
    | _ =>
      simp only [List.cons_append, fenceScan] at h
      exact List.mem_cons_of_mem _ (ih _ hm h)

theorem fenceScan_submitted (slot fence : Nat) (rest l1 : List Event) (pending : List Nat)
    (h : fenceScan pending (l1 ++ Event.queueSubmit slot fence :: rest) ≠ none) :
    ∃ q, slot ∈ q ∧ fenceScan q rest ≠ none := by
  induction l1 generalizing pending with
  | nil =>
    simp only [List.nil_append, fenceScan] at h
    split_ifs at h with hp
    · exact absurd rfl h
    · exact ⟨_, List.mem_cons_self _ _, h⟩
  | cons e l1 ih =>
    cases e with
    | queueSubmit s f =>
      simp only [List.cons_append, fenceScan] at h
      split_ifs at h with hp
      · exact absurd rfl h
      · exact ih _ h
    | _ =>
      simp only [List.cons_append, fenceScan] at h
      exact ih _ h

/-- A sequence of events on which the scan passes has a wait on the fence of a slot between
any two submissions of that slot. -/
theorem fenceScan_sound (log : List Event) (pending q : List Nat)
    (h : fenceScan pending log = some q) (l1 l2 l3 : List Event) (slot f1 f2 : Nat)
    (e : log = l1 ++ Event.queueSubmit slot f1 :: (l2 ++ Event.queueSubmit slot f2 :: l3)) :
    Event.waitForFences slot ∈ l2 := by
  subst e
  have hne : fenceScan pending
      (l1 ++ Event.queueSubmit slot f1 :: (l2 ++ Event.queueSubmit slot f2 :: l3)) ≠ none := by
    rw [h]
    simp
  obtain ⟨q1, hm, hq1⟩ := fenceScan_submitted slot f1 _ l1 pending hne
  exact fenceScan_pending slot f2 l3 l2 q1 hm hq1

/-- C26: in a run of frames of the render loop no frame slot is submitted twice without a wait
on the fence of that slot between the two submissions, because every call of `draw` does, in
this order: the acquisition of an image (and a resize if the acquisition asks for one), the
wait on the fence of the current slot, the reset of that fence, the recording if the slot
needs it, the submission of the command buffer of the slot signalling that same fence, and
the presentation (and a resize if the presentation asks for one). -/
theorem draw_order_and_fences (P : Platform) (a : VulkanApp) (envs : List FrameEnv)
    (r : VulkanApp × List Event) (h : renderFrames P a envs = some r) :
    (∀ (l1 l2 l3 : List Event) (slot f1 f2 : Nat),
      r.2 = l1 ++ Event.queueSubmit slot f1 :: (l2 ++ Event.queueSubmit slot f2 :: l3) →
        Event.waitForFences slot ∈ l2) ∧
      ∀ (a1 : VulkanApp) (env : FrameEnv) (r1 : VulkanApp × List Event),
        draw a1 env = some r1 →
          ∃ cb resize1 build resize2,
            r1.2 = Event.acquireNextImage env.acquireResult ::
              (resize1 ++ [Event.waitForFences cb, Event.resetFences cb] ++ build ++
                [Event.queueSubmit cb cb, Event.queuePresent cb env.presentResult] ++
                resize2) ∧
            (resize1 = [] ∨ resize1 = [Event.windowResize]) ∧
            (build = [] ∨ ∃ cmds, build = [Event.buildCommandBuffer cb cmds]) ∧
            (resize2 = [] ∨ resize2 = [Event.windowResize]) := by
  constructor
  · intro l1 l2 l3 slot f1 f2 e
    obtain ⟨q, hq⟩ := fenceScan_renderFrames P envs a r h []
    exact fenceScan_sound r.2 [] q hq l1 l2 l3 slot f1 f2 e
  · intro a1 env r1 h1
    exact draw_events a1 env r1 h1

/-- Witness of C26: two frames that both acquire image 0, from the prepared application; slot
0 is submitted twice. -/
theorem draw_order_and_fences_witness :
    ∃ r, renderFrames demoPlatform preparedApp [quietFrame false, quietFrame false] = some r ∧
      (r.2.filter fun e => decide (e = Event.queueSubmit 0 0)).length = 2 ∧
      ∀ (l1 l2 l3 : List Event) (slot f1 f2 : Nat),
        r.2 = l1 ++ Event.queueSubmit slot f1 :: (l2 ++ Event.queueSubmit slot f2 :: l3) →
          Event.waitForFences slot ∈ l2 := by
  have hfacts :
      (renderFrames demoPlatform preparedApp [quietFrame false, quietFrame false]).map
        (fun r => (r.2.filter fun e => decide (e = Event.queueSubmit 0 0)).length) =
        some 2 := by
    decide
  obtain ⟨r, hr, hf⟩ := Option.map_eq_some'.mp hfacts
  exact ⟨r, hr, hf,
    (draw_order_and_fences demoPlatform preparedApp [quietFrame false, quietFrame false] r
      hr).1⟩

/-! ## The sprite counter, the batches and the instances drawn -/

/-- A call of `update` either keeps the batches' shapes and the counter, or appends one batch
of 5000 sprites of the current texture region and adds 5000 to the counter modulo `2 ^ 32`. -/
theorem update_shape_cases (P : Platform) (s t : VulkanDemo) (dt : ℚ)
    (h : update P s dt = some t) :
    (t.spriteBatches.map SpriteBatch.shape = s.spriteBatches.map SpriteBatch.shape ∧
        t.bunnyCount = s.bunnyCount) ∨
      (t.spriteBatches.map SpriteBatch.shape =
          s.spriteBatches.map SpriteBatch.shape ++ [(s.currentTexId, 5000)] ∧
        t.bunnyCount = (s.bunnyCount + 5000) % 2 ^ 32) := by
  cases hc : isClickDown P s with
  | true =>
    by_cases hi : s.clickDownTime < 0
    · rw [update_press P s dt hc hi] at h
      obtain rfl := Option.some.inj h
      right
      simp [bunniesEachTime]
    · by_cases ht : s.clickDownTime + dt > bunniesAddingThreshold
      · rw [update_hold_spawn P s dt hc (not_lt.mp hi) ht] at h
        obtain rfl := Option.some.inj h
        right
        simp [bunniesEachTime]
      · rw [update_hold_wait P s dt hc (not_lt.mp hi) (not_lt.mp ht)] at h
        obtain rfl := Option.some.inj h
        left
        simp
  | false =>
    by_cases hi : 0 < s.clickDownTime
    · rw [update_release P s dt hc hi] at h
      obtain rfl := Option.some.inj h
      left
      simp
    · rw [update_rest P s dt hc (not_lt.mp hi)] at h
      obtain rfl := Option.some.inj h
      left
      simp

/-- In every state the program can be in, each batch has 5000 sprites and the counter is 5000
times the number of batches, modulo `2 ^ 32`. -/
theorem reachable_count (P : Platform) (s : VulkanDemo) (h : Reachable P s) :
    (∀ p ∈ s.spriteBatches.map SpriteBatch.shape, p.2 = 5000) ∧
      s.bunnyCount = 5000 * s.spriteBatches.length % 2 ^ 32 := by
  induction h with
  | init hi =>
    obtain ⟨h1, h2, _, _⟩ := hi
    simp [h1, h2]
  | step dt _ hu ih =>
    obtain ⟨ih1, ih2⟩ := ih
    rcases update_shape_cases P _ _ dt hu with ⟨e, c⟩ | ⟨e, c⟩
    · have hl := congrArg List.length e
      rw [List.length_map, List.length_map] at hl
      refine ⟨by rw [e]; exact ih1, ?_⟩
      rw [c, hl, ih2]
    · have hl := congrArg List.length e
      rw [List.length_map, List.length_append, List.length_map, List.length_singleton] at hl
      refine ⟨?_, ?_⟩
      · rw [e]
        intro p hp
        rcases List.mem_append.mp hp with hp | hp
        · exact ih1 p hp
        · simp only [List.mem_singleton] at hp
          rw [hp]
      · rw [c, hl, ih2]
        norm_num
        omega
  | frame _ hsame ih =>
    obtain ⟨ih1, ih2⟩ := ih
    obtain ⟨c, b, _, _⟩ := hsame
    rw [b, c]
    exact ⟨ih1, ih2⟩

theorem drawCalls_buildCommandBuffer (s : VulkanDemo) (overlay : Bool) (frameBuffer : Nat)
    (hsize : ∀ b ∈ s.spriteBatches, b.sprites.length < 2 ^ 32) :
    drawCalls (buildCommandBuffer s overlay frameBuffer) BindState.empty =
      s.spriteBatches.enum.map (fun p => expectedDraw p.1 p.2) := by
  have htail : ∀ st1, drawCalls
      (drawUI overlay s.width s.height ++ [Cmd.vkCmdEndRenderPass, Cmd.vkEndCommandBuffer])
      st1 = [] := by
    intro st1
    cases overlay <;> simp [drawUI, drawCalls]
  have hb : buildCommandBuffer s overlay frameBuffer =
      Cmd.vkBeginCommandBuffer :: Cmd.vkCmdBeginRenderPass frameBuffer s.width s.height ::
        Cmd.vkCmdSetViewport s.width s.height :: Cmd.vkCmdSetScissor s.width s.height ::
        Cmd.vkCmdBindDescriptorSets :: Cmd.vkCmdBindPipeline ::
        (recordBatches s.spriteBatches 0 ++
          (drawUI overlay s.width s.height ++
            [Cmd.vkCmdEndRenderPass, Cmd.vkEndCommandBuffer])) := by
    simp [buildCommandBuffer]
  rw [hb]
  simp only [drawCalls]
  rw [drawCalls_recordBatches s.spriteBatches 0 _ _ (by simp [BindState.step, BindState.empty])
    (by simp [BindState.step, BindState.empty]) hsize htail]
  rfl

theorem instanceCount_sum (l : List SpriteBatch) (k : Nat)
    (h : ∀ b ∈ l, b.sprites.length = 5000) :
    (((List.enumFrom k l).map fun p => expectedDraw p.1 p.2).map
      DrawCall.instanceCount).sum = 5000 * l.length := by
  induction l generalizing k with
  | nil => rfl
  | cons b l ih =>
    have hb : b.sprites.length = 5000 := h b (List.mem_cons_self _ _)
    have hl := ih (k + 1) fun c hc => h c (List.mem_cons_of_mem _ hc)
    simp only [List.enumFrom_cons, List.map_cons, List.sum_cons, hl, List.length_cons]
    simp only [expectedDraw, hb]
    ring

/-- C30: whatever the state and the frame time, one call of `update` appends at most one
batch, and the counter stays or grows by 5000 (modulo `2 ^ 32`); in the states the program can
be in, the counter after the call is 5000 times the number of batches modulo `2 ^ 32`, and
absent wrap-around it is exactly that product, which is the sum of the instance counts of
the draws of a command buffer recorded from that state. -/
theorem update_count_batches (P : Platform) (s t : VulkanDemo) (dt : ℚ) (overlay : Bool)
    (frameBuffer : Nat) (h : update P s dt = some t) :
    ((t.spriteBatches.length = s.spriteBatches.length ∧ t.bunnyCount = s.bunnyCount) ∨
        (t.spriteBatches.length = s.spriteBatches.length + 1 ∧
          t.bunnyCount = (s.bunnyCount + 5000) % 2 ^ 32)) ∧
      (s.bunnyCount + 5000 < 2 ^ 32 →
        t.bunnyCount = s.bunnyCount ∨ t.bunnyCount = s.bunnyCount + 5000) ∧
      (Reachable P s →
        t.bunnyCount = 5000 * t.spriteBatches.length % 2 ^ 32 ∧
          (5000 * t.spriteBatches.length < 2 ^ 32 →
            t.bunnyCount = 5000 * t.spriteBatches.length ∧
              ((drawCalls (buildCommandBuffer t overlay frameBuffer) BindState.empty).map
                DrawCall.instanceCount).sum = t.bunnyCount)) := by
  have hc := update_cases P s t dt h
  refine ⟨?_, ?_, ?_⟩
  · rcases hc with ⟨e, _, c⟩ | ⟨e, _, c⟩
    · exact Or.inl ⟨e, c⟩
    · exact Or.inr ⟨e, c⟩
  · intro hlt
    rcases hc with ⟨_, _, c⟩ | ⟨_, _, c⟩
    · exact Or.inl c
    · right
      rw [c]
      exact Nat.mod_eq_of_lt hlt
  · intro hs
    obtain ⟨hsz, hcount⟩ := reachable_count P t (Reachable.step dt hs h)
    refine ⟨hcount, ?_⟩
    intro hlt
    have hfive : ∀ b ∈ t.spriteBatches, b.sprites.length = 5000 := by
      intro b hb
      exact hsz b.shape (List.mem_map_of_mem _ hb)
    have hcount1 : t.bunnyCount = 5000 * t.spriteBatches.length := by
      rw [hcount]
      exact Nat.mod_eq_of_lt hlt
    refine ⟨hcount1, ?_⟩
    rw [drawCalls_buildCommandBuffer t overlay frameBuffer
      (fun b hb => by rw [hfive b hb]; norm_num), hcount1]
    exact instanceCount_sum t.spriteBatches 0 hfive

/-- Witness of C30: the first call of `update` with the pointer pressed. -/
theorem update_count_batches_witness :
    ∃ t, update demoPlatform pressedDemo (1 / 60) = some t ∧
      t.spriteBatches.length = 1 ∧ t.bunnyCount = 5000 ∧
      ((drawCalls (buildCommandBuffer t true 0) BindState.empty).map
        DrawCall.instanceCount).sum = t.bunnyCount := by
  obtain ⟨t, ht⟩ := update_isSome demoPlatform pressedDemo (1 / 60)
  obtain ⟨h1, _, h3⟩ := update_count_batches demoPlatform pressedDemo t (1 / 60) true 0 ht
  have hc : isClickDown demoPlatform pressedDemo = true := rfl
  have hlen : t.spriteBatches.length = 1 := by
    have hp := update_press demoPlatform pressedDemo (1 / 60) hc (by decide)
    rw [hp] at ht
    obtain rfl := Option.some.inj ht
    simp [pressedDemo]
  obtain ⟨h4, h5⟩ := h3 (Reachable.init ⟨rfl, rfl, rfl, rfl⟩)
  rw [hlen] at h4 h5
  exact ⟨t, ht, hlen, by rw [h4]; norm_num, (h5 (by norm_num)).2⟩

/-! ## The instance records -/

theorem updatePosition_length (s : Sprite) (datas : List SpriteData) :
    (s.updatePosition datas).length = datas.length := by
  unfold Sprite.updatePosition
  split
  · rfl
  · split <;> simp

/-- The method `updatePosition` writes `(x, y)` into the record the sprite points to, and
leaves the other records as they are. -/
theorem updatePosition_getElem (s : Sprite) (datas : List SpriteData) (i : Nat)
    (hr : s.renderData = some i) (hi : i < datas.length) :
    ((s.updatePosition datas)[i]?).map SpriteData.inSpritePosition = some (s.x, s.y) ∧
      ∀ j, j ≠ i → (s.updatePosition datas)[j]? = datas[j]? := by
  have hg : datas[i]? = some (datas.get ⟨i, hi⟩) := by
    rw [List.getElem?_eq_getElem hi]
    rfl
  simp only [Sprite.updatePosition, hr, hg]
  constructor
  · simp [List.getElem?_set, hi]
  · intro j hj
    have hj1 : ¬ i = j := fun e => hj e.symm
    simp [List.getElem?_set, hj1]

/-! ## The scene-graph variant and the raw-API variant -/

theorem helloWorld_updateBunny_eq (P : Platform) (d gravityd maxX maxY : ℚ) (sprite : Sprite)
    (bunny : Bunny) (g : RandStream) (hk : bunny.kinematics = sprite.kinematics) :
    (HelloWorld.updateBunny P d gravityd maxX maxY bunny g).1.kinematics =
        (updateBunny P d gravityd maxX maxY sprite g).1.kinematics ∧
      (HelloWorld.updateBunny P d gravityd maxX maxY bunny g).2 =
        (updateBunny P d gravityd maxX maxY sprite g).2 ∧
      (HelloWorld.updateBunny P d gravityd maxX maxY bunny g).1.sprite.position =
        ((updateBunny P d gravityd maxX maxY sprite g).1.x,
          maxY - (updateBunny P d gravityd maxX maxY sprite g).1.y) := by
  simp only [Bunny.kinematics, Sprite.kinematics, Prod.mk.injEq] at hk
  obtain ⟨hx, hy, hsx, hsy⟩ := hk
  simp only [HelloWorld.updateBunny, updateBunny, Bunny.kinematics, Sprite.kinematics, hx, hy,
    hsx, hsy]
  split_ifs <;> simp

theorem helloWorld_updateLoop_length (P : Platform) (d gravityd maxX maxY : ℚ)
    (l : List Bunny) (g : RandStream) :
    (HelloWorld.updateLoop P d gravityd maxX maxY l g).1.length = l.length := by
  induction l generalizing g with
  | nil => rfl
  | cons a l ih => simp [HelloWorld.updateLoop, ih]

theorem helloWorld_initBunnies_length (P : Platform) (toDegrees : ℚ → ℚ) (texId n : Nat)
    (g : RandStream) : (HelloWorld.initBunnies P toDegrees texId n g).1.length = n := by
  induction n generalizing g with
  | zero => rfl
  | succ n ih => simp [HelloWorld.initBunnies, ih]

/-- The press handling of the two variants, from states with the same pointer state, hold
timer and texture-region index: the same timer and index afterwards, and either no spawn in
both or one spawn in both, of `bunniesEachTime` sprites each. -/
theorem updateTouch_updateClick (P : Platform) (toDegrees : ℚ → ℚ) (s : VulkanDemo)
    (h : HelloWorld) (dt : ℚ) (hc : isClickDown P s = h.isTouchDown)
    (ht : s.clickDownTime = h.touchDownTime) (hx : s.currentTexId = h.currentTexId) :
    ∃ s1, updateClick P s dt = some s1 ∧
      s1.clickDownTime = (HelloWorld.updateTouch P toDegrees h dt).touchDownTime ∧
      s1.currentTexId = (HelloWorld.updateTouch P toDegrees h dt).currentTexId ∧
      ((s1.spriteBatches.map SpriteBatch.shape = s.spriteBatches.map SpriteBatch.shape ∧
          (HelloWorld.updateTouch P toDegrees h dt).bunnies = h.bunnies) ∨
        (s1.spriteBatches.map SpriteBatch.shape =
            s.spriteBatches.map SpriteBatch.shape ++ [(s.currentTexId, bunniesEachTime)] ∧
          (HelloWorld.updateTouch P toDegrees h dt).bunnies.length =
            h.bunnies.length + HelloWorld.bunniesEachTime P)) := by
  cases hd : h.isTouchDown with
  | true =>
    rw [hd] at hc
    by_cases hi : h.touchDownTime < 0
    · have hi1 : s.clickDownTime < 0 := by rw [ht]; exact hi
      refine ⟨addBunniesCore P { s with clickDownTime := dt } bunniesEachTime,
        by simp [updateClick, hc, hi1, addBunnies_natCast], ?_, ?_, Or.inr ⟨?_, ?_⟩⟩
      · simp [HelloWorld.updateTouch, hd, hi, HelloWorld.addBunnies]
      · simp [HelloWorld.updateTouch, hd, hi, HelloWorld.addBunnies, hx]
      · simp
      · simp [HelloWorld.updateTouch, hd, hi, HelloWorld.addBunnies,
          helloWorld_initBunnies_length]
    · have hi1 : ¬ s.clickDownTime < 0 := by rw [ht]; exact hi
      by_cases hth : h.touchDownTime + dt > HelloWorld.bunniesAddingThreshold
      · have hth1 : s.clickDownTime + dt > bunniesAddingThreshold := by rw [ht]; exact hth
        refine ⟨{ addBunniesCore P { s with clickDownTime := s.clickDownTime + dt }
            bunniesEachTime with
            clickDownTime := s.clickDownTime + dt - bunniesAddingThreshold },
          by simp [updateClick, hc, hi1, hth1, addBunnies_natCast], ?_, ?_, Or.inr ⟨?_, ?_⟩⟩
        · simp only [HelloWorld.updateTouch, hd, hi, hth, HelloWorld.addBunnies, ht, if_true,
            if_false]
          rfl
        · simp [HelloWorld.updateTouch, hd, hi, hth, HelloWorld.addBunnies, hx]
        · simp
        · simp [HelloWorld.updateTouch, hd, hi, hth, HelloWorld.addBunnies,
            helloWorld_initBunnies_length]
      · have hth1 : ¬ s.clickDownTime + dt > bunniesAddingThreshold := by rw [ht]; exact hth
        refine ⟨{ s with clickDownTime := s.clickDownTime + dt },
          by simp [updateClick, hc, hi1, hth1], ?_, ?_, Or.inl ⟨?_, ?_⟩⟩
        · simp [HelloWorld.updateTouch, hd, hi, hth, ht]
        · simp [HelloWorld.updateTouch, hd, hi, hth, hx]
        · simp
        · simp [HelloWorld.updateTouch, hd, hi, hth]
  | false =>
    rw [hd] at hc
    by_cases hi : h.touchDownTime > 0
    · have hi1 : s.clickDownTime > 0 := by rw [ht]; exact hi
      refine ⟨{ s with clickDownTime := -1, currentTexId := (s.currentTexId + 1) % 2 ^ 32 % 5 },
        by simp [updateClick, hc, hi1], ?_, ?_, Or.inl ⟨?_, ?_⟩⟩
      · simp [HelloWorld.updateTouch, hd, hi]
      · simp [HelloWorld.updateTouch, hd, hi, hx]
      · simp
      · simp [HelloWorld.updateTouch, hd, hi]
    · have hi1 : ¬ s.clickDownTime > 0 := by rw [ht]; exact hi
      refine ⟨s, by simp [updateClick, hc, hi1], ?_, ?_, Or.inl ⟨?_, ?_⟩⟩
      · simp [HelloWorld.updateTouch, hd, hi, ht]
      · simp [HelloWorld.updateTouch, hd, hi, hx]
      · simp
      · simp [HelloWorld.updateTouch, hd, hi]

/-- The loop of the scene-graph variant over its bunnies and the inner loop of the raw-API
variant over the sprites of a batch, from the same tuples and the same generator: the same
tuples and the same generator afterwards. -/
theorem helloWorld_updateLoop_eq (P : Platform) (d gravityd maxX maxY : ℚ)
    (sprites : List Sprite) (bunnies : List Bunny)
    (h : List.Forall₂ (fun sp b => Bunny.kinematics b = Sprite.kinematics sp) sprites bunnies)
    (datas : List SpriteData) (g : RandStream) :
    (HelloWorld.updateLoop P d gravityd maxX maxY bunnies g).1.map Bunny.kinematics =
        (updateSprites P d gravityd maxX maxY sprites datas g).1.map Sprite.kinematics ∧
      (HelloWorld.updateLoop P d gravityd maxX maxY bunnies g).2 =
        (updateSprites P d gravityd maxX maxY sprites datas g).2.2 := by
  induction h generalizing datas g with
  | nil => exact ⟨rfl, rfl⟩
  | cons hab _ ih =>
    obtain ⟨e1, e2, _⟩ := helloWorld_updateBunny_eq P d gravityd maxX maxY _ _ g hab
    simp only [HelloWorld.updateLoop, updateSprites, List.map_cons]
    rw [e2, e1]
    obtain ⟨i1, i2⟩ := ih (Sprite.updatePosition _ datas) _
    exact ⟨by rw [i1], i2⟩

/-! ## Sprites, instance records and mapped memory -/

theorem updateBunny_renderData (P : Platform) (d gravityd maxX maxY : ℚ) (bunny : Sprite)
    (g : RandStream) :
    (updateBunny P d gravityd maxX maxY bunny g).1.renderData = bunny.renderData := by
  simp only [updateBunny]
  split_ifs <;> rfl

/-- The method `setRenderData` writes `(x, y)` into the record at the index given, keeps the
number of records and leaves the other records as they are. -/
theorem setRenderData_getElem (P : Platform) (s : Sprite) (i : Nat) (datas : List SpriteData)
    (hi : i < datas.length) :
    (s.setRenderData P (some i) datas).2.length = datas.length ∧
      (((s.setRenderData P (some i) datas).2)[i]?).map SpriteData.inSpritePosition =
        some (s.x, s.y) ∧
      ∀ j, j ≠ i → ((s.setRenderData P (some i) datas).2)[j]? = datas[j]? := by
  have hg : datas[i]? = some (datas.get ⟨i, hi⟩) := by
    rw [List.getElem?_eq_getElem hi]
    rfl
  refine ⟨?_, ?_, ?_⟩
  · simp [Sprite.setRenderData, Sprite.updateScaleRotation, hg, List.getElem?_set, hi]
  · simp [Sprite.setRenderData, Sprite.updateScaleRotation, hg, List.getElem?_set, hi]
  · intro j hj
    have hj1 : ¬ i = j := fun e => hj e.symm
    simp [Sprite.setRenderData, Sprite.updateScaleRotation, hg, List.getElem?_set, hi, hj1]

/-- The loop of `initSprites` from index `k` on: every sprite points to the record at its
place, which holds its position; the records below `k` are left as they are. -/
theorem initSpritesLoop_sync (P : Platform) (l : List Sprite) (k : Nat)
    (datas : List SpriteData) (hlen : k + l.length ≤ datas.length) :
    (initSpritesLoop P k l datas).2.length = datas.length ∧
      (∀ j sprite, (initSpritesLoop P k l datas).1[j]? = some sprite →
        sprite.renderData = some (k + j) ∧
          ((initSpritesLoop P k l datas).2[k + j]?).map SpriteData.inSpritePosition =
            some (sprite.x, sprite.y)) ∧
      ∀ i, i < k → (initSpritesLoop P k l datas).2[i]? = datas[i]? := by
  induction l generalizing k datas with
  | nil => simp [initSpritesLoop]
  | cons a l ih =>
    have hk : k < datas.length := by
      simp only [List.length_cons] at hlen
      omega
    obtain ⟨s1, s2, s3⟩ := setRenderData_getElem P a k datas hk
    have hlen1 : k + 1 + l.length ≤ (a.setRenderData P (some k) datas).2.length := by
      simp only [List.length_cons] at hlen
      rw [s1]
      omega
    obtain ⟨i1, i2, i3⟩ := ih (k + 1) _ hlen1
    simp only [initSpritesLoop]
    refine ⟨by rw [i1, s1], ?_, ?_⟩
    · intro j sprite hj
      cases j with
      | zero =>
        simp only [List.getElem?_cons_zero, Option.some.injEq] at hj
        subst hj
        refine ⟨rfl, ?_⟩
        simp only [Nat.add_zero]
        rw [i3 k (Nat.lt_succ_self k), s2]
        rfl
      | succ j =>
        simp only [List.getElem?_cons_succ] at hj
        obtain ⟨r1, r2⟩ := i2 j sprite hj
        have e : k + (j + 1) = k + 1 + j := by ring
        rw [e]
        exact ⟨r1, r2⟩
    · intro i hi
      rw [i3 i (Nat.lt_succ_of_lt hi), s3 i (Nat.ne_of_lt hi)]

/-- The inner loop of `update` from index `k` on, over sprites that point to the records at
their places: they still do afterwards, and each record holds the new position of its
sprite; the records below `k` are left as they are. -/
theorem updateSprites_sync (P : Platform) (d gravityd maxX maxY : ℚ) (l : List Sprite)
    (k : Nat) (datas : List SpriteData) (g : RandStream)
    (hlink : ∀ j sprite, l[j]? = some sprite → sprite.renderData = some (k + j))
    (hlen : k + l.length ≤ datas.length) :
    (updateSprites P d gravityd maxX maxY l datas g).2.1.length = datas.length ∧
      (∀ j sprite, (updateSprites P d gravityd maxX maxY l datas g).1[j]? = some sprite →
        sprite.renderData = some (k + j) ∧
          ((updateSprites P d gravityd maxX maxY l datas g).2.1[k + j]?).map
            SpriteData.inSpritePosition = some (sprite.x, sprite.y)) ∧
      ∀ i, i < k → (updateSprites P d gravityd maxX maxY l datas g).2.1[i]? = datas[i]? := by
  induction l generalizing k datas g with
  | nil => simp [updateSprites]
  | cons a l ih =>
    have hk : k < datas.length := by
      simp only [List.length_cons] at hlen
      omega
    have ha : (updateBunny P d gravityd maxX maxY a g).1.renderData = some k := by
      rw [updateBunny_renderData]
      exact hlink 0 a (by simp)
    obtain ⟨s2, s3⟩ := updatePosition_getElem _ datas k ha hk
    have s1 := updatePosition_length (updateBunny P d gravityd maxX maxY a g).1 datas
    have hlen1 : k + 1 + l.length ≤
        ((updateBunny P d gravityd maxX maxY a g).1.updatePosition datas).length := by
      simp only [List.length_cons] at hlen
      rw [s1]
      omega
    have hlink1 : ∀ j sprite, l[j]? = some sprite → sprite.renderData = some (k + 1 + j) := by
      intro j sprite hj
      have e : k + 1 + j = k + (j + 1) := by ring
      rw [e]
      exact hlink (j + 1) sprite (by simpa using hj)
    obtain ⟨i1, i2, i3⟩ := ih (k + 1) _ (updateBunny P d gravityd maxX maxY a g).2 hlink1 hlen1
    simp only [updateSprites]
    refine ⟨by rw [i1, s1], ?_, ?_⟩
    · intro j sprite hj
      cases j with
      | zero =>
        simp only [List.getElem?_cons_zero, Option.some.injEq] at hj
        subst hj
        refine ⟨ha, ?_⟩
        simp only [Nat.add_zero]
        rw [i3 k (Nat.lt_succ_self k), s2]
      | succ j =>
        simp only [List.getElem?_cons_succ] at hj
        obtain ⟨r1, r2⟩ := i2 j sprite hj
        have e : k + (j + 1) = k + 1 + j := by ring
        rw [e]
        exact ⟨r1, r2⟩
    · intro i hi
      rw [i3 i (Nat.lt_succ_of_lt hi), s3 i (Nat.ne_of_lt hi)]

theorem initSprites_inSync (P : Platform) (type : Nat) (sprs : List Sprite) :
    ((SpriteBatch.new type).initSprites P sprs).InSync ∧
      ((SpriteBatch.new type).initSprites P sprs).sprites.length = sprs.length := by
  have hd : (resizeSpriteDatas [] sprs.length).length = sprs.length := by
    simp [resizeSpriteDatas]
  obtain ⟨h1, h2, _⟩ := initSpritesLoop_sync P sprs 0 (resizeSpriteDatas [] sprs.length)
    (by rw [hd]; omega)
  have hl := initSpritesLoop_length P 0 sprs (resizeSpriteDatas [] sprs.length)
  simp only [SpriteBatch.InSync, SpriteBatch.initSprites, SpriteBatch.new, List.nil_append,
    List.length_replicate]
  refine ⟨⟨by rw [h1, hd, hl], ?_, by rw [h1, hd, hl], by rw [h1, hd, hl]⟩, hl⟩
  intro i sprite hi
  have := h2 i sprite hi
  simpa using this

theorem updateBatch_inSync (P : Platform) (d gravityd maxX maxY : ℚ) (b : SpriteBatch)
    (g : RandStream) (hb : b.InSync) :
    (updateBatch P d gravityd maxX maxY b g).1.InSync ∧
      (updateBatch P d gravityd maxX maxY b g).1.Flushed := by
  obtain ⟨b1, b2, b3, b4⟩ := hb
  obtain ⟨h1, h2, _⟩ := updateSprites_sync P d gravityd maxX maxY b.sprites 0 b.spriteDatas g
    (fun j sprite hj => by rw [Nat.zero_add]; exact (b2 j sprite hj).1) (by rw [b1]; omega)
  have hl := updateSprites_length P d gravityd maxX maxY b.sprites b.spriteDatas g
  have hdrop : b.instanceBuffer.mappedData.drop
      (updateSprites P d gravityd maxX maxY b.sprites b.spriteDatas g).2.1.length = [] := by
    apply List.drop_eq_nil_of_le
    rw [h1, b1, b4]
  simp only [SpriteBatch.InSync, SpriteBatch.Flushed, updateBatch, SpriteBatch.flush, hdrop,
    List.append_nil]
  refine ⟨⟨by rw [h1, b1, hl], ?_, by rw [hl, b3], by rw [h1, b1, hl]⟩, trivial⟩
  intro i sprite hi
  have := h2 i sprite hi
  simpa using this

theorem updateBatches_inSync (P : Platform) (d gravityd maxX maxY : ℚ) (l : List SpriteBatch)
    (g : RandStream) (hl : ∀ b ∈ l, b.InSync) :
    ∀ b ∈ (updateBatches P d gravityd maxX maxY l g).1, b.InSync ∧ b.Flushed := by
  induction l generalizing g with
  | nil => simp [updateBatches]
  | cons a l ih =>
    intro b hb
    simp only [updateBatches, List.mem_cons] at hb
    rcases hb with rfl | hb
    · exact updateBatch_inSync P d gravityd maxX maxY a g (hl a (List.mem_cons_self _ _))
    · exact ih _ (fun c hc => hl c (List.mem_cons_of_mem _ hc)) b hb

/-- The press handling keeps the batches, or appends one batch made by `initSprites` on a new
`SpriteBatch`. -/
theorem updateClick_batches (P : Platform) (s s1 : VulkanDemo) (dt : ℚ)
    (h : updateClick P s dt = some s1) :
    s1.spriteBatches = s.spriteBatches ∨
      ∃ sprs, s1.spriteBatches =
        s.spriteBatches ++ [(SpriteBatch.new s.currentTexId).initSprites P sprs] := by
  cases hc : isClickDown P s with
  | true =>
    by_cases hi : s.clickDownTime < 0
    · have e : updateClick P s dt =
          some (addBunniesCore P { s with clickDownTime := dt } bunniesEachTime) := by
        simp [updateClick, hc, hi, addBunnies_natCast]
      rw [e] at h
      obtain rfl := Option.some.inj h
      exact Or.inr ⟨_, rfl⟩
    · by_cases ht : s.clickDownTime + dt > bunniesAddingThreshold
      · have e : updateClick P s dt =
            some { addBunniesCore P { s with clickDownTime := s.clickDownTime + dt }
              bunniesEachTime with
              clickDownTime := s.clickDownTime + dt - bunniesAddingThreshold } := by
          simp [updateClick, hc, hi, ht, addBunnies_natCast]
        rw [e] at h
        obtain rfl := Option.some.inj h
        exact Or.inr ⟨_, rfl⟩
      · have e : updateClick P s dt = some { s with clickDownTime := s.clickDownTime + dt } := by
          simp [updateClick, hc, hi, ht]
        rw [e] at h
        obtain rfl := Option.some.inj h
        exact Or.inl rfl
  | false =>
    by_cases hi : s.clickDownTime > 0
    · have e : updateClick P s dt =
          some { s with clickDownTime := -1,
                        currentTexId := (s.currentTexId + 1) % 2 ^ 32 % 5 } := by
        simp [updateClick, hc, hi]
      rw [e] at h
      obtain rfl := Option.some.inj h
      exact Or.inl rfl
    · have e : updateClick P s dt = some s := by
        simp [updateClick, hc, hi]
      rw [e] at h
      obtain rfl := Option.some.inj h
      exact Or.inl rfl

theorem update_inSync (P : Platform) (s t : VulkanDemo) (dt : ℚ) (h : update P s dt = some t)
    (hs : ∀ b ∈ s.spriteBatches, b.InSync) :
    ∀ b ∈ t.spriteBatches, b.InSync ∧ b.Flushed := by
  simp only [update, Option.map_eq_some'] at h
  obtain ⟨s1, h1, rfl⟩ := h
  have hs1 : ∀ b ∈ s1.spriteBatches, b.InSync := by
    rcases updateClick_batches P s s1 dt h1 with e | ⟨sprs, e⟩
    · rw [e]
      exact hs
    · rw [e]
      intro b hb
      rcases List.mem_append.mp hb with hb | hb
      · exact hs b hb
      · simp only [List.mem_singleton] at hb
        rw [hb]
        exact (initSprites_inSync P _ sprs).1
  exact updateBatches_inSync P _ _ _ _ _ _ hs1

theorem reachable_inSync (P : Platform) (s : VulkanDemo) (h : Reachable P s) :
    ∀ b ∈ s.spriteBatches, b.InSync ∧ b.Flushed := by
  induction h with
  | init hi =>
    obtain ⟨_, h2, _, _⟩ := hi
    simp [h2]
  | step dt _ hu ih => exact update_inSync P _ _ dt hu fun b hb => (ih b hb).1
  | frame _ hsame ih =>
    obtain ⟨_, b, _, _⟩ := hsame
    rw [b]
    exact ih

/-- C27: right after `initSprites` on a new batch there are as many records as sprites, the
sprite at place `i` points to the record at place `i`, which holds its `(x, y)`, and the
instance buffer has `sizeof(SpriteData)` bytes per sprite; after every call of `update` in a
run of the program this holds of every batch, each batch has 5000 sprites, and the mapped
memory of its instance buffer holds exactly its records, in the order of the sprites. -/
theorem batches_in_sync (P : Platform) (s t : VulkanDemo) (dt : ℚ) (hs : Reachable P s)
    (h : update P s dt = some t) :
    (∀ b ∈ t.spriteBatches,
      b.sprites.length = 5000 ∧ b.spriteDatas.length = 5000 ∧
        (∀ (i : Nat) (sprite : Sprite), b.sprites[i]? = some sprite →
          sprite.renderData = some i ∧
            (b.spriteDatas[i]?).map SpriteData.inSpritePosition = some (sprite.x, sprite.y)) ∧
        b.instanceBuffer.mappedData = b.spriteDatas ∧
        b.instanceBuffer.size = 5000 * sizeofSpriteData) ∧
      ∀ (type : Nat) (sprs : List Sprite),
        ((SpriteBatch.new type).initSprites P sprs).InSync ∧
          ((SpriteBatch.new type).initSprites P sprs).sprites.length = sprs.length := by
  refine ⟨?_, fun type sprs => initSprites_inSync P type sprs⟩
  intro b hb
  have ht : Reachable P t := Reachable.step dt hs h
  obtain ⟨⟨b1, b2, b3, _⟩, hf⟩ := reachable_inSync P t ht b hb
  have hfive : b.sprites.length = 5000 :=
    (reachable_count P t ht).1 b.shape (List.mem_map_of_mem _ hb)
  exact ⟨hfive, by rw [b1, hfive], b2, hf, by rw [b3, hfive]⟩

/-- Witness of C27: the first call of `update` with the pointer pressed, which makes a
batch. -/
theorem batches_in_sync_witness :
    ∃ t, update demoPlatform pressedDemo (1 / 60) = some t ∧ t.spriteBatches.length = 1 ∧
      ∀ b ∈ t.spriteBatches,
        b.sprites.length = 5000 ∧ b.spriteDatas.length = 5000 ∧
          (∀ (i : Nat) (sprite : Sprite), b.sprites[i]? = some sprite →
            sprite.renderData = some i ∧
              (b.spriteDatas[i]?).map SpriteData.inSpritePosition =
                some (sprite.x, sprite.y)) ∧
          b.instanceBuffer.mappedData = b.spriteDatas ∧
          b.instanceBuffer.size = 5000 * sizeofSpriteData := by
  obtain ⟨t, ht⟩ := update_isSome demoPlatform pressedDemo (1 / 60)
  have hc : isClickDown demoPlatform pressedDemo = true := rfl
  have hlen : t.spriteBatches.length = 1 := by
    have hp := update_press demoPlatform pressedDemo (1 / 60) hc (by decide)
    rw [hp] at ht
    obtain rfl := Option.some.inj ht
    simp [pressedDemo]
  exact ⟨t, ht, hlen,
    (batches_in_sync demoPlatform pressedDemo t (1 / 60)
      (Reachable.init ⟨rfl, rfl, rfl, rfl⟩) ht).1⟩

/-! ## The order of submission and update in `render` -/

/-- C25, as stated, fails: in a call of `render` on the prepared application with two
batches, the events are those of `draw`, the submission among them, and then the call of
`update`, which holds the physics and the flush of every batch. -/
theorem render_order_counterexample :
    syncedApp.prepared = true ∧
      (render demoPlatform syncedApp (quietFrame false)).map Prod.snd =
        some [Event.acquireNextImage VK_SUCCESS, Event.waitForFences 0, Event.resetFences 0,
          Event.buildCommandBuffer 0 (buildCommandBuffer syncedApp.demo syncedApp.overlay 0),
          Event.queueSubmit 0 0, Event.queuePresent 0 VK_SUCCESS, Event.update 1] := by
  decide

/-- C25, amended: in a call of `render` while prepared, `draw` comes first, with the
submission of the call, and the call of `update` follows it; `draw` leaves the sprites and
their records as they are; `update` steps every sprite with the loop body and leaves, in the
mapped memory of every batch, exactly the records of the batch, the record at place `i`
holding the position `(x, y)` that the physics of this call gave the sprite at place `i`
(the hypothesis is that the sprites point to their records, as in every state of a run). -/
theorem render_order (P : Platform) (a : VulkanApp) (env : FrameEnv)
    (r : VulkanApp × List Event) (hp : a.prepared = true)
    (hsync : ∀ b ∈ a.demo.spriteBatches, b.InSync) (h : render P a env = some r) :
    ∃ r1 s1 cb, draw a env = some r1 ∧
      r.2 = r1.2 ++ [Event.update r1.1.frameDeltaTime] ∧
      Event.queueSubmit cb cb ∈ r1.2 ∧ (∀ dt, Event.update dt ∉ r1.2) ∧
      r1.1.demo.spriteBatches = a.demo.spriteBatches ∧
      updateClick P r1.1.demo r1.1.frameDeltaTime = some s1 ∧
      r.1.demo = updateBunnies P s1 r1.1.frameDeltaTime ∧
      List.Forall₂
        (fun b c => c.texId = b.texId ∧
          List.Forall₂
            (fun old new => ∃ g1,
              new = (updateBunny P (60 * r1.1.frameDeltaTime)
                (gravity * (60 * r1.1.frameDeltaTime)) s1.width s1.height old g1).1)
            b.sprites c.sprites)
        s1.spriteBatches r.1.demo.spriteBatches ∧
      ∀ c ∈ r.1.demo.spriteBatches,
        c.instanceBuffer.mappedData = c.spriteDatas ∧
          ∀ (i : Nat) (sprite : Sprite), c.sprites[i]? = some sprite →
            (c.instanceBuffer.mappedData[i]?).map SpriteData.inSpritePosition =
              some (sprite.x, sprite.y) := by
  simp only [render, hp, if_true, Option.bind_eq_some, Option.map_eq_some'] at h
  obtain ⟨r1, h1, demo1, h2, rfl⟩ := h
  obtain ⟨cb, resize1, build, resize2, e, hr1, hb, hr2⟩ := draw_events a env r1 h1
  have hbat : r1.1.demo.spriteBatches = a.demo.spriteBatches := draw_batches a env r1 h1
  have hs1 : ∀ b ∈ r1.1.demo.spriteBatches, b.InSync := by
    rw [hbat]
    exact hsync
  have hflush := update_inSync P r1.1.demo demo1 r1.1.frameDeltaTime h2 hs1
  simp only [update, Option.map_eq_some'] at h2
  obtain ⟨s1, hc, rfl⟩ := h2
  refine ⟨r1, s1, cb, h1, rfl, ?_, ?_, hbat, hc, rfl,
    updateBunnies_pointwise P s1 r1.1.frameDeltaTime, ?_⟩
  · rw [e]
    simp
  · intro dt
    rw [e]
    rcases hr1 with rfl | rfl <;> rcases hb with rfl | ⟨cmds, rfl⟩ <;>
      rcases hr2 with rfl | rfl <;> simp
  · intro c hc1
    obtain ⟨⟨_, c2, _, _⟩, cf⟩ := hflush c hc1
    refine ⟨cf, ?_⟩
    intro i sprite hi
    rw [cf]
    exact (c2 i sprite hi).2

/-- Witness of C25 amended: a call of `render` on the prepared application with two batches
as `initSprites` makes them. -/
theorem render_order_witness :
    ∃ (r r1 : VulkanApp × List Event) (cb : Nat),
      render demoPlatform syncedApp (quietFrame false) = some r ∧
      draw syncedApp (quietFrame false) = some r1 ∧
      r.2 = r1.2 ++ [Event.update r1.1.frameDeltaTime] ∧
      Event.queueSubmit cb cb ∈ r1.2 ∧ (∀ dt, Event.update dt ∉ r1.2) ∧
      ∀ c ∈ r.1.demo.spriteBatches, c.instanceBuffer.mappedData = c.spriteDatas := by
  have hsome : (render demoPlatform syncedApp (quietFrame false)).isSome = true := by
    decide
  obtain ⟨r, hr⟩ := Option.isSome_iff_exists.mp hsome
  have hsync : ∀ b ∈ syncedApp.demo.spriteBatches, b.InSync := by
    intro b hb
    simp only [syncedApp, List.mem_cons, List.mem_singleton, List.not_mem_nil, or_false] at hb
    rcases hb with rfl | rfl
    · exact (initSprites_inSync demoPlatform 3 [restSprite, restSprite]).1
    · exact (initSprites_inSync demoPlatform 0 [restSprite]).1
  obtain ⟨r1, s1, cb, h1, h2, h3, h4, _, _, _, _, h9⟩ :=
    render_order demoPlatform syncedApp (quietFrame false) r rfl hsync hr
  exact ⟨r, r1, cb, hr, h1, h2, h3, h4, fun c hc => (h9 c hc).1⟩

/-! ## The two variants, call by call -/

theorem initBunny_kinematics (P : Platform) (toDegrees : ℚ → ℚ) (texId : Nat)
    (g : RandStream) :
    (HelloWorld.initBunny P toDegrees texId g).1.kinematics = (newBunny P g).1.kinematics ∧
      (HelloWorld.initBunny P toDegrees texId g).2 = (newBunny P g).2 :=
  ⟨rfl, rfl⟩

theorem initBunnies_kinematics (P : Platform) (toDegrees : ℚ → ℚ) (texId n : Nat)
    (g : RandStream) :
    (HelloWorld.initBunnies P toDegrees texId n g).1.map Bunny.kinematics =
        (makeBunnies P n g).1.map Sprite.kinematics ∧
      (HelloWorld.initBunnies P toDegrees texId n g).2 = (makeBunnies P n g).2 := by
  induction n generalizing g with
  | zero => exact ⟨rfl, rfl⟩
  | succ n ih =>
    obtain ⟨e1, e2⟩ := initBunny_kinematics P toDegrees texId g
    simp only [HelloWorld.initBunnies, makeBunnies, List.map_cons]
    rw [e2, e1]
    obtain ⟨i1, i2⟩ := ih (newBunny P g).2
    exact ⟨by rw [i1], i2⟩

theorem initSpritesLoop_kinematics (P : Platform) (i : Nat) (l : List Sprite)
    (datas : List SpriteData) :
    (initSpritesLoop P i l datas).1.map Sprite.kinematics = l.map Sprite.kinematics := by
  induction l generalizing i datas with
  | nil => rfl
  | cons a l ih => simp [initSpritesLoop, ih, setRenderData_fst, Sprite.kinematics]

theorem helloWorld_updateLoop_append (P : Platform) (d gravityd maxX maxY : ℚ)
    (l1 l2 : List Bunny) (g : RandStream) :
    HelloWorld.updateLoop P d gravityd maxX maxY (l1 ++ l2) g =
      ((HelloWorld.updateLoop P d gravityd maxX maxY l1 g).1 ++
          (HelloWorld.updateLoop P d gravityd maxX maxY l2
            (HelloWorld.updateLoop P d gravityd maxX maxY l1 g).2).1,
        (HelloWorld.updateLoop P d gravityd maxX maxY l2
          (HelloWorld.updateLoop P d gravityd maxX maxY l1 g).2).2) := by
  induction l1 generalizing g with
  | nil => rfl
  | cons a l1 ih => simp [HelloWorld.updateLoop, ih]

theorem forall₂_of_map_kinematics (l : List Sprite) (m : List Bunny)
    (h : m.map Bunny.kinematics = l.map Sprite.kinematics) :
    List.Forall₂ (fun sp b => Bunny.kinematics b = Sprite.kinematics sp) l m := by
  induction l generalizing m with
  | nil =>
    cases m with
    | nil => exact List.Forall₂.nil
    | cons b m => simp at h
  | cons a l ih =>
    cases m with
    | nil => simp at h
    | cons b m =>
      simp only [List.map_cons, List.cons.injEq] at h
      exact List.Forall₂.cons h.1 (ih m h.2)

/-- The loop of the scene-graph variant over all its bunnies and the two loops of the raw-API
variant over all its batches, from the same tuples and the same generator: the same tuples
and the same generator afterwards. -/
theorem helloWorld_updateLoop_batches (P : Platform) (d gravityd maxX maxY : ℚ)
    (batches : List SpriteBatch) (bunnies : List Bunny) (g : RandStream)
    (hk : (batches.map fun b => b.sprites.map Sprite.kinematics).flatten =
      bunnies.map Bunny.kinematics) :
    ((updateBatches P d gravityd maxX maxY batches g).1.map
        fun b => b.sprites.map Sprite.kinematics).flatten =
        (HelloWorld.updateLoop P d gravityd maxX maxY bunnies g).1.map Bunny.kinematics ∧
      (updateBatches P d gravityd maxX maxY batches g).2 =
        (HelloWorld.updateLoop P d gravityd maxX maxY bunnies g).2 := by
  induction batches generalizing bunnies g with
  | nil =>
    have hb : bunnies = [] := by simpa using hk.symm
    subst hb
    exact ⟨rfl, rfl⟩
  | cons b rest ih =>
    simp only [List.map_cons, List.flatten_cons] at hk
    obtain ⟨l1, l2, rfl, h1, h2⟩ := List.map_eq_append_iff.mp hk.symm
    obtain ⟨e1, e2⟩ := helloWorld_updateLoop_eq P d gravityd maxX maxY b.sprites l1
      (forall₂_of_map_kinematics b.sprites l1 h1) b.spriteDatas g
    obtain ⟨i1, i2⟩ := ih l2
      (updateSprites P d gravityd maxX maxY b.sprites b.spriteDatas g).2.2 h2.symm
    rw [helloWorld_updateLoop_append]
    simp only [updateBatches, updateBatch, SpriteBatch.flush, List.map_cons, List.flatten_cons,
      List.map_append]
    rw [e2, e1]
    exact ⟨by rw [i1], i2⟩

theorem helloWorld_updateLoop_pointwise (P : Platform) (d gravityd maxX maxY : ℚ)
    (l : List Bunny) (g : RandStream) :
    List.Forall₂
      (fun old new => ∃ g1, new = (HelloWorld.updateBunny P d gravityd maxX maxY old g1).1) l
      (HelloWorld.updateLoop P d gravityd maxX maxY l g).1 := by
  induction l generalizing g with
  | nil => exact List.Forall₂.nil
  | cons a l ih => exact List.Forall₂.cons ⟨g, rfl⟩ (ih _)

theorem updateTouch_bounds (P : Platform) (toDegrees : ℚ → ℚ) (h : HelloWorld) (dt : ℚ) :
    (HelloWorld.updateTouch P toDegrees h dt).maxX = h.maxX ∧
      (HelloWorld.updateTouch P toDegrees h dt).maxY = h.maxY ∧
      (HelloWorld.updateTouch P toDegrees h dt).isTouchDown = h.isTouchDown := by
  simp only [HelloWorld.updateTouch]
  split_ifs <;> exact ⟨rfl, rfl, rfl⟩

theorem VulkanDemo.with_clickDownTime (x : VulkanDemo) (t : ℚ) (h : x.clickDownTime = t) :
    { x with clickDownTime := t } = x := by
  cases x
  simp only at h
  subst h
  rfl

theorem HelloWorld.with_touchDownTime (y : HelloWorld) (t : ℚ) (h : y.touchDownTime = t) :
    { y with touchDownTime := t } = y := by
  cases y
  simp only at h
  subst h
  rfl

theorem updateClick_press (P : Platform) (s : VulkanDemo) (dt : ℚ)
    (hc : isClickDown P s = true) (hi : s.clickDownTime < 0) :
    updateClick P s dt =
      some (addBunniesCore P { s with clickDownTime := dt } bunniesEachTime) := by
  simp [updateClick, hc, hi, addBunnies_natCast]

theorem updateClick_hold_spawn (P : Platform) (s : VulkanDemo) (dt : ℚ)
    (hc : isClickDown P s = true) (hi : ¬ s.clickDownTime < 0)
    (ht : s.clickDownTime + dt > bunniesAddingThreshold) :
    updateClick P s dt =
      some { addBunniesCore P { s with clickDownTime := s.clickDownTime + dt } bunniesEachTime
        with clickDownTime := s.clickDownTime + dt - bunniesAddingThreshold } := by
  simp [updateClick, hc, hi, ht, addBunnies_natCast]

theorem updateClick_hold_wait (P : Platform) (s : VulkanDemo) (dt : ℚ)
    (hc : isClickDown P s = true) (hi : ¬ s.clickDownTime < 0)
    (ht : ¬ s.clickDownTime + dt > bunniesAddingThreshold) :
    updateClick P s dt = some { s with clickDownTime := s.clickDownTime + dt } := by
  simp [updateClick, hc, hi, ht]

theorem updateClick_release (P : Platform) (s : VulkanDemo) (dt : ℚ)
    (hc : isClickDown P s = false) (hi : s.clickDownTime > 0) :
    updateClick P s dt =
      some { s with clickDownTime := -1,
                    currentTexId := (s.currentTexId + 1) % 2 ^ 32 % 5 } := by
  simp [updateClick, hc, hi]

theorem updateClick_rest (P : Platform) (s : VulkanDemo) (dt : ℚ)
    (hc : isClickDown P s = false) (hi : ¬ s.clickDownTime > 0) :
    updateClick P s dt = some s := by
  simp [updateClick, hc, hi]

theorem updateTouch_press (P : Platform) (toDegrees : ℚ → ℚ) (h : HelloWorld) (dt : ℚ)
    (hc : h.isTouchDown = true) (hi : h.touchDownTime < 0) :
    HelloWorld.updateTouch P toDegrees h dt =
      HelloWorld.addBunnies P toDegrees { h with touchDownTime := dt }
        (HelloWorld.bunniesEachTime P) := by
  simp only [HelloWorld.updateTouch, hc, hi, if_true]

theorem updateTouch_hold_spawn (P : Platform) (toDegrees : ℚ → ℚ) (h : HelloWorld) (dt : ℚ)
    (hc : h.isTouchDown = true) (hi : ¬ h.touchDownTime < 0)
    (ht : h.touchDownTime + dt > HelloWorld.bunniesAddingThreshold) :
    HelloWorld.updateTouch P toDegrees h dt =
      { HelloWorld.addBunnies P toDegrees { h with touchDownTime := h.touchDownTime + dt }
          (HelloWorld.bunniesEachTime P) with
        touchDownTime := h.touchDownTime + dt - HelloWorld.bunniesAddingThreshold } := by
  simp only [HelloWorld.updateTouch, hc, hi, ht, if_true, if_false]
  rfl

theorem updateTouch_hold_wait (P : Platform) (toDegrees : ℚ → ℚ) (h : HelloWorld) (dt : ℚ)
    (hc : h.isTouchDown = true) (hi : ¬ h.touchDownTime < 0)
    (ht : ¬ h.touchDownTime + dt > HelloWorld.bunniesAddingThreshold) :
    HelloWorld.updateTouch P toDegrees h dt =
      { h with touchDownTime := h.touchDownTime + dt } := by
  simp only [HelloWorld.updateTouch, hc, hi, ht, if_true, if_false]

theorem updateTouch_release (P : Platform) (toDegrees : ℚ → ℚ) (h : HelloWorld) (dt : ℚ)
    (hc : h.isTouchDown = false) (hi : h.touchDownTime > 0) :
    HelloWorld.updateTouch P toDegrees h dt =
      { h with touchDownTime := -1, currentTexId := (h.currentTexId + 1) % 2 ^ 32 % 5 } := by
  simp only [HelloWorld.updateTouch, hc, hi, if_true, Bool.false_eq_true, if_false]

theorem updateTouch_rest (P : Platform) (toDegrees : ℚ → ℚ) (h : HelloWorld) (dt : ℚ)
    (hc : h.isTouchDown = false) (hi : ¬ h.touchDownTime > 0) :
    HelloWorld.updateTouch P toDegrees h dt = h := by
  simp only [HelloWorld.updateTouch, hc, hi, Bool.false_eq_true, if_false]

/-- The press handling of the two variants from states with the same pointer state, hold
timer and texture-region index: both set the same timer and index and spawn nothing, or
both call their `addBunnies` once, with their `bunniesEachTime`, and set the same timer. -/
theorem updateTouch_updateClick_forms (P : Platform) (toDegrees : ℚ → ℚ) (s : VulkanDemo)
    (h : HelloWorld) (dt : ℚ) (hc : isClickDown P s = h.isTouchDown)
    (ht : s.clickDownTime = h.touchDownTime) (hx : s.currentTexId = h.currentTexId) :
    (∃ timer texId,
        updateClick P s dt = some { s with clickDownTime := timer, currentTexId := texId } ∧
        HelloWorld.updateTouch P toDegrees h dt =
          { h with touchDownTime := timer, currentTexId := texId }) ∨
      (∃ timer0 timer,
        updateClick P s dt =
          some { addBunniesCore P { s with clickDownTime := timer0 } bunniesEachTime with
            clickDownTime := timer } ∧
        HelloWorld.updateTouch P toDegrees h dt =
          { HelloWorld.addBunnies P toDegrees { h with touchDownTime := timer0 }
              (HelloWorld.bunniesEachTime P) with touchDownTime := timer }) := by
  have hthr : HelloWorld.bunniesAddingThreshold = bunniesAddingThreshold := rfl
  by_cases hd : h.isTouchDown = true
  · rw [hd] at hc
    by_cases hi : h.touchDownTime < 0
    · have hi1 : s.clickDownTime < 0 := by rw [ht]; exact hi
      refine Or.inr ⟨dt, dt, ?_, ?_⟩
      · rw [updateClick_press P s dt hc hi1]
        exact congrArg some
          (VulkanDemo.with_clickDownTime _ dt (addBunniesCore_clickDownTime P _ _)).symm
      · rw [updateTouch_press P toDegrees h dt hd hi]
        exact (HelloWorld.with_touchDownTime
          (HelloWorld.addBunnies P toDegrees { h with touchDownTime := dt }
            (HelloWorld.bunniesEachTime P)) dt rfl).symm
    · have hi1 : ¬ s.clickDownTime < 0 := by rw [ht]; exact hi
      by_cases hth : h.touchDownTime + dt > HelloWorld.bunniesAddingThreshold
      · have hth1 : s.clickDownTime + dt > bunniesAddingThreshold := by
          rw [ht, ← hthr]; exact hth
        refine Or.inr ⟨s.clickDownTime + dt, s.clickDownTime + dt - bunniesAddingThreshold,
          ?_, ?_⟩
        · rw [updateClick_hold_spawn P s dt hc hi1 hth1]
        · rw [updateTouch_hold_spawn P toDegrees h dt hd hi hth, ht, hthr]
      · have hth1 : ¬ s.clickDownTime + dt > bunniesAddingThreshold := by
          rw [ht, ← hthr]; exact hth
        refine Or.inl ⟨s.clickDownTime + dt, s.currentTexId, ?_, ?_⟩
        · rw [updateClick_hold_wait P s dt hc hi1 hth1]
        · rw [updateTouch_hold_wait P toDegrees h dt hd hi hth, ht, hx]
  · have hd1 : h.isTouchDown = false := by simpa using hd
    rw [hd1] at hc
    by_cases hi : h.touchDownTime > 0
    · have hi1 : s.clickDownTime > 0 := by rw [ht]; exact hi
      refine Or.inl ⟨-1, (s.currentTexId + 1) % 2 ^ 32 % 5, ?_, ?_⟩
      · rw [updateClick_release P s dt hc hi1]
      · rw [updateTouch_release P toDegrees h dt hd1 hi, hx]
    · have hi1 : ¬ s.clickDownTime > 0 := by rw [ht]; exact hi
      refine Or.inl ⟨s.clickDownTime, s.currentTexId, ?_, ?_⟩
      · rw [updateClick_rest P s dt hc hi1]
      · rw [updateTouch_rest P toDegrees h dt hd1 hi, ht, hx]

theorem addBunniesCore_batches (P : Platform) (s : VulkanDemo) (n : Nat) :
    (addBunniesCore P s n).spriteBatches =
      s.spriteBatches ++
        [(SpriteBatch.new s.currentTexId).initSprites P (makeBunnies P n s.randState).1] :=
  rfl

theorem addBunniesCore_bounds (P : Platform) (s : VulkanDemo) (n : Nat) :
    (addBunniesCore P s n).width = s.width ∧ (addBunniesCore P s n).height = s.height ∧
      (addBunniesCore P s n).randState = (makeBunnies P n s.randState).2 :=
  ⟨rfl, rfl, rfl⟩

theorem initSprites_kinematics (P : Platform) (type : Nat) (sprs : List Sprite) :
    ((SpriteBatch.new type).initSprites P sprs).sprites.map Sprite.kinematics =
      sprs.map Sprite.kinematics := by
  simp only [SpriteBatch.initSprites, SpriteBatch.new, List.nil_append]
  exact initSpritesLoop_kinematics P 0 sprs _

theorem helloWorld_addBunnies_fields (P : Platform) (toDegrees : ℚ → ℚ) (h : HelloWorld)
    (n : Nat) :
    (HelloWorld.addBunnies P toDegrees h n).bunnies =
        h.bunnies ++ (HelloWorld.initBunnies P toDegrees h.currentTexId n h.randState).1 ∧
      (HelloWorld.addBunnies P toDegrees h n).randState =
        (HelloWorld.initBunnies P toDegrees h.currentTexId n h.randState).2 ∧
      (HelloWorld.addBunnies P toDegrees h n).bunnyCount = (h.bunnyCount + n) % 2 ^ 32 := by
  refine ⟨by simp [HelloWorld.addBunnies], by simp [HelloWorld.addBunnies], ?_⟩
  simp only [HelloWorld.addBunnies]
  omega

theorem helloWorld_updateBunny_position (P : Platform) (d gravityd maxX maxY : ℚ)
    (bunny : Bunny) (g : RandStream) :
    (HelloWorld.updateBunny P d gravityd maxX maxY bunny g).1.sprite.position =
      ((HelloWorld.updateBunny P d gravityd maxX maxY bunny g).1.x,
        maxY - (HelloWorld.updateBunny P d gravityd maxX maxY bunny g).1.y) :=
  rfl

theorem helloWorld_update_fields (P : Platform) (toDegrees : ℚ → ℚ) (h : HelloWorld)
    (dt : ℚ) :
    (HelloWorld.update P toDegrees h dt).bunnies =
        (HelloWorld.updateLoop P (60 * dt) (HelloWorld.gravity * (60 * dt)) h.maxX h.maxY
          (HelloWorld.updateTouch P toDegrees h dt).bunnies
          (HelloWorld.updateTouch P toDegrees h dt).randState).1 ∧
      (HelloWorld.update P toDegrees h dt).randState =
        (HelloWorld.updateLoop P (60 * dt) (HelloWorld.gravity * (60 * dt)) h.maxX h.maxY
          (HelloWorld.updateTouch P toDegrees h dt).bunnies
          (HelloWorld.updateTouch P toDegrees h dt).randState).2 ∧
      (HelloWorld.update P toDegrees h dt).touchDownTime =
        (HelloWorld.updateTouch P toDegrees h dt).touchDownTime ∧
      (HelloWorld.update P toDegrees h dt).currentTexId =
        (HelloWorld.updateTouch P toDegrees h dt).currentTexId ∧
      (HelloWorld.update P toDegrees h dt).bunnyCount =
        (HelloWorld.updateTouch P toDegrees h dt).bunnyCount ∧
      (HelloWorld.update P toDegrees h dt).isTouchDown = h.isTouchDown ∧
      (HelloWorld.update P toDegrees h dt).maxX = h.maxX ∧
      (HelloWorld.update P toDegrees h dt).maxY = h.maxY := by
  obtain ⟨bx, by1, bt⟩ := updateTouch_bounds P toDegrees h dt
  simp only [HelloWorld.update, bx, by1, bt, and_self]

/-- The loop of `HelloWorld::update` steps every bunny with the loop body of
`VulkanDemo::update` and sets the displayed position `(x, maxY - y)`. -/
theorem helloWorld_update_pointwise (P : Platform) (toDegrees : ℚ → ℚ) (h : HelloWorld)
    (dt : ℚ) :
    List.Forall₂
      (fun old new => ∃ g1,
        (∀ sprite : Sprite, sprite.kinematics = old.kinematics →
          new.kinematics =
            (updateBunny P (60 * dt) (gravity * (60 * dt)) h.maxX h.maxY sprite
              g1).1.kinematics) ∧
          new.sprite.position = (new.x, h.maxY - new.y))
      (HelloWorld.updateTouch P toDegrees h dt).bunnies
      (HelloWorld.update P toDegrees h dt).bunnies := by
  have hp := helloWorld_updateLoop_pointwise P (60 * dt) (HelloWorld.gravity * (60 * dt))
    h.maxX h.maxY (HelloWorld.updateTouch P toDegrees h dt).bunnies
    (HelloWorld.updateTouch P toDegrees h dt).randState
  rw [← (helloWorld_update_fields P toDegrees h dt).1] at hp
  refine List.Forall₂.imp ?_ hp
  rintro old new ⟨g1, rfl⟩
  refine ⟨g1, ?_, helloWorld_updateBunny_position P _ _ _ _ old g1⟩
  intro sprite hs
  exact (helloWorld_updateBunny_eq P (60 * dt) (gravity * (60 * dt)) h.maxX h.maxY sprite old
    g1 hs.symm).1

/-- C28: from states of the two variants that correspond (same pointer state, hold timer,
texture-region index, counter, generator and bounds, same tuples `(x, y, speedX, speedY)`
sprite by sprite), a call of `VulkanDemo::update` and a call of `HelloWorld::update` with the
same frame time leave the same hold timer and texture-region index, and take the same
decision: either neither spawns, and then the states correspond again, tuples and generator
included; or both spawn once, the raw-API variant a batch of its `bunniesEachTime = 5000`
sprites, the scene-graph variant its `bunniesEachTime` (500 or 200) bunnies, made from the
same generator by the same initialisation. In every case the loop of `HelloWorld::update`
steps each bunny with the loop body of `VulkanDemo::update` and sets the displayed position
`(x, maxY - y)`, where `VulkanDemo::update` leaves `(x, y)` in the instance record. -/
theorem helloWorld_update_refines (P : Platform) (toDegrees : ℚ → ℚ) (s : VulkanDemo)
    (h : HelloWorld) (dt : ℚ) (hcor : Corresponds P s h) :
    ∃ t s1, update P s dt = some t ∧ updateClick P s dt = some s1 ∧
      t = updateBunnies P s1 dt ∧
      t.clickDownTime = (HelloWorld.update P toDegrees h dt).touchDownTime ∧
      t.currentTexId = (HelloWorld.update P toDegrees h dt).currentTexId ∧
      ((s1.spriteBatches = s.spriteBatches ∧
          (HelloWorld.updateTouch P toDegrees h dt).bunnies = h.bunnies ∧
          Corresponds P t (HelloWorld.update P toDegrees h dt)) ∨
        (∃ (b : SpriteBatch) (l : List Bunny),
          s1.spriteBatches = s.spriteBatches ++ [b] ∧
          (HelloWorld.updateTouch P toDegrees h dt).bunnies = h.bunnies ++ l ∧
          b.sprites.map Sprite.kinematics =
            (makeBunnies P bunniesEachTime s.randState).1.map Sprite.kinematics ∧
          l.map Bunny.kinematics =
            (makeBunnies P (HelloWorld.bunniesEachTime P) s.randState).1.map
              Sprite.kinematics ∧
          t.bunnyCount = (s.bunnyCount + bunniesEachTime) % 2 ^ 32 ∧
          (HelloWorld.update P toDegrees h dt).bunnyCount =
            (h.bunnyCount + HelloWorld.bunniesEachTime P) % 2 ^ 32)) ∧
      List.Forall₂
        (fun old new => ∃ g1,
          (∀ sprite : Sprite, sprite.kinematics = old.kinematics →
            new.kinematics =
              (updateBunny P (60 * dt) (gravity * (60 * dt)) h.maxX h.maxY sprite
                g1).1.kinematics) ∧
            new.sprite.position = (new.x, h.maxY - new.y))
        (HelloWorld.updateTouch P toDegrees h dt).bunnies
        (HelloWorld.update P toDegrees h dt).bunnies ∧
      ((∀ b ∈ s.spriteBatches, b.InSync) →
        ∀ c ∈ t.spriteBatches, ∀ (i : Nat) (sprite : Sprite), c.sprites[i]? = some sprite →
          (c.spriteDatas[i]?).map SpriteData.inSpritePosition = some (sprite.x, sprite.y)) := by
  obtain ⟨hc, ht, hx, hn, hg, hw, hh, hk⟩ := hcor
  obtain ⟨f1, f2, f3, f4, f5, f6, f7, f8⟩ := helloWorld_update_fields P toDegrees h dt
  have hrec : ∀ t, update P s dt = some t → (∀ b ∈ s.spriteBatches, b.InSync) →
      ∀ c ∈ t.spriteBatches, ∀ (i : Nat) (sprite : Sprite), c.sprites[i]? = some sprite →
        (c.spriteDatas[i]?).map SpriteData.inSpritePosition = some (sprite.x, sprite.y) := by
    intro t hu hsync c hc1 i sprite hi
    exact ((update_inSync P s t dt hu hsync c hc1).1.2.1 i sprite hi).2
  rcases updateTouch_updateClick_forms P toDegrees s h dt hc ht hx with
    ⟨timer, texId, hC, hT⟩ | ⟨timer0, timer, hC, hT⟩
  · have hu : update P s dt =
        some (updateBunnies P { s with clickDownTime := timer, currentTexId := texId } dt) := by
      simp only [update, hC, Option.map_some']
    have k := helloWorld_updateLoop_batches P (60 * dt) (gravity * (60 * dt)) s.width s.height
      s.spriteBatches h.bunnies s.randState hk
    refine ⟨_, _, hu, hC, rfl, ?_, ?_, Or.inl ⟨rfl, by rw [hT], ?_⟩,
      helloWorld_update_pointwise P toDegrees h dt, hrec _ hu⟩
    · rw [f3, hT]
      rfl
    · rw [f4, hT]
      rfl
    · refine ⟨?_, ?_, ?_, ?_, ?_, ?_, ?_, ?_⟩
      · rw [f6]
        exact (isClickDown_congr P s _ rfl rfl).trans hc
      · rw [f3, hT]
        rfl
      · rw [f4, hT]
        rfl
      · rw [f5, hT]
        exact hn
      · rw [f2, hT]
        simp only
        rw [← hw, ← hh, ← hg]
        exact k.2
      · rw [f7]
        exact hw
      · rw [f8]
        exact hh
      · rw [f1, hT]
        simp only
        rw [← hw, ← hh, ← hg]
        exact k.1
  · have hu : update P s dt =
        some (updateBunnies P
          { addBunniesCore P { s with clickDownTime := timer0 } bunniesEachTime with
            clickDownTime := timer } dt) := by
      simp only [update, hC, Option.map_some']
    obtain ⟨a1, _, a3⟩ := helloWorld_addBunnies_fields P toDegrees
      { h with touchDownTime := timer0 } (HelloWorld.bunniesEachTime P)
    refine ⟨_, _, hu, hC, rfl, ?_, ?_,
      Or.inr ⟨(SpriteBatch.new s.currentTexId).initSprites P
          (makeBunnies P bunniesEachTime s.randState).1,
        (HelloWorld.initBunnies P toDegrees h.currentTexId (HelloWorld.bunniesEachTime P)
          h.randState).1,
        addBunniesCore_batches P { s with clickDownTime := timer0 } bunniesEachTime, ?_,
        initSprites_kinematics P _ _, ?_, ?_, ?_⟩,
      helloWorld_update_pointwise P toDegrees h dt, hrec _ hu⟩
    · rw [f3, hT]
      rfl
    · rw [f4, hT]
      exact hx
    · rw [hT]
      exact a1
    · rw [hg]
      exact (initBunnies_kinematics P toDegrees h.currentTexId (HelloWorld.bunniesEachTime P)
        h.randState).1
    · exact addBunniesCore_bunnyCount P { s with clickDownTime := timer0 } bunniesEachTime
    · rw [f5, hT]
      exact a3

/-- Witness of C28: both variants right after start, with the pointer pressed; both spawn. -/
theorem helloWorld_update_refines_witness :
    Corresponds demoPlatform pressedDemo pressedScene ∧
      ∃ t, update demoPlatform pressedDemo (1 / 60) = some t ∧
        t.clickDownTime =
          (HelloWorld.update demoPlatform id pressedScene (1 / 60)).touchDownTime ∧
        t.currentTexId =
          (HelloWorld.update demoPlatform id pressedScene (1 / 60)).currentTexId ∧
        List.Forall₂
          (fun old new => ∃ g1,
            (∀ sprite : Sprite, sprite.kinematics = old.kinematics →
              new.kinematics =
                (updateBunny demoPlatform (60 * (1 / 60)) (gravity * (60 * (1 / 60)))
                  pressedScene.maxX pressedScene.maxY sprite g1).1.kinematics) ∧
              new.sprite.position = (new.x, pressedScene.maxY - new.y))
          (HelloWorld.updateTouch demoPlatform id pressedScene (1 / 60)).bunnies
          (HelloWorld.update demoPlatform id pressedScene (1 / 60)).bunnies := by
  have hcor : Corresponds demoPlatform pressedDemo pressedScene :=
    ⟨rfl, rfl, rfl, rfl, rfl, by simp [pressedDemo, pressedScene],
      by simp [pressedDemo, pressedScene], rfl⟩
  obtain ⟨t, s1, h1, _, _, h4, h5, _, h7, _⟩ :=
    helloWorld_update_refines demoPlatform id pressedDemo pressedScene (1 / 60) hcor
  exact ⟨hcor, t, h1, h4, h5, h7⟩

/-! ## The physics step and overflow -/

theorem ofExact_of_abs_lt (q : ℚ) (h : |q| < floatOverflow) :
    CFloat.ofExact q = CFloat.finite q := by
  obtain ⟨h1, h2⟩ := abs_lt.mp h
  simp only [CFloat.ofExact]
  rw [if_neg (not_le.mpr h2), if_neg (not_le.mpr h1)]

theorem ofExact_cases (q : ℚ) :
    CFloat.ofExact q = CFloat.finite q ∨ CFloat.ofExact q = CFloat.infinity false ∨
      CFloat.ofExact q = CFloat.infinity true := by
  simp only [CFloat.ofExact]
  split_ifs <;> simp

/-- The new coordinate `x + speedX * d` of a finite sprite for a finite `d` is finite or an
infinity, never a NaN. -/
theorem add_mul_cases (x a b : ℚ) :
    (∃ q, (CFloat.finite x).add ((CFloat.finite a).mul (CFloat.finite b)) = CFloat.finite q) ∨
      (CFloat.finite x).add ((CFloat.finite a).mul (CFloat.finite b)) =
        CFloat.infinity false ∨
      (CFloat.finite x).add ((CFloat.finite a).mul (CFloat.finite b)) =
        CFloat.infinity true := by
  simp only [CFloat.mul]
  rcases ofExact_cases (a * b) with h | h | h
  · rw [h]
    simp only [CFloat.add]
    rcases ofExact_cases (x + a * b) with k | k | k <;> rw [k] <;> simp
  · rw [h]
    simp [CFloat.add]
  · rw [h]
    simp [CFloat.add]

theorem updateBunnyF_x (P : Platform) (d gravityd maxX maxY : CFloat) (bunny : SpriteF)
    (g : RandStream) :
    (updateBunnyF P d gravityd maxX maxY bunny g).1.x =
      if (bunny.x.add (bunny.speedX.mul d)).gt maxX then maxX
      else if (bunny.x.add (bunny.speedX.mul d)).lt (CFloat.finite 0) then CFloat.finite 0
      else bunny.x.add (bunny.speedX.mul d) := by
  simp only [updateBunnyF]
  split_ifs <;> rfl

theorem updateBunnyF_speedX (P : Platform) (d gravityd maxX maxY : CFloat) (bunny : SpriteF)
    (g : RandStream) :
    (updateBunnyF P d gravityd maxX maxY bunny g).1.speedX =
      if (bunny.x.add (bunny.speedX.mul d)).gt maxX then bunny.speedX.mul (CFloat.finite (-1))
      else if (bunny.x.add (bunny.speedX.mul d)).lt (CFloat.finite 0) then
        bunny.speedX.mul (CFloat.finite (-1))
      else bunny.speedX := by
  simp only [updateBunnyF]
  split_ifs <;> rfl

theorem updateBunnyF_y (P : Platform) (d gravityd maxX maxY : CFloat) (bunny : SpriteF)
    (g : RandStream) :
    (updateBunnyF P d gravityd maxX maxY bunny g).1.y =
      if (bunny.y.add (bunny.speedY.mul d)).gt maxY then maxY
      else if (bunny.y.add (bunny.speedY.mul d)).lt (CFloat.finite 0) then CFloat.finite 0
      else bunny.y.add (bunny.speedY.mul d) := by
  simp only [updateBunnyF]
  split_ifs <;> rfl

/-- The two tests of the loop body on a coordinate that is finite or an infinity leave a
finite coordinate between `0` and the bound. -/
theorem clamp_cases (X : CFloat) (m : ℚ) (hm : 0 ≤ m)
    (hX : (∃ q, X = CFloat.finite q) ∨ X = CFloat.infinity false ∨ X = CFloat.infinity true) :
    ∃ q, (if X.gt (CFloat.finite m) then CFloat.finite m
        else if X.lt (CFloat.finite 0) then CFloat.finite 0 else X) = CFloat.finite q ∧
      0 ≤ q ∧ q ≤ m := by
  rcases hX with ⟨q, rfl⟩ | rfl | rfl
  · by_cases h1 : q > m
    · exact ⟨m, by simp [CFloat.gt, h1], hm, le_refl m⟩
    · by_cases h2 : 0 > q
      · exact ⟨0, by simp [CFloat.gt, CFloat.lt, h1, h2], le_refl 0, hm⟩
      · exact ⟨q, by simp [CFloat.gt, CFloat.lt, h1, h2], not_lt.mp h2, not_lt.mp h1⟩
  · exact ⟨m, by simp [CFloat.gt], hm, le_refl m⟩
  · exact ⟨0, by simp [CFloat.gt, CFloat.lt], le_refl 0, hm⟩

/-- C29, as stated, fails: with the frame time `1e38f` (the value `9860761 * 2 ^ 103`) the
factor `d = 60.f * deltaTime` overflows to an infinity; for a sprite at rest at the origin of
an 800 by 600 viewport the products `speedX * d` and `speedY * d` are `0 * inf`, a NaN, so
`x` and `y` are NaN after the step: no comparison with the bounds holds and nothing is
clamped. -/
theorem updateStepF_overflow_counterexample :
    (CFloat.finite 60).mul (CFloat.finite (9860761 * 2 ^ 103)) = CFloat.infinity false ∧
      (updateStepF demoPlatform (9860761 * 2 ^ 103) 800 600 (0, 0, 0, 0) zeroStream).1.x =
        CFloat.nan ∧
      (updateStepF demoPlatform (9860761 * 2 ^ 103) 800 600 (0, 0, 0, 0) zeroStream).1.y =
        CFloat.nan := by
  have hd : (CFloat.finite 60).mul (CFloat.finite (9860761 * 2 ^ 103)) =
      CFloat.infinity false := by
    simp only [CFloat.mul, CFloat.ofExact, floatOverflow]
    norm_num
  refine ⟨hd, ?_, ?_⟩
  · simp only [updateStepF, hd, updateBunnyF]
    simp [CFloat.mul, CFloat.add, CFloat.gt, CFloat.lt]
  · simp only [updateStepF, hd, updateBunnyF]
    simp [CFloat.mul, CFloat.add, CFloat.gt, CFloat.lt]

/-- C29, amended: for a finite sprite state, a finite frame time whose product with `60.f`
does not overflow (`|60 * dt| < 2 ^ 128 - 2 ^ 103`) and a viewport with `maxX ≥ 0` and
`maxY ≥ 0`, after one physics step the position is finite with `0 ≤ x ≤ maxX` and
`0 ≤ y ≤ maxY` (a coordinate that overflows to an infinity is clamped like any other), and
the magnitude of the horizontal speed is the one before the step. -/
theorem updateStepF_in_viewport (P : Platform) (dt maxX maxY x y sx sy : ℚ) (g : RandStream)
    (hd : |60 * dt| < floatOverflow) (hsx : |sx| < floatOverflow) (hx : 0 ≤ maxX)
    (hy : 0 ≤ maxY) :
    ∃ qx qy qsx,
      (updateStepF P dt maxX maxY (x, y, sx, sy) g).1.x = CFloat.finite qx ∧
      0 ≤ qx ∧ qx ≤ maxX ∧
      (updateStepF P dt maxX maxY (x, y, sx, sy) g).1.y = CFloat.finite qy ∧
      0 ≤ qy ∧ qy ≤ maxY ∧
      (updateStepF P dt maxX maxY (x, y, sx, sy) g).1.speedX = CFloat.finite qsx ∧
      |qsx| = |sx| := by
  have hdfin : (CFloat.finite 60).mul (CFloat.finite dt) = CFloat.finite (60 * dt) := by
    simp only [CFloat.mul]
    exact ofExact_of_abs_lt _ hd
  have hneg : (CFloat.finite sx).mul (CFloat.finite (-1)) = CFloat.finite (-sx) := by
    simp only [CFloat.mul]
    rw [ofExact_of_abs_lt _ (by rwa [mul_neg_one, abs_neg]), mul_neg_one]
  obtain ⟨qx, ex, bx1, bx2⟩ := clamp_cases _ maxX hx (add_mul_cases x sx (60 * dt))
  obtain ⟨qy, ey, by1, by2⟩ := clamp_cases _ maxY hy (add_mul_cases y sy (60 * dt))
  simp only [updateStepF, hdfin, updateBunnyF_x, updateBunnyF_y, updateBunnyF_speedX, hneg]
  by_cases c1 : ((CFloat.finite x).add ((CFloat.finite sx).mul (CFloat.finite (60 * dt)))).gt
      (CFloat.finite maxX) = true
  · exact ⟨qx, qy, -sx, ex, bx1, bx2, ey, by1, by2, by rw [if_pos c1], abs_neg sx⟩
  · by_cases c2 : ((CFloat.finite x).add
        ((CFloat.finite sx).mul (CFloat.finite (60 * dt)))).lt (CFloat.finite 0) = true
    · exact ⟨qx, qy, -sx, ex, bx1, bx2, ey, by1, by2, by rw [if_neg c1, if_pos c2],
        abs_neg sx⟩
    · exact ⟨qx, qy, sx, ex, bx1, bx2, ey, by1, by2, by rw [if_neg c1, if_neg c2], rfl⟩

/-- Witness of C29 amended: an 800 by 600 viewport, `dt = 1/60`, a sprite beyond the right
and the lower edge. -/
theorem updateStepF_in_viewport_witness :
    |60 * (1 / 60 : ℚ)| < floatOverflow ∧ |(3 : ℚ)| < floatOverflow ∧
      ∃ qx qy qsx,
        (updateStepF demoPlatform (1 / 60) 800 600 (900, 700, 3, 0) zeroStream).1.x =
          CFloat.finite qx ∧
        0 ≤ qx ∧ qx ≤ 800 ∧
        (updateStepF demoPlatform (1 / 60) 800 600 (900, 700, 3, 0) zeroStream).1.y =
          CFloat.finite qy ∧
        0 ≤ qy ∧ qy ≤ 600 ∧
        (updateStepF demoPlatform (1 / 60) 800 600 (900, 700, 3, 0) zeroStream).1.speedX =
          CFloat.finite qsx ∧
        |qsx| = |(3 : ℚ)| :=
  have h1 : |60 * (1 / 60 : ℚ)| < floatOverflow := by
    simp only [floatOverflow]
    norm_num
  have h2 : |(3 : ℚ)| < floatOverflow := by
    simp only [floatOverflow]
    norm_num
  ⟨h1, h2,
    updateStepF_in_viewport demoPlatform (1 / 60) 800 600 900 700 3 0 zeroStream h1 h2
      (by norm_num) (by norm_num)⟩

/-- Where the new coordinates do not overflow, the step with the values of `float` that are
not finite gives the position and the horizontal speed of the step in exact arithmetic. -/
theorem updateStepF_agrees (P : Platform) (dt maxX maxY x y sx sy : ℚ) (scale rotation : ℚ)
    (renderData : Option Nat) (g : RandStream) (hd : |60 * dt| < floatOverflow)
    (hsx : |sx| < floatOverflow) (h1 : |sx * (60 * dt)| < floatOverflow)
    (h2 : |x + sx * (60 * dt)| < floatOverflow) (h3 : |sy * (60 * dt)| < floatOverflow)
    (h4 : |y + sy * (60 * dt)| < floatOverflow) :
    (updateStepF P dt maxX maxY (x, y, sx, sy) g).1.x =
        CFloat.finite (updateBunny P (60 * dt) (gravity * (60 * dt)) maxX maxY
          { x := x, y := y, scale := scale, rotation := rotation, renderData := renderData,
            speedX := sx, speedY := sy } g).1.x ∧
      (updateStepF P dt maxX maxY (x, y, sx, sy) g).1.y =
        CFloat.finite (updateBunny P (60 * dt) (gravity * (60 * dt)) maxX maxY
          { x := x, y := y, scale := scale, rotation := rotation, renderData := renderData,
            speedX := sx, speedY := sy } g).1.y ∧
      (updateStepF P dt maxX maxY (x, y, sx, sy) g).1.speedX =
        CFloat.finite (updateBunny P (60 * dt) (gravity * (60 * dt)) maxX maxY
          { x := x, y := y, scale := scale, rotation := rotation, renderData := renderData,
            speedX := sx, speedY := sy } g).1.speedX := by
  have hdfin : (CFloat.finite 60).mul (CFloat.finite dt) = CFloat.finite (60 * dt) := by
    simp only [CFloat.mul]
    exact ofExact_of_abs_lt _ hd
  have hneg : (CFloat.finite sx).mul (CFloat.finite (-1)) = CFloat.finite (-sx) := by
    simp only [CFloat.mul]
    rw [ofExact_of_abs_lt _ (by rwa [mul_neg_one, abs_neg]), mul_neg_one]
  have hX : (CFloat.finite x).add ((CFloat.finite sx).mul (CFloat.finite (60 * dt))) =
      CFloat.finite (x + sx * (60 * dt)) := by
    simp only [CFloat.mul, ofExact_of_abs_lt _ h1, CFloat.add, ofExact_of_abs_lt _ h2]
  have hY : (CFloat.finite y).add ((CFloat.finite sy).mul (CFloat.finite (60 * dt))) =
      CFloat.finite (y + sy * (60 * dt)) := by
    simp only [CFloat.mul, ofExact_of_abs_lt _ h3, CFloat.add, ofExact_of_abs_lt _ h4]
  simp only [updateStepF, hdfin, updateBunnyF_x, updateBunnyF_y, updateBunnyF_speedX, hneg, hX,
    hY, CFloat.gt, CFloat.lt, decide_eq_true_eq]
  refine ⟨?_, ?_, ?_⟩
  · simp only [updateBunny]
    split_ifs <;> simp_all
  · simp only [updateBunny]
    split_ifs <;> simp_all
  · simp only [updateBunny]
    split_ifs <;> simp_all

end BunnyMark
